import Mathlib

/-!
# openxr-minimal: pose mathematics, depth-texture cache, frame loop

A shallow embedding of `openxr-minimal.c`.

* The `float` matrix helpers (`InitPoseMat`, `MultiplyMat`, `InvertOrthogonalMat`) are embedded
  over an arbitrary commutative ring `α`, so that they can be evaluated over `ℚ` and reasoned
  about over `ℝ`; floating-point rounding is not modelled.
* A `float[16]` array is a function `Fin 16 → α`; `m i` is the C expression `m[i]`.
-/

namespace OpenXRMinimal

/-! ## Pose mathematics -/

/-- The OpenXR `XrQuaternionf`: fields `x`, `y`, `z`, `w`. -/
structure XrQuaternionf (α : Type) where
  x : α
  y : α
  z : α
  w : α

/-- The OpenXR `XrVector3f`: fields `x`, `y`, `z`. -/
structure XrVector3f (α : Type) where
  x : α
  y : α
  z : α

/-- The OpenXR `XrPosef`: an orientation quaternion and a position. -/
structure XrPosef (α : Type) where
  orientation : XrQuaternionf α
  position : XrVector3f α

/-- A C `float[16]`, indexed as in the source. -/
abbrev Mat16 (α : Type) := Fin 16 → α

/-- The array whose element at index `i` is the `i`-th argument: the outcome of the sixteen
assignments `result[0] = a0; ...; result[15] = a15` of the matrix helpers. -/
def mk16 {α : Type} (a0 a1 a2 a3 a4 a5 a6 a7 a8 a9 a10 a11 a12 a13 a14 a15 : α) : Mat16 α :=
  fun i => match i.val with
  | 0 => a0 | 1 => a1 | 2 => a2 | 3 => a3
  | 4 => a4 | 5 => a5 | 6 => a6 | 7 => a7
  | 8 => a8 | 9 => a9 | 10 => a10 | 11 => a11
  | 12 => a12 | 13 => a13 | 14 => a14 | _ => a15

/-- Function `InitPoseMat(result, pose)` (source lines 874-910): the array written to `result`. -/
def InitPoseMat {α : Type} [CommRing α] (pose : XrPosef α) : Mat16 α :=
  let x2 := pose.orientation.x + pose.orientation.x
  let y2 := pose.orientation.y + pose.orientation.y
  let z2 := pose.orientation.z + pose.orientation.z
  let xx2 := pose.orientation.x * x2
  let yy2 := pose.orientation.y * y2
  let zz2 := pose.orientation.z * z2
  let yz2 := pose.orientation.y * z2
  let wx2 := pose.orientation.w * x2
  let xy2 := pose.orientation.x * y2
  let wz2 := pose.orientation.w * z2
  let xz2 := pose.orientation.x * z2
  let wy2 := pose.orientation.w * y2
  mk16
    (1 - yy2 - zz2)  -- result[0]
    (xy2 + wz2)  -- result[1]
    (xz2 - wy2)  -- result[2]
    0  -- result[3]
    (xy2 - wz2)  -- result[4]
    (1 - xx2 - zz2)  -- result[5]
    (yz2 + wx2)  -- result[6]
    0  -- result[7]
    (xz2 + wy2)  -- result[8]
    (yz2 - wx2)  -- result[9]
    (1 - xx2 - yy2)  -- result[10]
    0  -- result[11]
    (pose.position.x)  -- result[12]
    (pose.position.y)  -- result[13]
    (pose.position.z)  -- result[14]
    1  -- result[15]

/-- Function `MultiplyMat(result, a, b)` (source lines 912-933): the array written to `result`. -/
def MultiplyMat {α : Type} [CommRing α] (a b : Mat16 α) : Mat16 α :=
  mk16
    (a 0 * b 0 + a 4 * b 1 + a 8 * b 2 + a 12 * b 3)
    (a 1 * b 0 + a 5 * b 1 + a 9 * b 2 + a 13 * b 3)
    (a 2 * b 0 + a 6 * b 1 + a 10 * b 2 + a 14 * b 3)
    (a 3 * b 0 + a 7 * b 1 + a 11 * b 2 + a 15 * b 3)
    (a 0 * b 4 + a 4 * b 5 + a 8 * b 6 + a 12 * b 7)
    (a 1 * b 4 + a 5 * b 5 + a 9 * b 6 + a 13 * b 7)
    (a 2 * b 4 + a 6 * b 5 + a 10 * b 6 + a 14 * b 7)
    (a 3 * b 4 + a 7 * b 5 + a 11 * b 6 + a 15 * b 7)
    (a 0 * b 8 + a 4 * b 9 + a 8 * b 10 + a 12 * b 11)
    (a 1 * b 8 + a 5 * b 9 + a 9 * b 10 + a 13 * b 11)
    (a 2 * b 8 + a 6 * b 9 + a 10 * b 10 + a 14 * b 11)
    (a 3 * b 8 + a 7 * b 9 + a 11 * b 10 + a 15 * b 11)
    (a 0 * b 12 + a 4 * b 13 + a 8 * b 14 + a 12 * b 15)
    (a 1 * b 12 + a 5 * b 13 + a 9 * b 14 + a 13 * b 15)
    (a 2 * b 12 + a 6 * b 13 + a 10 * b 14 + a 14 * b 15)
    (a 3 * b 12 + a 7 * b 13 + a 11 * b 14 + a 15 * b 15)

/-- Function `InvertOrthogonalMat(result, src)` (source lines 935-953): the array written to
`result`. -/
def InvertOrthogonalMat {α : Type} [CommRing α] (src : Mat16 α) : Mat16 α :=
  mk16
    (src 0)
    (src 4)
    (src 8)
    0
    (src 1)
    (src 5)
    (src 9)
    0
    (src 2)
    (src 6)
    (src 10)
    0
    (-(src 0 * src 12 + src 1 * src 13 + src 2 * src 14))
    (-(src 4 * src 12 + src 5 * src 13 + src 6 * src 14))
    (-(src 8 * src 12 + src 9 * src 13 + src 10 * src 14))
    1

/-- The 4x4 identity matrix as a 16-element array (1 at indices 0, 5, 10, 15). -/
def identity16 {α : Type} [CommRing α] : Mat16 α :=
  mk16 1 0 0 0 0 1 0 0 0 0 1 0 0 0 0 1

/-- The source's `enum GraphicsAPI` (line 955). -/
inductive GraphicsAPI where
  | GRAPHICS_VULKAN
  | GRAPHICS_OPENGL
  | GRAPHICS_OPENGL_ES
  | GRAPHICS_D3D
deriving DecidableEq, Repr

/-- Function `InitProjectionMat(result, graphicsApi, tanAngleLeft, tanAngleRight, tanAngleUp,
tanAngleDown, nearZ, farZ)` (source lines 956-1016): the array written to `result`. The
arguments of `mk16` are listed by index; the source assigns them row by row. -/
def InitProjectionMat {α : Type} [LinearOrderedField α] (graphicsApi : GraphicsAPI)
    (tanAngleLeft tanAngleRight tanAngleUp tanAngleDown nearZ farZ : α) : Mat16 α :=
  let tanAngleWidth := tanAngleRight - tanAngleLeft
  let tanAngleHeight :=
    if graphicsApi = .GRAPHICS_VULKAN then tanAngleDown - tanAngleUp
    else tanAngleUp - tanAngleDown
  let offsetZ :=
    if graphicsApi = .GRAPHICS_OPENGL ∨ graphicsApi = .GRAPHICS_OPENGL_ES then nearZ else 0
  if farZ ≤ nearZ then
    -- place the far plane at infinity
    mk16
      (2 / tanAngleWidth)  -- result[0]
      0  -- result[1]
      0  -- result[2]
      0  -- result[3]
      0  -- result[4]
      (2 / tanAngleHeight)  -- result[5]
      0  -- result[6]
      0  -- result[7]
      ((tanAngleRight + tanAngleLeft) / tanAngleWidth)  -- result[8]
      ((tanAngleUp + tanAngleDown) / tanAngleHeight)  -- result[9]
      (-1)  -- result[10]
      (-1)  -- result[11]
      0  -- result[12]
      0  -- result[13]
      (-(nearZ + offsetZ))  -- result[14]
      0  -- result[15]
  else
    -- normal projection
    mk16
      (2 / tanAngleWidth)  -- result[0]
      0  -- result[1]
      0  -- result[2]
      0  -- result[3]
      0  -- result[4]
      (2 / tanAngleHeight)  -- result[5]
      0  -- result[6]
      0  -- result[7]
      ((tanAngleRight + tanAngleLeft) / tanAngleWidth)  -- result[8]
      ((tanAngleUp + tanAngleDown) / tanAngleHeight)  -- result[9]
      (-(farZ + offsetZ) / (farZ - nearZ))  -- result[10]
      (-1)  -- result[11]
      0  -- result[12]
      0  -- result[13]
      (-(farZ * (nearZ + offsetZ)) / (farZ - nearZ))  -- result[14]
      0  -- result[15]

/-- The matrix `RenderLayer` uploads for one view (source lines 1118-1134). The arguments are
the tangents of the view's four field-of-view angles (`tan(layerView->fov.angleLeft)` and so
on) and the view's pose; `nearZ` is `0.05f` and `farZ` is `100.0f`. -/
def modelViewProjMat {α : Type} [LinearOrderedField α] (tanLeft tanRight tanDown tanUp : α)
    (pose : XrPosef α) : Mat16 α :=
  let nearZ : α := 5 / 100
  let farZ : α := 100
  let projMat := InitProjectionMat .GRAPHICS_OPENGL tanLeft tanRight tanUp tanDown nearZ farZ
  let invViewMat := InitPoseMat pose
  let viewMat := InvertOrthogonalMat invViewMat
  MultiplyMat projMat viewMat

/-- A 16-element array read as the column-major 4x4 matrix: the entry in row `r` and column
`c` is element `4 * c + r`. -/
def Mat16.toMatrix {α : Type} (m : Mat16 α) : Matrix (Fin 4) (Fin 4) α :=
  fun r c => m ⟨4 * c.val + r.val, by omega⟩

/-- The orientation as a mathematical quaternion `w + x i + y j + z k`. -/
def XrQuaternionf.toQuaternion {α : Type} [CommRing α] (q : XrQuaternionf α) : Quaternion α :=
  ⟨q.w, q.x, q.y, q.z⟩

/-- A point as the pure quaternion `x i + y j + z k`. -/
def XrVector3f.toQuaternion {α : Type} [CommRing α] (v : XrVector3f α) : Quaternion α :=
  ⟨0, v.x, v.y, v.z⟩

/-! ## Runtime results and the call log

`XrResult` is a signed integer; the three macros below are those of `openxr.h`
(`XR_SUCCEEDED(r)` is `r >= 0`, `XR_UNQUALIFIED_SUCCESS(r)` is `r == 0`). -/

/-- The OpenXR result code type (`XrResult`, a signed 32-bit enum). -/
abbrev XrResult := Int

/-- Constant `XR_SUCCESS`. -/
def XR_SUCCESS : XrResult := 0

/-- Macro `XR_SUCCEEDED(result)`: `result >= 0`. -/
def XR_SUCCEEDED (result : XrResult) : Bool := decide (0 ≤ result)

/-- Macro `XR_FAILED(result)`: `result < 0`. -/
def XR_FAILED (result : XrResult) : Bool := decide (result < 0)

/-- Macro `XR_UNQUALIFIED_SUCCESS(result)`: `result == 0`. -/
def XR_UNQUALIFIED_SUCCESS (result : XrResult) : Bool := decide (result = 0)

/-- Constant `XR_TRUE`. -/
def XR_TRUE : Nat := 1

/-- Constant `XR_FALSE`. -/
def XR_FALSE : Nat := 0

/-- Constant `XR_ENVIRONMENT_BLEND_MODE_OPAQUE`. -/
def XR_ENVIRONMENT_BLEND_MODE_OPAQUE : Int := 1

/-- Constant `GL_COLOR_ATTACHMENT0` (source line 42). -/
def GL_COLOR_ATTACHMENT0 : Nat := 0x8CE0

/-- Constant `GL_DEPTH_ATTACHMENT` (source line 43). -/
def GL_DEPTH_ATTACHMENT : Nat := 0x8D00

/-- Function `CheckResult(instance, result, str)` (source lines 101-119): 1 when the result code
succeeded, otherwise 0 (after printing a diagnostic, which is not modelled). -/
def CheckResult (result : XrResult) : Int :=
  if XR_SUCCEEDED result then 1 else 0

/-- One element of a projection layer's `views` array, as `RenderLayer` fills it in
(source lines 1087-1094); the pose and field of view copied from the runtime are left out. -/
structure XrCompositionLayerProjectionView where
  swapchain : Nat
  offsetX : Int
  offsetY : Int
  width : Int
  height : Int
deriving DecidableEq, Repr

/-- The value of a projection layer's `views` pointer. The program assigns it in one place,
`layer->views = projectionLayerViews` (source line 1153), with the address of an array that is
local to `RenderLayer` (declared at line 1051). That array stops existing when `RenderLayer`
returns, so the pointer found in the layer afterwards, the one `RenderFrame` hands to
`xrEndFrame`, points at no live object and stands for no array contents. -/
inductive ViewsPointer where
  | localOfReturnedRenderLayer
deriving DecidableEq, Repr

/-- The local `XrCompositionLayerProjection layer` of `RenderFrame`. Its `viewCount` and `views`
fields are not initialised by `RenderFrame`; `none` stands for "never assigned". -/
structure XrCompositionLayerProjection where
  layerFlags : Int
  space : Nat
  viewCount : Option Nat
  views : Option ViewsPointer
deriving DecidableEq, Repr

/-- The `XrFrameEndInfo` handed to `xrEndFrame` (source lines 1209-1214); `layer` is the
structure `layers[0]` points to. -/
structure XrFrameEndInfo where
  displayTime : Int
  environmentBlendMode : Int
  layerCount : Int
  layer : XrCompositionLayerProjection
deriving DecidableEq, Repr

/-- The calls the program issues to the XR runtime and to OpenGL, with the arguments that
matter here and, for runtime calls, the result code the runtime returned. The three
`Create...`/`Get...` constructors without a result mark main's invocation of the start-up
helper of that name. -/
inductive Call where
  | xrEnumerateInstanceExtensionProperties (result : XrResult)
  | CreateInstance
  | GetSystemId
  | EnumerateViewConfigs
  | CreateSession
  | CreateActions
  | CreateStageSpace
  | glGenFramebuffers
  | CreateSwapchains
  | xrPollEvent (result : XrResult)
  | xrBeginSession (result : XrResult)
  | xrSyncActions (result : XrResult)
  | xrWaitFrame (result : XrResult)
  | xrBeginFrame (result : XrResult)
  | xrLocateViews (displayTime : Int) (viewCapacityInput : Int) (result : XrResult)
  | xrAcquireSwapchainImage (swapchain : Nat) (result : XrResult)
  | xrWaitSwapchainImage (swapchain : Nat) (result : XrResult)
  | xrReleaseSwapchainImage (swapchain : Nat) (result : XrResult)
  | xrEndFrame (info : XrFrameEndInfo) (result : XrResult)
  | xrDestroySwapchain (swapchain : Nat) (result : XrResult)
  | xrDestroySpace (space : Nat) (result : XrResult)
  | xrEndSession (result : XrResult)
  | xrDestroySession (result : XrResult)
  | xrDestroyInstance (result : XrResult)
  | OGUSleep (usecs : Nat)
  | glBindTexture (texture : Nat)
  | glGenTextures (texture : Nat)
  | glTexImage2D
  | glBindFramebuffer (framebuffer : Nat)
  | glViewport (x y width height : Int)
  | glFramebufferTexture2D (attachment texture : Nat)
  | glClearColor
  | glClearDepth
  | glClear
  | glUseProgram
  | glUniformMatrix4fv
  | glUniform4fv
deriving DecidableEq, Repr

/-- The OpenGL commands (as opposed to XR runtime calls and helper markers). -/
def Call.isGL : Call → Bool
  | .glBindTexture _ | .glGenTextures _ | .glTexImage2D | .glBindFramebuffer _
  | .glViewport _ _ _ _ | .glFramebufferTexture2D _ _ | .glClearColor | .glClearDepth
  | .glClear | .glUseProgram | .glUniformMatrix4fv | .glUniform4fv => true
  | _ => false

/-- The calls `SyncInput` and `RenderFrame` (with `RenderLayer`) issue: `xrSyncActions`,
the frame calls, the swapchain calls and the OpenGL commands. -/
def Call.isFrameCall : Call → Bool
  | .xrSyncActions _ | .xrWaitFrame _ | .xrBeginFrame _ | .xrLocateViews _ _ _
  | .xrAcquireSwapchainImage _ _ | .xrWaitSwapchainImage _ _ | .xrReleaseSwapchainImage _ _
  | .xrEndFrame _ _ => true
  | c => c.isGL

/-- The mutable process state the embedded functions touch: the two globals of the
colour/depth cache (source lines 72-74), the number of texture names `glGenTextures` has
handed out, and the log of calls issued so far (oldest first). -/
structure World where
  colorDepthPairs : List Nat
  numColorDepthPairs : Int
  texturesGenerated : Nat
  log : List Call
deriving DecidableEq, Repr

/-- The state at program start: `colorDepthPairs` is `NULL`, `numColorDepthPairs` is 0
(zero-initialised globals), nothing has been called. -/
def World.initial : World :=
  { colorDepthPairs := [], numColorDepthPairs := 0, texturesGenerated := 0, log := [] }

/-- Record one call at the end of the log. -/
def World.call (w : World) (c : Call) : World :=
  { w with log := w.log ++ [c] }

/-! ## The colour/depth texture cache -/

/-- Function `CreateDepthTexture(colorTexture)` (source lines 841-857). `genName k` is the
texture name the `k`-th call of `glGenTextures` returns (an input from OpenGL); the size queries and
texture parameters are not logged. Returns `depthTexture`. -/
def CreateDepthTexture (genName : Nat → Nat) (w : World) (colorTexture : Nat) : Nat × World :=
  let w := w.call (.glBindTexture colorTexture)
  let depthTexture := genName w.texturesGenerated
  let w := { w.call (.glGenTextures depthTexture) with
             texturesGenerated := w.texturesGenerated + 1 }
  let w := w.call (.glBindTexture depthTexture)
  let w := w.call .glTexImage2D
  (depthTexture, w)

/-- The search loop of `GetDepthTextureFromColorTexture` (source lines 862-866), started at
index `i` with `remaining` iterations to go: `some d` when the loop returns `d`, `none`
when it runs to its end. -/
def cacheSearch (colorDepthPairs : List Nat) (tex : Nat) :
    (remaining : Nat) → (i : Nat) → Option Nat
  | 0, _ => none
  | remaining + 1, i =>
    if colorDepthPairs.getD (i * 2) 0 = tex then
      some (colorDepthPairs.getD (i * 2 + 1) 0)
    else
      cacheSearch colorDepthPairs tex remaining (i + 1)

/-- Function `realloc(buf, n * sizeof(uint32_t))` on a buffer of `uint32_t`: the first `n`
elements are kept, new elements (indeterminate in C) read as 0. -/
def realloc (buf : List Nat) (n : Nat) : List Nat :=
  (buf ++ List.replicate n 0).take n

/-- Function `GetDepthTextureFromColorTexture(tex)` (source lines 859-870). The function never
assigns `numColorDepthPairs`. -/
def GetDepthTextureFromColorTexture (genName : Nat → Nat) (w : World) (tex : Nat) :
    Nat × World :=
  match cacheSearch w.colorDepthPairs tex w.numColorDepthPairs.toNat 0 with
  | some depth => (depth, w)
  | none =>
    let buf := realloc w.colorDepthPairs ((w.numColorDepthPairs + 1) * 2).toNat
    let buf := buf.set (w.numColorDepthPairs * 2 + 0).toNat tex
    let (depth, w) := CreateDepthTexture genName { w with colorDepthPairs := buf } tex
    let buf := w.colorDepthPairs.set (w.numColorDepthPairs * 2 + 1).toNat depth
    (depth, { w with colorDepthPairs := buf })

/-! ## Rendering one frame -/

/-- The `struct SwapchainInfo` of the source (lines 83-88). -/
structure SwapchainInfo where
  handle : Nat
  width : Int
  height : Int
deriving DecidableEq, Repr

/-- What start-up leaves behind for the frame loop: the number of view configurations, the
stage space, the per-view swapchains (`swapchains[i]`), the colour texture of each swapchain
image (`swapchainImages[i][j].image`) and the framebuffer object. -/
structure Session where
  numViewConfigs : Int
  stageSpace : Nat
  swapchains : Nat → SwapchainInfo
  swapchainImages : Nat → Nat → Nat
  frameBuffer : Nat

/-- What the runtime answers during one call of `RenderFrame`: the result code of each
runtime call and the values it writes back. The per-view answers are indexed by the view
index `i`. An answer is only consulted if the corresponding call is made. -/
structure FrameInput where
  waitFrame : XrResult
  shouldRender : Nat
  predictedDisplayTime : Int
  beginFrame : XrResult
  locateViews : XrResult
  viewCountOutput : Nat
  acquire : Nat → XrResult
  swapchainImageIndex : Nat → Nat
  waitImage : Nat → XrResult
  release : Nat → XrResult
  endFrame : XrResult

/-- The OpenGL commands `RenderLayer` issues for one view between the swapchain wait and the
release (source lines 1101-1142). The projection and view matrices it computes in between
(`InitProjectionMat`, `InitPoseMat`, `InvertOrthogonalMat`, `MultiplyMat`) are floating-point
payload of `glUniformMatrix4fv` and are not part of the log. -/
def renderCommands (frameBuffer : Nat) (sc : SwapchainInfo) (colorTexture depthTexture : Nat) :
    List Call :=
  [ .glBindFramebuffer frameBuffer,
    .glViewport 0 0 sc.width sc.height,
    .glFramebufferTexture2D GL_COLOR_ATTACHMENT0 colorTexture,
    .glFramebufferTexture2D GL_DEPTH_ATTACHMENT depthTexture,
    .glClearColor, .glClearDepth, .glClear,
    .glUseProgram, .glUniformMatrix4fv, .glUniform4fv,
    .glBindFramebuffer 0 ]

/-- The per-view loop of `RenderLayer` (source lines 1064-1150), started at view `i` with
`remaining` iterations to go. The first component is 0 when an iteration executed `return 0`
and 1 when the loop ran to its end. -/
def renderViews (genName : Nat → Nat) (cfg : Session) (inp : FrameInput) :
    (remaining : Nat) → (i : Nat) → World → Int × World
  | 0, _, w => (1, w)
  | remaining + 1, i, w =>
    let viewSwapchain := cfg.swapchains i
    let w := w.call (.xrAcquireSwapchainImage viewSwapchain.handle (inp.acquire i))
    if CheckResult (inp.acquire i) = 0 then (0, w) else
    let w := w.call (.xrWaitSwapchainImage viewSwapchain.handle (inp.waitImage i))
    if CheckResult (inp.waitImage i) = 0 then (0, w) else
    let colorTexture := cfg.swapchainImages i (inp.swapchainImageIndex i)
    let (depthTexture, w) := GetDepthTextureFromColorTexture genName w colorTexture
    let w := { w with log := w.log ++
                 renderCommands cfg.frameBuffer viewSwapchain colorTexture depthTexture }
    let w := w.call (.xrReleaseSwapchainImage viewSwapchain.handle (inp.release i))
    if CheckResult (inp.release i) = 0 then (0, w) else
    renderViews genName cfg inp remaining (i + 1) w

/-- The contents of `RenderLayer`'s local array `projectionLayerViews` once the per-view loop
has run to its end: entry `i` carries swapchain `i` and its full image rectangle (source
lines 1087-1094). The array lives only as long as the `RenderLayer` call. -/
def projectionLayerViews (cfg : Session) (viewCountOutput : Nat) :
    List XrCompositionLayerProjectionView :=
  (List.range viewCountOutput).map fun i =>
    { swapchain := (cfg.swapchains i).handle, offsetX := 0, offsetY := 0,
      width := (cfg.swapchains i).width, height := (cfg.swapchains i).height }

/-- Function `RenderLayer(...)` (source lines 1019-1157): the return value, the layer structure
(`*layer`, modified only on the unqualified-success path) as it is after the return, and the
new state. The `views` field then holds the address of the local array of the call that has
just returned. -/
def RenderLayer (genName : Nat → Nat) (cfg : Session) (inp : FrameInput)
    (predictedDisplayTime : Int) (layer : XrCompositionLayerProjection) (w : World) :
    Int × XrCompositionLayerProjection × World :=
  let viewCapacityInput := cfg.numViewConfigs
  let result := inp.locateViews
  let w := w.call (.xrLocateViews predictedDisplayTime viewCapacityInput result)
  if CheckResult result = 0 then (0, layer, w) else
  if XR_UNQUALIFIED_SUCCESS result then
    match renderViews genName cfg inp inp.viewCountOutput 0 w with
    | (0, w) => (0, layer, w)
    | (_, w) =>
      (1, { layer with viewCount := some inp.viewCountOutput,
                       views := some .localOfReturnedRenderLayer }, w)
  else
    (1, layer, w)

/-- Function `RenderFrame(...)` (source lines 1159-1223): the return value and the new state. -/
def RenderFrame (genName : Nat → Nat) (cfg : Session) (inp : FrameInput) (w : World) :
    Int × World :=
  let w := w.call (.xrWaitFrame inp.waitFrame)
  if CheckResult inp.waitFrame = 0 then (0, w) else
  let w := w.call (.xrBeginFrame inp.beginFrame)
  if CheckResult inp.beginFrame = 0 then (0, w) else
  let layerCount : Int := 0
  let layer : XrCompositionLayerProjection :=
    { layerFlags := 0, space := cfg.stageSpace, viewCount := none, views := none }
  let (layerCount, layer, w) :=
    if inp.shouldRender = XR_TRUE then
      match RenderLayer genName cfg inp inp.predictedDisplayTime layer w with
      | (0, layer, w) => (layerCount, layer, w)
      | (_, layer, w) => (layerCount + 1, layer, w)
    else (layerCount, layer, w)
  let fei : XrFrameEndInfo :=
    { displayTime := inp.predictedDisplayTime,
      environmentBlendMode := XR_ENVIRONMENT_BLEND_MODE_OPAQUE,
      layerCount := layerCount,
      layer := layer }
  let w := w.call (.xrEndFrame fei inp.endFrame)
  if CheckResult inp.endFrame = 0 then (0, w) else
  (1, w)

/-! ## Start-up checks -/

/-- Constant `XR_KHR_OPENGL_ENABLE_EXTENSION_NAME`. -/
def XR_KHR_OPENGL_ENABLE_EXTENSION_NAME : String := "XR_KHR_opengl_enable"

/-- Conversion of an unsigned count to C `int` (two's complement, 32 bits), as in
`return extensionCount;`. -/
def toInt32 (n : Nat) : Int :=
  if n % 2 ^ 32 < 2 ^ 31 then (n % 2 ^ 32 : Nat) else (n % 2 ^ 32 : Nat) - 2 ^ 32

/-- What the outside world answers during start-up: the result codes of the two
`xrEnumerateInstanceExtensionProperties` calls and the extension names the runtime
enumerates; the return values of the start-up helpers `CreateInstance`, `GetSystemId`,
`EnumerateViewConfigs` (the view count), `CreateSession`, `CreateActions`, `CreateStageSpace`
and `CreateSwapchains`; and the handles those helpers store in the globals. -/
structure StartupInput where
  enumerateCount : XrResult
  enumerateFill : XrResult
  extensions : List String
  createInstance : Int
  getSystemId : Int
  enumerateViewConfigs : Int
  createSession : Int
  createActions : Int
  createStageSpace : Int
  createSwapchains : Int
  stageSpace : Nat
  frameBuffer : Nat
  swapchains : Nat → SwapchainInfo
  swapchainImages : Nat → Nat → Nat

/-- Function `EnumerateExtensions(&extensionProps)` (source lines 121-151): the return value, the
names stored in `extensionProps`, and the new state. -/
def EnumerateExtensions (start : StartupInput) (w : World) : Int × List String × World :=
  let w := w.call (.xrEnumerateInstanceExtensionProperties start.enumerateCount)
  if CheckResult start.enumerateCount = 0 then (0, [], w) else
  let w := w.call (.xrEnumerateInstanceExtensionProperties start.enumerateFill)
  if CheckResult start.enumerateFill = 0 then (0, start.extensions, w) else
  (toInt32 start.extensions.length, start.extensions, w)

/-- The loop of `ExtensionSupported` (source lines 157-163), started at index `i` with
`remaining` iterations to go and the current value of `supported`. `strcmp` returning 0 is
string equality. -/
def extensionSupportedLoop (extensions : List String) (extensionName : String) :
    (remaining : Nat) → (i : Nat) → (supported : Int) → Int
  | 0, _, supported => supported
  | remaining + 1, i, supported =>
    extensionSupportedLoop extensions extensionName remaining (i + 1)
      (if extensionName = extensions.getD i "" then 1 else supported)

/-- Function `ExtensionSupported(extensions, extensionsCount, extensionName)` (source lines
153-165). -/
def ExtensionSupported (extensions : List String) (extensionsCount : Int)
    (extensionName : String) : Int :=
  extensionSupportedLoop extensions extensionName extensionsCount.toNat 0 0

/-! ## Action set-up -/

/-- The runtime calls `CreateActions` issues, with the string argument that tells them apart
and the result code the runtime returned. -/
inductive ActionCall where
  | xrCreateActionSet (result : XrResult)
  | xrStringToPath (pathString : String) (result : XrResult)
  | xrCreateAction (actionName : String) (result : XrResult)
  | xrSuggestInteractionProfileBindings (result : XrResult)
  | xrCreateActionSpace (subactionPath : String) (result : XrResult)
  | xrAttachSessionActionSets (result : XrResult)
deriving DecidableEq, Repr

/-- What the runtime answers during `CreateActions`: the result code of each call.
`stringToPath k` is the result of the `k`-th `xrStringToPath` call in source order
(0 to 14), `createAction k` that of the `k`-th `xrCreateAction` (grab, pose, vibrate, quit),
`createActionSpace k` that of the `k`-th `xrCreateActionSpace` (left hand, right hand). -/
structure ActionsInput where
  createActionSet : XrResult
  stringToPath : Nat → XrResult
  createAction : Nat → XrResult
  suggestInteractionProfileBindings : XrResult
  createActionSpace : Nat → XrResult
  attachSessionActionSets : XrResult

/-- Function `CreateActions(instance, systemId, session, actionSet)` (source lines 397-649):
the return value and the runtime calls issued, oldest first. The local variable `result` is
carried along explicitly: the source assigns it from `xrCreateActionSet`, `xrCreateAction`,
`xrSuggestInteractionProfileBindings`, `xrCreateActionSpace` and
`xrAttachSessionActionSets`, and from no `xrStringToPath` call, so that the two
`CheckResult(instance, result, "xrStringToPath")` tests (lines 417 and 497) read the value
left by the call before. -/
def CreateActions (inp : ActionsInput) : Int × List ActionCall :=
  -- create action set
  let result := inp.createActionSet
  let log := [ActionCall.xrCreateActionSet result]
  if CheckResult result = 0 then (0, log) else
  let log := log ++
    [.xrStringToPath "/user/hand/left" (inp.stringToPath 0),
     .xrStringToPath "/user/hand/right" (inp.stringToPath 1)]
  if CheckResult result = 0 then (0, log) else
  let result := inp.createAction 0
  let log := log ++ [.xrCreateAction "grab_object" result]
  if CheckResult result = 0 then (0, log) else
  let result := inp.createAction 1
  let log := log ++ [.xrCreateAction "hand_pose" result]
  if CheckResult result = 0 then (0, log) else
  let result := inp.createAction 2
  let log := log ++ [.xrCreateAction "vibrate_hand" result]
  if CheckResult result = 0 then (0, log) else
  let result := inp.createAction 3
  let log := log ++ [.xrCreateAction "quit_session" result]
  if CheckResult result = 0 then (0, log) else
  let log := log ++
    [.xrStringToPath "/user/hand/left/input/select/click" (inp.stringToPath 2),
     .xrStringToPath "/user/hand/right/input/select/click" (inp.stringToPath 3),
     .xrStringToPath "/user/hand/left/input/squeeze/value" (inp.stringToPath 4),
     .xrStringToPath "/user/hand/right/input/squeeze/value" (inp.stringToPath 5),
     .xrStringToPath "/user/hand/left/input/squeeze/click" (inp.stringToPath 6),
     .xrStringToPath "/user/hand/right/input/squeeze/click" (inp.stringToPath 7),
     .xrStringToPath "/user/hand/left/input/grip/pose" (inp.stringToPath 8),
     .xrStringToPath "/user/hand/right/input/grip/pose" (inp.stringToPath 9),
     .xrStringToPath "/user/hand/left/output/haptic" (inp.stringToPath 10),
     .xrStringToPath "/user/hand/right/output/haptic" (inp.stringToPath 11),
     .xrStringToPath "/user/hand/left/input/menu/click" (inp.stringToPath 12),
     .xrStringToPath "/user/hand/right/input/menu/click" (inp.stringToPath 13)]
  if CheckResult result = 0 then (0, log) else
  -- KHR Simple
  let log := log ++
    [.xrStringToPath "/interaction_profiles/khr/simple_controller" (inp.stringToPath 14)]
  let result := inp.suggestInteractionProfileBindings
  let log := log ++ [.xrSuggestInteractionProfileBindings result]
  if CheckResult result = 0 then (0, log) else
  let result := inp.createActionSpace 0
  let log := log ++ [.xrCreateActionSpace "/user/hand/left" result]
  if CheckResult result = 0 then (0, log) else
  let result := inp.createActionSpace 1
  let log := log ++ [.xrCreateActionSpace "/user/hand/right" result]
  if CheckResult result = 0 then (0, log) else
  let result := inp.attachSessionActionSets
  let log := log ++ [.xrAttachSessionActionSets result]
  if CheckResult result = 0 then (0, log) else
  (1, log)

/-! ## Swapchain creation -/

/-- Constant `XR_SWAPCHAIN_USAGE_COLOR_ATTACHMENT_BIT`. -/
def XR_SWAPCHAIN_USAGE_COLOR_ATTACHMENT_BIT : Nat := 0x00000001

/-- Constant `XR_SWAPCHAIN_USAGE_SAMPLED_BIT`. -/
def XR_SWAPCHAIN_USAGE_SAMPLED_BIT : Nat := 0x00000020

/-- The fields of `XrViewConfigurationView` that `CreateSwapchains` reads (both `uint32_t`). -/
structure XrViewConfigurationView where
  recommendedImageRectWidth : Nat
  recommendedImageRectHeight : Nat
deriving DecidableEq, Repr

/-- The `XrSwapchainCreateInfo` that `CreateSwapchains` fills in (source lines 741-752). -/
structure XrSwapchainCreateInfo where
  createFlags : Nat
  usageFlags : Nat
  format : Int
  sampleCount : Nat
  width : Nat
  height : Nat
  faceCount : Nat
  arraySize : Nat
  mipCount : Nat
deriving DecidableEq, Repr

/-- The runtime calls `CreateSwapchains` issues, with the capacity or create-info argument
and the result code the runtime returned. -/
inductive SwapchainCall where
  | xrEnumerateSwapchainFormats (formatCapacityInput : Nat) (result : XrResult)
  | xrCreateSwapchain (createInfo : XrSwapchainCreateInfo) (result : XrResult)
  | xrEnumerateSwapchainImages (swapchain : Nat) (imageCapacityInput : Nat)
      (result : XrResult)
deriving DecidableEq, Repr

/-- What the runtime answers during `CreateSwapchains`: the result codes of the two
`xrEnumerateSwapchainFormats` calls, the count the first one writes to
`swapchainFormatCount` and the format the second one writes at each index of the array; and,
for view `i`, the result and handle of `xrCreateSwapchain`, and the results of the two
`xrEnumerateSwapchainImages` calls with the length the first one writes to
`swapchainLengths[i]`. -/
structure SwapchainsInput where
  enumerateFormatsCount : XrResult
  swapchainFormatCount : Nat
  enumerateFormatsFill : XrResult
  swapchainFormats : Nat → Int
  createSwapchain : Nat → XrResult
  swapchainHandle : Nat → Nat
  enumerateImagesCount : Nat → XrResult
  swapchainLength : Nat → Nat
  enumerateImagesFill : Nat → XrResult

/-- The first loop of `CreateSwapchains` (source lines 739-770), started at view `i` with
`remaining` iterations to go: the value 0 when an iteration executed `return 0` and 1 when
the loop ran to its end, the entries of `*swapchains` assigned so far, and the calls issued so
far. -/
def createSwapchainsLoop (viewConfigs : Nat → XrViewConfigurationView) (inp : SwapchainsInput)
    (swapchainFormatToUse : Int) :
    (remaining : Nat) → (i : Nat) → List SwapchainInfo → List SwapchainCall →
      Int × List SwapchainInfo × List SwapchainCall
  | 0, _, swapchains, log => (1, swapchains, log)
  | remaining + 1, i, swapchains, log =>
    let sci : XrSwapchainCreateInfo :=
      { createFlags := 0,
        usageFlags := XR_SWAPCHAIN_USAGE_SAMPLED_BIT ||| XR_SWAPCHAIN_USAGE_COLOR_ATTACHMENT_BIT,
        format := swapchainFormatToUse,
        sampleCount := 1,
        width := (viewConfigs i).recommendedImageRectWidth,
        height := (viewConfigs i).recommendedImageRectHeight,
        faceCount := 1,
        arraySize := 1,
        mipCount := 1 }
    let result := inp.createSwapchain i
    let log := log ++ [.xrCreateSwapchain sci result]
    if CheckResult result = 0 then (0, swapchains, log) else
    let swapchains := swapchains ++
      [{ handle := inp.swapchainHandle i, width := toInt32 sci.width,
         height := toInt32 sci.height }]
    let result := inp.enumerateImagesCount i
    let log := log ++ [.xrEnumerateSwapchainImages (inp.swapchainHandle i) 0 result]
    if CheckResult result = 0 then (0, swapchains, log) else
    createSwapchainsLoop viewConfigs inp swapchainFormatToUse remaining (i + 1) swapchains log

/-- The second loop of `CreateSwapchains` (source lines 773-790), started at view `i` with
`remaining` iterations to go. -/
def enumerateImagesLoop (inp : SwapchainsInput) :
    (remaining : Nat) → (i : Nat) → List SwapchainCall → Int × List SwapchainCall
  | 0, _, log => (1, log)
  | remaining + 1, i, log =>
    let result := inp.enumerateImagesFill i
    let log := log ++
      [.xrEnumerateSwapchainImages (inp.swapchainHandle i) (inp.swapchainLength i) result]
    if CheckResult result = 0 then (0, log) else
    enumerateImagesLoop inp remaining (i + 1) log

/-- Function `CreateSwapchains(instance, session, viewConfigs, viewConfigsCount, ...)` (source
lines 713-792): the return value, the entries of `*swapchains` assigned, and the runtime
calls issued, oldest first. The local array `swapchainFormats` has `swapchainFormatCount`
elements, the count the first `xrEnumerateSwapchainFormats` call reported; the result is
`none` when the read `swapchainFormats[0]` (line 735) falls outside that array. -/
def CreateSwapchains (viewConfigs : Nat → XrViewConfigurationView) (viewConfigsCount : Nat)
    (inp : SwapchainsInput) : Option (Int × List SwapchainInfo × List SwapchainCall) :=
  let result := inp.enumerateFormatsCount
  let swapchainFormatCount := inp.swapchainFormatCount
  let log := [SwapchainCall.xrEnumerateSwapchainFormats 0 result]
  if CheckResult result = 0 then some (0, [], log) else
  let swapchainFormats : List Int :=
    (List.range swapchainFormatCount).map inp.swapchainFormats
  let result := inp.enumerateFormatsFill
  let log := log ++ [.xrEnumerateSwapchainFormats swapchainFormatCount result]
  if CheckResult result = 0 then some (0, [], log) else
  -- TODO: pick a format. XXX TODO
  match swapchainFormats[0]? with
  | none => none
  | some swapchainFormatToUse =>
    match createSwapchainsLoop viewConfigs inp swapchainFormatToUse viewConfigsCount 0 [] log
      with
    | (0, swapchains, log) => some (0, swapchains, log)
    | (_, swapchains, log) =>
      match enumerateImagesLoop inp viewConfigsCount 0 log with
      | (0, log) => some (0, swapchains, log)
      | (_, log) => some (1, swapchains, log)

/-! ## The session state machine and main -/

/-- Constant `XR_TYPE_EVENT_DATA_EVENTS_LOST`. -/
def XR_TYPE_EVENT_DATA_EVENTS_LOST : Int := 49
/-- Constant `XR_TYPE_EVENT_DATA_INSTANCE_LOSS_PENDING`. -/
def XR_TYPE_EVENT_DATA_INSTANCE_LOSS_PENDING : Int := 17
/-- Constant `XR_TYPE_EVENT_DATA_SESSION_STATE_CHANGED`. -/
def XR_TYPE_EVENT_DATA_SESSION_STATE_CHANGED : Int := 18
/-- Constant `XR_TYPE_EVENT_DATA_REFERENCE_SPACE_CHANGE_PENDING`. -/
def XR_TYPE_EVENT_DATA_REFERENCE_SPACE_CHANGE_PENDING : Int := 40
/-- Constant `XR_TYPE_EVENT_DATA_INTERACTION_PROFILE_CHANGED`. -/
def XR_TYPE_EVENT_DATA_INTERACTION_PROFILE_CHANGED : Int := 52

/-- Constant `XR_SESSION_STATE_UNKNOWN`. -/
def XR_SESSION_STATE_UNKNOWN : Int := 0
/-- Constant `XR_SESSION_STATE_IDLE`. -/
def XR_SESSION_STATE_IDLE : Int := 1
/-- Constant `XR_SESSION_STATE_READY`. -/
def XR_SESSION_STATE_READY : Int := 2
/-- Constant `XR_SESSION_STATE_SYNCHRONIZED`. -/
def XR_SESSION_STATE_SYNCHRONIZED : Int := 3
/-- Constant `XR_SESSION_STATE_VISIBLE`. -/
def XR_SESSION_STATE_VISIBLE : Int := 4
/-- Constant `XR_SESSION_STATE_FOCUSED`. -/
def XR_SESSION_STATE_FOCUSED : Int := 5
/-- Constant `XR_SESSION_STATE_STOPPING`. -/
def XR_SESSION_STATE_STOPPING : Int := 6
/-- Constant `XR_SESSION_STATE_LOSS_PENDING`. -/
def XR_SESSION_STATE_LOSS_PENDING : Int := 7
/-- Constant `XR_SESSION_STATE_EXITING`. -/
def XR_SESSION_STATE_EXITING : Int := 8

/-- Function `BeginSession(instance, systemId, session)` (source lines 795-811); `result` is what
`xrBeginSession` returns. -/
def BeginSession (result : XrResult) (w : World) : Int × World :=
  let w := w.call (.xrBeginSession result)
  if CheckResult result = 0 then (0, w) else (1, w)

/-- Function `SyncInput(instance, session, actionSet)` (source lines 814-838); `result` is what
`xrSyncActions` returns. -/
def SyncInput (result : XrResult) (w : World) : Int × World :=
  let w := w.call (.xrSyncActions result)
  if CheckResult result = 0 then (0, w) else (1, w)

/-- The result codes of the destroy calls after the loop (source lines 1375-1393). -/
structure TeardownInput where
  destroySwapchain : Nat → XrResult
  destroySpace : XrResult
  endSession : XrResult
  destroySession : XrResult
  destroyInstance : XrResult

/-- What the outside world answers during one iteration of main's `while` loop: the return
value of `CNFGHandleInput()`, the result of `xrPollEvent` and the event it wrote (its `type`,
and the `state` field read when it is a session-state-changed event), and the answers to the
calls the iteration may go on to make. -/
structure LoopInput where
  handleInput : Int
  pollResult : XrResult
  eventType : Int
  eventState : Int
  beginSession : XrResult
  syncActions : XrResult
  frame : FrameInput
  teardown : TeardownInput

/-- The locals of `main` that live across loop iterations (source lines 1265-1266), together
with the process state. -/
structure LoopState where
  sessionReady : Int
  xrState : Int
  world : World

/-- How one pass through the loop body ends: with a `return code;` out of `main`, or by
reaching the end of the body with the given state. -/
inductive Step where
  | returned (code : Int) (w : World)
  | iterate (s : LoopState)

/-- The event handling of the loop body (source lines 1276-1353), after `xrPollEvent` has
returned: the two nested `switch` statements. Branches that only print leave the state as
it is. -/
def handleEvent (inp : LoopInput) (s : LoopState) : Step :=
  if inp.pollResult = XR_SUCCESS then
    if inp.eventType = XR_TYPE_EVENT_DATA_INSTANCE_LOSS_PENDING then .iterate s
    else if inp.eventType = XR_TYPE_EVENT_DATA_SESSION_STATE_CHANGED then
      let s := { s with xrState := inp.eventState }
      if s.xrState = XR_SESSION_STATE_IDLE then .iterate s
      else if s.xrState = XR_SESSION_STATE_READY then
        match BeginSession inp.beginSession s.world with
        | (0, w) => .returned 1 w
        | (_, w) => .iterate { s with world := w, sessionReady := 1 }
      else if s.xrState = XR_SESSION_STATE_SYNCHRONIZED then .iterate s
      else if s.xrState = XR_SESSION_STATE_VISIBLE then .iterate s
      else if s.xrState = XR_SESSION_STATE_FOCUSED then .iterate s
      else if s.xrState = XR_SESSION_STATE_STOPPING then .iterate s
      else if s.xrState = XR_SESSION_STATE_LOSS_PENDING then .iterate s
      else if s.xrState = XR_SESSION_STATE_EXITING then .iterate s
      else .iterate s
    else if inp.eventType = XR_TYPE_EVENT_DATA_REFERENCE_SPACE_CHANGE_PENDING then .iterate s
    else if inp.eventType = XR_TYPE_EVENT_DATA_EVENTS_LOST then .iterate s
    else if inp.eventType = XR_TYPE_EVENT_DATA_INTERACTION_PROFILE_CHANGED then .iterate s
    else .iterate s
  else .iterate s

/-- The part of the loop body after the event handling (source lines 1355-1372). -/
def frameStep (genName : Nat → Nat) (cfg : Session) (inp : LoopInput) (s : LoopState) : Step :=
  if s.sessionReady ≠ 0 then
    match SyncInput inp.syncActions s.world with
    | (0, w) => .returned (-1) w
    | (_, w) =>
      match RenderFrame genName cfg inp.frame w with
      | (0, w) => .returned (-1) w
      | (_, w) => .iterate { s with world := w }
  else
    .iterate { s with world := s.world.call (.OGUSleep 100000) }

/-- One pass through the body of main's `while` loop (source lines 1270-1372). -/
def loopBody (genName : Nat → Nat) (cfg : Session) (inp : LoopInput) (s : LoopState) : Step :=
  let s := { s with world := s.world.call (.xrPollEvent inp.pollResult) }
  match handleEvent inp s with
  | .returned code w => .returned code w
  | .iterate s => frameStep genName cfg inp s

/-- The `xrDestroySwapchain` loop after main's `while` loop (source lines 1377-1381). -/
def destroySwapchains (cfg : Session) (td : TeardownInput) :
    (remaining : Nat) → (i : Nat) → World → World
  | 0, _, w => w
  | remaining + 1, i, w =>
    destroySwapchains cfg td remaining (i + 1)
      (w.call (.xrDestroySwapchain (cfg.swapchains i).handle (td.destroySwapchain i)))

/-- The code after main's `while` loop, up to `return 0;` (source lines 1375-1395). -/
def teardown (cfg : Session) (td : TeardownInput) (w : World) : World :=
  let w := destroySwapchains cfg td cfg.numViewConfigs.toNat 0 w
  let w := w.call (.xrDestroySpace cfg.stageSpace td.destroySpace)
  let w := w.call (.xrEndSession td.endSession)
  let w := w.call (.xrDestroySession td.destroySession)
  let w := w.call (.xrDestroyInstance td.destroyInstance)
  w

/-- The outcome of a run of `main` on a finite sequence of loop inputs: the process exit code,
or `none` when the inputs ran out while the loop was still going, and the final state. -/
structure MainResult where
  exitCode : Option Int
  world : World
deriving DecidableEq, Repr

/-- The `while ( CNFGHandleInput() )` loop of `main` and the code after it (source lines
1268-1395), run on one `LoopInput` per evaluation of the loop condition. -/
def mainLoop (genName : Nat → Nat) (cfg : Session) : List LoopInput → LoopState → MainResult
  | [], s => { exitCode := none, world := s.world }
  | inp :: rest, s =>
    if inp.handleInput = 0 then
      { exitCode := some 0, world := teardown cfg inp.teardown s.world }
    else
      match loopBody genName cfg inp s with
      | .returned code w => { exitCode := some code, world := w }
      | .iterate s => mainLoop genName cfg rest s

/-- The globals main's loop works with, as start-up left them. -/
def StartupInput.session (start : StartupInput) : Session :=
  { numViewConfigs := start.enumerateViewConfigs,
    stageSpace := start.stageSpace,
    swapchains := start.swapchains,
    swapchainImages := start.swapchainImages,
    frameBuffer := start.frameBuffer }

/-- Function `main()` (source lines 1225-1396). The start-up helpers after the extension check are
represented by a log marker and their return value from `start`; the windowing set-up
(`CNFGSetup`, `EnumOpenGLExtensions`, the shader load) has no effect on the state modelled
here. -/
def main (genName : Nat → Nat) (start : StartupInput) (inputs : List LoopInput) : MainResult :=
  match EnumerateExtensions start World.initial with
  | (numExtensions, extensionProps, w) =>
    if numExtensions = 0 then { exitCode := some (-1), world := w } else
    if ExtensionSupported extensionProps numExtensions XR_KHR_OPENGL_ENABLE_EXTENSION_NAME = 0
    then { exitCode := some 1, world := w } else
    let w := w.call .CreateInstance
    if start.createInstance = 0 then { exitCode := some (-1), world := w } else
    let w := w.call .GetSystemId
    if start.getSystemId = 0 then { exitCode := some (-1), world := w } else
    let w := w.call .EnumerateViewConfigs
    if start.enumerateViewConfigs = 0 then { exitCode := some (-1), world := w } else
    let w := w.call .CreateSession
    if start.createSession = 0 then { exitCode := some (-1), world := w } else
    let w := w.call .CreateActions
    if start.createActions = 0 then { exitCode := some (-1), world := w } else
    let w := w.call .CreateStageSpace
    if start.createStageSpace = 0 then { exitCode := some (-1), world := w } else
    let w := w.call .glGenFramebuffers
    let w := w.call .CreateSwapchains
    if start.createSwapchains = 0 then { exitCode := some (-1), world := w } else
    mainLoop genName start.session inputs
      { sessionReady := 0, xrState := XR_SESSION_STATE_UNKNOWN, world := w }

/-- The process state a pass through the loop body ends with. -/
def Step.world : Step → World
  | .returned _ w => w
  | .iterate s => s.world

/-- The loop input delivers a session-state-changed event reporting Ready: `xrPollEvent`
returned `XR_SUCCESS`, the event type is session-state-changed and its state is Ready. -/
def LoopInput.reportsReady (inp : LoopInput) : Prop :=
  inp.pollResult = XR_SUCCESS ∧
  inp.eventType = XR_TYPE_EVENT_DATA_SESSION_STATE_CHANGED ∧
  inp.eventState = XR_SESSION_STATE_READY

instance (inp : LoopInput) : Decidable inp.reportsReady := by
  unfold LoopInput.reportsReady; infer_instance

/-- The calls main issues before its loop: the extension enumeration and the start-up
helpers. -/
def Call.isStartup : Call → Bool
  | .xrEnumerateInstanceExtensionProperties _ | .CreateInstance | .GetSystemId
  | .EnumerateViewConfigs | .CreateSession | .CreateActions | .CreateStageSpace
  | .glGenFramebuffers | .CreateSwapchains => true
  | _ => false

/-- One of the runtime calls of `RenderLayer` fails: `xrLocateViews`, or, after an unqualified
success of `xrLocateViews`, a swapchain call of one of the reported views. -/
def FrameInput.layerCallFails (inp : FrameInput) : Prop :=
  inp.locateViews < 0 ∨
  (inp.locateViews = 0 ∧ ∃ j, j < inp.viewCountOutput ∧
    (inp.acquire j < 0 ∨ inp.waitImage j < 0 ∨ inp.release j < 0))

/-! ## Properties of call logs -/

/-- The call is an `xrReleaseSwapchainImage` on swapchain `sc`. -/
def Call.isReleaseOf (sc : Nat) : Call → Bool
  | .xrReleaseSwapchainImage sc' _ => sc' == sc
  | _ => false

/-- The call is an `xrWaitSwapchainImage` on swapchain `sc` that failed. -/
def Call.isFailedWaitOf (sc : Nat) : Call → Bool
  | .xrWaitSwapchainImage sc' r => sc' == sc && decide (r < 0)
  | _ => false

/-- Every successful `xrAcquireSwapchainImage` in the list is followed, later in the list, by
an `xrReleaseSwapchainImage` on the same swapchain. -/
def acquiresReleased : List Call → Bool
  | [] => true
  | .xrAcquireSwapchainImage sc r :: rest =>
    (decide (r < 0) || rest.any (Call.isReleaseOf sc)) && acquiresReleased rest
  | _ :: rest => acquiresReleased rest

/-- Every successful `xrAcquireSwapchainImage` in the list is either followed, later in the
list, by an `xrReleaseSwapchainImage` on the same swapchain, or is immediately followed by a
failed `xrWaitSwapchainImage` on that swapchain which is the last call of the list. -/
def acquiresReleasedUnlessWaitFailed : List Call → Bool
  | [] => true
  | .xrAcquireSwapchainImage sc r :: rest =>
    (decide (r < 0) || rest.any (Call.isReleaseOf sc) ||
      (match rest with
       | [c] => c.isFailedWaitOf sc
       | _ => false)) && acquiresReleasedUnlessWaitFailed rest
  | _ :: rest => acquiresReleasedUnlessWaitFailed rest

/-- The call is an `xrAcquireSwapchainImage`. -/
def Call.isAcquire : Call → Bool
  | .xrAcquireSwapchainImage _ _ => true
  | _ => false

/-- The call is an `xrPollEvent`. -/
def Call.isPollEvent : Call → Bool
  | .xrPollEvent _ => true
  | _ => false

/-- The call is an `xrBeginSession`. -/
def Call.isBeginSession : Call → Bool
  | .xrBeginSession _ => true
  | _ => false

/-- The call is an `xrEndSession`. -/
def Call.isEndSession : Call → Bool
  | .xrEndSession _ => true
  | _ => false

/-- The calls issued from inside main's `while` loop: the poll, the session begin, the frame
calls and the idle sleep. -/
def Call.isLoopCall : Call → Bool
  | .xrPollEvent _ | .xrBeginSession _ | .OGUSleep _ => true
  | c => c.isFrameCall

/-- The destroy calls after main's loop, in the order the source issues them (lines
1377-1393): `xrDestroySwapchain` for view 0, 1, ..., then `xrDestroySpace`, `xrEndSession`,
`xrDestroySession` and `xrDestroyInstance`, each with the result code the runtime returned. -/
def teardownCalls (cfg : Session) (td : TeardownInput) : List Call :=
  (List.range cfg.numViewConfigs.toNat).map
      (fun i => Call.xrDestroySwapchain (cfg.swapchains i).handle (td.destroySwapchain i)) ++
    [.xrDestroySpace cfg.stageSpace td.destroySpace, .xrEndSession td.endSession,
     .xrDestroySession td.destroySession, .xrDestroyInstance td.destroyInstance]

/-- The calls main issues before its loop when every start-up step succeeds, in the order
the source issues them (lines 1227-1259). -/
def startupCalls (start : StartupInput) : List Call :=
  [.xrEnumerateInstanceExtensionProperties start.enumerateCount,
   .xrEnumerateInstanceExtensionProperties start.enumerateFill,
   .CreateInstance, .GetSystemId, .EnumerateViewConfigs, .CreateSession, .CreateActions,
   .CreateStageSpace, .glGenFramebuffers, .CreateSwapchains]

/-- The kinds of resource main creates at start-up and destroys after its loop. -/
inductive Resource where
  | xrInstance
  | xrSession
  | stageSpace
  | swapchain
deriving DecidableEq, Repr

/-- The resource kind a start-up helper creates (`none` for the calls that create none of the
four kinds). -/
def Call.creates : Call → Option Resource
  | .CreateInstance => some .xrInstance
  | .CreateSession => some .xrSession
  | .CreateStageSpace => some .stageSpace
  | .CreateSwapchains => some .swapchain
  | _ => none

/-- The resource kind a destroy call destroys. -/
def Call.destroys : Call → Option Resource
  | .xrDestroySwapchain _ _ => some .swapchain
  | .xrDestroySpace _ _ => some .stageSpace
  | .xrDestroySession _ => some .xrSession
  | .xrDestroyInstance _ => some .xrInstance
  | _ => none

/-- The call is an `xrSyncActions`, the one runtime call of `SyncInput`. -/
def Call.isSyncActions : Call → Bool
  | .xrSyncActions _ => true
  | _ => false

/-- The calls of a pass through the loop body that gets as far as `RenderFrame`: the poll,
`xrBeginSession` if the poll delivered a Ready event, the `xrSyncActions` of `SyncInput`, and
the calls of `RenderFrame`, which start with `xrWaitFrame` and go on with `rest`. -/
def iterationCalls (inp : LoopInput) (rest : List Call) : List Call :=
  .xrPollEvent inp.pollResult ::
    ((if inp.reportsReady then [Call.xrBeginSession inp.beginSession] else []) ++
      .xrSyncActions inp.syncActions :: .xrWaitFrame inp.frame.waitFrame :: rest)

/-! ## Concrete inputs used to evaluate the embedding -/

/-- Two swapchains of 960 x 1080 with handles 10 and 11; image `j` of swapchain `i` has colour
texture `1000 + 10 * i + j`. -/
def exampleSession : Session where
  numViewConfigs := 2
  stageSpace := 9
  swapchains := fun i => { handle := 10 + i, width := 960, height := 1080 }
  swapchainImages := fun i j => 1000 + 10 * i + j
  frameBuffer := 3

/-- A frame in which every runtime call returns `XR_SUCCESS`, `xrWaitFrame` reports
`shouldRender = XR_TRUE` and display time 555, and `xrLocateViews` reports two views. -/
def exampleFrame : FrameInput where
  waitFrame := 0
  shouldRender := 1
  predictedDisplayTime := 555
  beginFrame := 0
  locateViews := 0
  viewCountOutput := 2
  acquire := fun _ => 0
  swapchainImageIndex := fun _ => 1
  waitImage := fun _ => 0
  release := fun _ => 0
  endFrame := 0

/-- Destroy calls that all succeed. -/
def exampleTeardown : TeardownInput where
  destroySwapchain := fun _ => 0
  destroySpace := 0
  endSession := 0
  destroySession := 0
  destroyInstance := 0

/-- A start-up in which everything succeeds and the runtime enumerates two extensions, one
of them `XR_KHR_opengl_enable`. -/
def exampleStartup : StartupInput where
  enumerateCount := 0
  enumerateFill := 0
  extensions := ["XR_KHR_composition_layer_depth", "XR_KHR_opengl_enable"]
  createInstance := 1
  getSystemId := 1
  enumerateViewConfigs := 2
  createSession := 1
  createActions := 1
  createStageSpace := 1
  createSwapchains := 1
  stageSpace := 9
  frameBuffer := 3
  swapchains := exampleSession.swapchains
  swapchainImages := exampleSession.swapchainImages

/-- A loop input with the given `CNFGHandleInput` value, poll result, event type, event
state, `xrBeginSession` result and frame answers; `xrSyncActions` and the destroy calls
succeed. -/
def exampleLoopInput (handleInput : Int) (pollResult : XrResult) (eventType eventState : Int)
    (beginSession : XrResult) (frame : FrameInput) : LoopInput where
  handleInput := handleInput
  pollResult := pollResult
  eventType := eventType
  eventState := eventState
  beginSession := beginSession
  syncActions := 0
  frame := frame
  teardown := exampleTeardown

/-- Answers to `CreateActions` in which every call other than `xrStringToPath` returns
`XR_SUCCESS` and the `k`-th `xrStringToPath` call returns `stringToPath k`. -/
def exampleActions (stringToPath : Nat → XrResult) : ActionsInput where
  createActionSet := 0
  stringToPath := stringToPath
  createAction := fun _ => 0
  suggestInteractionProfileBindings := 0
  createActionSpace := fun _ => 0
  attachSessionActionSets := 0

/-- The frame `exampleFrame` with `xrLocateViews` returning `locateViews` instead of
`XR_SUCCESS`. -/
def exampleFrameLocate (locateViews : XrResult) : FrameInput where
  waitFrame := 0
  shouldRender := 1
  predictedDisplayTime := 555
  beginFrame := 0
  locateViews := locateViews
  viewCountOutput := 2
  acquire := fun _ => 0
  swapchainImageIndex := fun _ => 1
  waitImage := fun _ => 0
  release := fun _ => 0
  endFrame := 0

/-- The recommended image sizes of two views, 960 by 1080 and 1024 by 1152. -/
def exampleViewConfigs (i : Nat) : XrViewConfigurationView :=
  if i = 0 then { recommendedImageRectWidth := 960, recommendedImageRectHeight := 1080 }
  else { recommendedImageRectWidth := 1024, recommendedImageRectHeight := 1152 }

/-- Answers to `CreateSwapchains` in which every call returns `XR_SUCCESS`, the runtime
reports `swapchainFormatCount` formats (format number `0x8058 + i` at index `i`), and each
swapchain has three images. -/
def exampleSwapchains (swapchainFormatCount : Nat) : SwapchainsInput where
  enumerateFormatsCount := 0
  swapchainFormatCount := swapchainFormatCount
  enumerateFormatsFill := 0
  swapchainFormats := fun i => 0x8058 + i
  createSwapchain := fun _ => 0
  swapchainHandle := fun i => 10 + i
  enumerateImagesCount := fun _ => 0
  swapchainLength := fun _ => 3
  enumerateImagesFill := fun _ => 0

/-- The frame `exampleFrame` with the `xrWaitSwapchainImage` of view `failing` returning
the failure code -1. -/
def exampleFrameWaitFails (failing : Nat) : FrameInput where
  waitFrame := 0
  shouldRender := 1
  predictedDisplayTime := 555
  beginFrame := 0
  locateViews := 0
  viewCountOutput := 2
  acquire := fun _ => 0
  swapchainImageIndex := fun _ => 1
  waitImage := fun i => if i = failing then -1 else 0
  release := fun _ => 0
  endFrame := 0

/-! ## Theorems -/

/-- C1: for every unit quaternion `q` and translation `t`, with `M = InitPoseMat(q,t)`,
`MultiplyMat(InvertOrthogonalMat(M), M)` is the identity matrix in all 16 entries, in exact
arithmetic over any commutative ring (in particular over the reals). -/
theorem InvertOrthogonalMat_mul_InitPoseMat {α : Type} [CommRing α] (pose : XrPosef α)
    (hunit : pose.orientation.x ^ 2 + pose.orientation.y ^ 2 + pose.orientation.z ^ 2
      + pose.orientation.w ^ 2 = 1) :
    MultiplyMat (InvertOrthogonalMat (InitPoseMat pose)) (InitPoseMat pose) = identity16 := by
  obtain ⟨⟨x, y, z, w⟩, ⟨tx, ty, tz⟩⟩ := pose
  replace hunit : x ^ 2 + y ^ 2 + z ^ 2 + w ^ 2 = 1 := hunit
  funext i
  fin_cases i
  · show _ = (1 : α)  -- entry 0
    simp only [MultiplyMat, InvertOrthogonalMat, InitPoseMat, mk16]
    linear_combination (4 * (y ^ 2 + z ^ 2)) * hunit
  · show _ = (0 : α)  -- entry 1
    simp only [MultiplyMat, InvertOrthogonalMat, InitPoseMat, mk16]
    linear_combination (-4 * x * y) * hunit
  · show _ = (0 : α)  -- entry 2
    simp only [MultiplyMat, InvertOrthogonalMat, InitPoseMat, mk16]
    linear_combination (-4 * x * z) * hunit
  · show _ = (0 : α)  -- entry 3
    simp only [MultiplyMat, InvertOrthogonalMat, InitPoseMat, mk16]
    linear_combination 0 * hunit
  · show _ = (0 : α)  -- entry 4
    simp only [MultiplyMat, InvertOrthogonalMat, InitPoseMat, mk16]
    linear_combination (-4 * x * y) * hunit
  · show _ = (1 : α)  -- entry 5
    simp only [MultiplyMat, InvertOrthogonalMat, InitPoseMat, mk16]
    linear_combination (4 * (x ^ 2 + z ^ 2)) * hunit
  · show _ = (0 : α)  -- entry 6
    simp only [MultiplyMat, InvertOrthogonalMat, InitPoseMat, mk16]
    linear_combination (-4 * y * z) * hunit
  · show _ = (0 : α)  -- entry 7
    simp only [MultiplyMat, InvertOrthogonalMat, InitPoseMat, mk16]
    linear_combination 0 * hunit
  · show _ = (0 : α)  -- entry 8
    simp only [MultiplyMat, InvertOrthogonalMat, InitPoseMat, mk16]
    linear_combination (-4 * x * z) * hunit
  · show _ = (0 : α)  -- entry 9
    simp only [MultiplyMat, InvertOrthogonalMat, InitPoseMat, mk16]
    linear_combination (-4 * y * z) * hunit
  · show _ = (1 : α)  -- entry 10
    simp only [MultiplyMat, InvertOrthogonalMat, InitPoseMat, mk16]
    linear_combination (4 * (x ^ 2 + y ^ 2)) * hunit
  · show _ = (0 : α)  -- entry 11
    simp only [MultiplyMat, InvertOrthogonalMat, InitPoseMat, mk16]
    linear_combination 0 * hunit
  · show _ = (0 : α)  -- entry 12
    simp only [MultiplyMat, InvertOrthogonalMat, InitPoseMat, mk16]
    linear_combination 0 * hunit
  · show _ = (0 : α)  -- entry 13
    simp only [MultiplyMat, InvertOrthogonalMat, InitPoseMat, mk16]
    linear_combination 0 * hunit
  · show _ = (0 : α)  -- entry 14
    simp only [MultiplyMat, InvertOrthogonalMat, InitPoseMat, mk16]
    linear_combination 0 * hunit
  · show _ = (1 : α)  -- entry 15
    simp only [MultiplyMat, InvertOrthogonalMat, InitPoseMat, mk16]
    linear_combination 0 * hunit

/-- Witness for C1 over the integers: the quaternion `(0, 1, 0, 0)` (a half turn about the
y axis) with translation `(3, -2, 5)`. -/
theorem InvertOrthogonalMat_mul_InitPoseMat_witness :
    MultiplyMat (InvertOrthogonalMat (InitPoseMat (⟨⟨0, 1, 0, 0⟩, ⟨3, -2, 5⟩⟩ : XrPosef ℤ)))
      (InitPoseMat ⟨⟨0, 1, 0, 0⟩, ⟨3, -2, 5⟩⟩) = identity16 :=
  InvertOrthogonalMat_mul_InitPoseMat ⟨⟨0, 1, 0, 0⟩, ⟨3, -2, 5⟩⟩ (by decide)

/-- C2 (the code departs from the claim): from the program's initial cache state, for every
colour texture `tex` and every name supply `genName`, the first lookup creates and returns
depth texture `genName 0`, and the second lookup for the same `tex` does not find it: it creates
another depth texture and returns `genName 1`. With fresh names the two handles differ. -/
theorem GetDepthTexture_repeated_lookup_creates_again (genName : Nat → Nat) (tex : Nat) :
    (GetDepthTextureFromColorTexture genName World.initial tex).1 = genName 0 ∧
    (GetDepthTextureFromColorTexture genName
      (GetDepthTextureFromColorTexture genName World.initial tex).2 tex).1 = genName 1 ∧
    (GetDepthTextureFromColorTexture genName
      (GetDepthTextureFromColorTexture genName World.initial tex).2 tex).2.texturesGenerated = 2 := by
  simp [GetDepthTextureFromColorTexture, cacheSearch, CreateDepthTexture, World.initial,
    World.call, realloc]

/-- C3 (the code departs from the claim): a lookup never changes `numColorDepthPairs`, whatever
the cache state and whether or not the colour texture is present; and from the initial state
a lookup of colour 7 followed by a lookup of colour 9 leaves the single pair `[9, genName 1]`
in the buffer, the pair stored for colour 7 having been overwritten. -/
theorem GetDepthTexture_count_never_grows (genName : Nat → Nat) :
    (∀ (w : World) (tex : Nat),
      (GetDepthTextureFromColorTexture genName w tex).2.numColorDepthPairs
        = w.numColorDepthPairs) ∧
    (GetDepthTextureFromColorTexture genName World.initial 7).2.numColorDepthPairs = 0 ∧
    (GetDepthTextureFromColorTexture genName
      (GetDepthTextureFromColorTexture genName World.initial 7).2 9).2.colorDepthPairs
        = [9, genName 1] := by
  refine ⟨?_, ?_, ?_⟩
  · intro w tex
    unfold GetDepthTextureFromColorTexture
    cases cacheSearch w.colorDepthPairs tex w.numColorDepthPairs.toNat 0 <;>
      simp [CreateDepthTexture, World.call]
  · simp [GetDepthTextureFromColorTexture, cacheSearch, CreateDepthTexture, World.initial,
      World.call, realloc]
  · simp [GetDepthTextureFromColorTexture, cacheSearch, CreateDepthTexture, World.initial,
      World.call, realloc]

/-! ### The loop before a Ready event -/

/-- Event handling without a Ready event neither returns nor touches the ready flag or the
process state. -/
theorem handleEvent_of_not_reportsReady (inp : LoopInput) (s : LoopState)
    (h : ¬ inp.reportsReady) :
    ∃ s', handleEvent inp s = .iterate s' ∧ s'.sessionReady = s.sessionReady ∧
      s'.world = s.world := by
  unfold handleEvent
  by_cases h1 : inp.pollResult = XR_SUCCESS
  · by_cases h2 : inp.eventType = XR_TYPE_EVENT_DATA_SESSION_STATE_CHANGED
    · have h3 : inp.eventState ≠ XR_SESSION_STATE_READY := fun h3 => h ⟨h1, h2, h3⟩
      refine ⟨{ s with xrState := inp.eventState }, ?_, rfl, rfl⟩
      simp [h1, h2, h3, XR_TYPE_EVENT_DATA_SESSION_STATE_CHANGED,
        XR_TYPE_EVENT_DATA_INSTANCE_LOSS_PENDING]
    · exact ⟨s, by simp [h1, h2], rfl, rfl⟩
  · exact ⟨s, by simp [h1], rfl, rfl⟩

/-- While the ready flag is 0 and no Ready event arrives, a pass through the loop body only
polls and sleeps. -/
theorem loopBody_of_not_ready (genName : Nat → Nat) (cfg : Session) (inp : LoopInput)
    (s : LoopState) (hs : s.sessionReady = 0) (h : ¬ inp.reportsReady) :
    ∃ s', loopBody genName cfg inp s = .iterate s' ∧ s'.sessionReady = 0 ∧
      s'.world.log = s.world.log ++ [.xrPollEvent inp.pollResult, .OGUSleep 100000] := by
  obtain ⟨s1, h1, h2, h3⟩ := handleEvent_of_not_reportsReady inp
    { s with world := s.world.call (.xrPollEvent inp.pollResult) } h
  refine ⟨{ s1 with world := s1.world.call (.OGUSleep 100000) }, ?_, ?_, ?_⟩
  · simp only [loopBody, h1, frameStep]
    simp [h2, hs]
  · simpa [hs] using h2
  · simp [h3, World.call]

/-- The destroy loop only appends `xrDestroySwapchain` calls. -/
theorem destroySwapchains_log (cfg : Session) (td : TeardownInput) (P : Call → Prop)
    (hP : ∀ sc r, P (.xrDestroySwapchain sc r)) :
    ∀ (n i : Nat) (w : World), (∀ c ∈ w.log, P c) →
      ∀ c ∈ (destroySwapchains cfg td n i w).log, P c := by
  intro n
  induction n with
  | zero => intro i w hw; simpa [destroySwapchains] using hw
  | succ n ih =>
    intro i w hw
    simp only [destroySwapchains]
    apply ih
    intro c hc
    simp only [World.call, List.mem_append, List.mem_singleton] at hc
    rcases hc with hc | hc
    · exact hw c hc
    · subst hc; exact hP _ _

/-- The code after the loop issues no frame call. -/
theorem teardown_no_frame_call (cfg : Session) (td : TeardownInput) (w : World)
    (hw : ∀ c ∈ w.log, c.isFrameCall = false) :
    ∀ c ∈ (teardown cfg td w).log, c.isFrameCall = false := by
  intro c hc
  simp only [teardown, World.call, List.mem_append, List.mem_singleton] at hc
  rcases hc with (((hc | hc) | hc) | hc) | hc
  · exact destroySwapchains_log cfg td (fun c => c.isFrameCall = false) (fun _ _ => rfl)
      _ _ w hw c hc
  all_goals subst hc; rfl

/-- While the ready flag is 0 and no Ready event arrives, the loop (and the code after it)
issues no frame call. -/
theorem mainLoop_no_frame_call (genName : Nat → Nat) (cfg : Session) :
    ∀ (inputs : List LoopInput) (s : LoopState), s.sessionReady = 0 →
      (∀ inp ∈ inputs, ¬ inp.reportsReady) →
      (∀ c ∈ s.world.log, c.isFrameCall = false) →
      ∀ c ∈ (mainLoop genName cfg inputs s).world.log, c.isFrameCall = false := by
  intro inputs
  induction inputs with
  | nil => intro s _ _ hw; simpa [mainLoop] using hw
  | cons inp rest ih =>
    intro s hs hin hw
    simp only [mainLoop]
    split
    · exact teardown_no_frame_call cfg inp.teardown s.world hw
    · obtain ⟨s', h1, h2, h3⟩ := loopBody_of_not_ready genName cfg inp s hs
        (hin inp (List.mem_cons_self _ _))
      rw [h1]
      apply ih s' h2 (fun i hi => hin i (List.mem_cons_of_mem _ hi))
      intro c hc
      rw [h3] at hc
      simp only [List.mem_append, List.mem_cons, List.mem_singleton, List.not_mem_nil,
        or_false] at hc
      rcases hc with hc | hc | hc
      · exact hw c hc
      · subst hc; rfl
      · subst hc; rfl

/-- The three ways `main` can go: a start-up failure (exit code -1, before the loop, either
at the enumeration or after the extension check), the
missing-extension exit (exit code 1, before `CreateInstance`), or the loop entered with the
ready flag 0 and state Unknown. In each case the log up to that point holds start-up calls
only. -/
theorem main_cases (genName : Nat → Nat) (start : StartupInput) (inputs : List LoopInput) :
    ∃ w : World, (∀ c ∈ w.log, c.isStartup = true) ∧
      ((main genName start inputs = { exitCode := some (-1), world := w } ∧
          (((EnumerateExtensions start World.initial).1 = 0 ∧ Call.CreateInstance ∉ w.log) ∨
           ((EnumerateExtensions start World.initial).1 ≠ 0 ∧
            ExtensionSupported (EnumerateExtensions start World.initial).2.1
              (EnumerateExtensions start World.initial).1
              XR_KHR_OPENGL_ENABLE_EXTENSION_NAME ≠ 0 ∧
            Call.CreateInstance ∈ w.log))) ∨
       (main genName start inputs = { exitCode := some 1, world := w } ∧
          (EnumerateExtensions start World.initial).1 ≠ 0 ∧
          ExtensionSupported (EnumerateExtensions start World.initial).2.1
            (EnumerateExtensions start World.initial).1
            XR_KHR_OPENGL_ENABLE_EXTENSION_NAME = 0 ∧
          Call.CreateInstance ∉ w.log) ∨
       (main genName start inputs = mainLoop genName start.session inputs
            { sessionReady := 0, xrState := XR_SESSION_STATE_UNKNOWN, world := w } ∧
          (EnumerateExtensions start World.initial).1 ≠ 0 ∧
          ExtensionSupported (EnumerateExtensions start World.initial).2.1
            (EnumerateExtensions start World.initial).1
            XR_KHR_OPENGL_ENABLE_EXTENSION_NAME ≠ 0 ∧
          Call.CreateInstance ∈ w.log)) := by
  have hE : ∀ c ∈ (EnumerateExtensions start World.initial).2.2.log, c.isStartup = true := by
    intro c hc
    unfold EnumerateExtensions at hc
    split_ifs at hc <;>
      simp only [World.call, World.initial, List.nil_append, List.cons_append, List.mem_cons,
        List.mem_singleton, List.not_mem_nil, or_false] at hc
    · subst hc; rfl
    · rcases hc with hc | hc <;> subst hc <;> rfl
    · rcases hc with hc | hc <;> subst hc <;> rfl
  have hE' : Call.CreateInstance ∉ (EnumerateExtensions start World.initial).2.2.log := by
    intro hc
    unfold EnumerateExtensions at hc
    split_ifs at hc <;> simp [World.call, World.initial] at hc
  unfold main
  generalize EnumerateExtensions start World.initial = e at hE hE'
  obtain ⟨n, props, w⟩ := e
  simp only at hE hE' ⊢
  have step : ∀ (w : World) (c : Call), (∀ c ∈ w.log, c.isStartup = true) → c.isStartup = true →
      ∀ c' ∈ (w.call c).log, c'.isStartup = true := by
    intro w c hw hc c' hc'
    simp only [World.call, List.mem_append, List.mem_singleton] at hc'
    rcases hc' with h | h
    · exact hw c' h
    · subst h; exact hc
  have mem : ∀ (w : World) (c : Call), Call.CreateInstance ∈ w.log →
      Call.CreateInstance ∈ (w.call c).log := by
    intro w c h
    simp [World.call, h]
  have h1 := step w .CreateInstance hE rfl
  have m1 : Call.CreateInstance ∈ (w.call .CreateInstance).log := by simp [World.call]
  have h2 := step _ .GetSystemId h1 rfl
  have h3 := step _ .EnumerateViewConfigs h2 rfl
  have h4 := step _ .CreateSession h3 rfl
  have h5 := step _ .CreateActions h4 rfl
  have h6 := step _ .CreateStageSpace h5 rfl
  have h7 := step _ .glGenFramebuffers h6 rfl
  have h8 := step _ .CreateSwapchains h7 rfl
  have m2 := mem _ .GetSystemId m1
  have m3 := mem _ .EnumerateViewConfigs m2
  have m4 := mem _ .CreateSession m3
  have m5 := mem _ .CreateActions m4
  have m6 := mem _ .CreateStageSpace m5
  have m7 := mem _ .glGenFramebuffers m6
  have m8 := mem _ .CreateSwapchains m7
  by_cases c0 : n = 0
  · exact ⟨w, hE, Or.inl ⟨by rw [if_pos c0], Or.inl ⟨c0, hE'⟩⟩⟩
  rw [if_neg c0]
  by_cases c1 : ExtensionSupported props n XR_KHR_OPENGL_ENABLE_EXTENSION_NAME = 0
  · exact ⟨w, hE, Or.inr (Or.inl ⟨by rw [if_pos c1], c0, c1, hE'⟩)⟩
  rw [if_neg c1]
  by_cases c2 : start.createInstance = 0
  · exact ⟨_, h1, Or.inl ⟨by simp only [if_pos c2], Or.inr ⟨c0, c1, m1⟩⟩⟩
  simp only [if_neg c2]
  by_cases c3 : start.getSystemId = 0
  · exact ⟨_, h2, Or.inl ⟨by simp only [if_pos c3], Or.inr ⟨c0, c1, m2⟩⟩⟩
  simp only [if_neg c3]
  by_cases c4 : start.enumerateViewConfigs = 0
  · exact ⟨_, h3, Or.inl ⟨by simp only [if_pos c4], Or.inr ⟨c0, c1, m3⟩⟩⟩
  simp only [if_neg c4]
  by_cases c5 : start.createSession = 0
  · exact ⟨_, h4, Or.inl ⟨by simp only [if_pos c5], Or.inr ⟨c0, c1, m4⟩⟩⟩
  simp only [if_neg c5]
  by_cases c6 : start.createActions = 0
  · exact ⟨_, h5, Or.inl ⟨by simp only [if_pos c6], Or.inr ⟨c0, c1, m5⟩⟩⟩
  simp only [if_neg c6]
  by_cases c7 : start.createStageSpace = 0
  · exact ⟨_, h6, Or.inl ⟨by simp only [if_pos c7], Or.inr ⟨c0, c1, m6⟩⟩⟩
  simp only [if_neg c7]
  by_cases c8 : start.createSwapchains = 0
  · exact ⟨_, h8, Or.inl ⟨by simp only [if_pos c8], Or.inr ⟨c0, c1, m8⟩⟩⟩
  simp only [if_neg c8]
  exact ⟨_, h8, Or.inr (Or.inr ⟨rfl, c0, c1, m8⟩)⟩

/-- A start-up call is not a frame call. -/
theorem isFrameCall_of_isStartup (c : Call) (h : c.isStartup = true) :
    c.isFrameCall = false := by
  cases c <;> first | rfl | simp [Call.isStartup] at h

/-- When the event handling does not return, the session state variable afterwards is the
reported state if `xrPollEvent` succeeded with a session-state-changed event, and the
previous value otherwise. -/
theorem handleEvent_xrState (inp : LoopInput) (s s1 : LoopState)
    (h : handleEvent inp s = .iterate s1) :
    s1.xrState = if inp.pollResult = XR_SUCCESS ∧
        inp.eventType = XR_TYPE_EVENT_DATA_SESSION_STATE_CHANGED
      then inp.eventState else s.xrState := by
  unfold handleEvent at h
  by_cases h1 : inp.pollResult = XR_SUCCESS
  · by_cases h2 : inp.eventType = XR_TYPE_EVENT_DATA_SESSION_STATE_CHANGED
    · rw [if_pos ⟨h1, h2⟩]
      have h3 : inp.eventType ≠ XR_TYPE_EVENT_DATA_INSTANCE_LOSS_PENDING := by
        rw [h2]; decide
      rw [if_pos h1, if_neg h3, if_pos h2] at h
      simp only at h
      by_cases h4 : inp.eventState = XR_SESSION_STATE_READY
      · have h5 : inp.eventState ≠ XR_SESSION_STATE_IDLE := by rw [h4]; decide
        rw [if_neg h5, if_pos h4] at h
        unfold BeginSession at h
        split_ifs at h
        · simp at h
        · simp only [Step.iterate.injEq] at h
          subst h; rfl
      · rw [if_neg h4] at h
        simp only [ite_self, Step.iterate.injEq] at h
        subst h; rfl
    · rw [if_neg (fun hh => h2 hh.2)]
      rw [if_pos h1, if_neg h2] at h
      simp only [ite_self, Step.iterate.injEq] at h
      subst h; rfl
  · rw [if_neg (fun hh => h1 hh.1)]
    rw [if_neg h1] at h
    simp only [Step.iterate.injEq] at h
    subst h; rfl

/-- The frame part of the loop body leaves the session state variable and the ready flag as
they are. -/
theorem frameStep_locals (genName : Nat → Nat) (cfg : Session) (inp : LoopInput)
    (s s' : LoopState) (h : frameStep genName cfg inp s = .iterate s') :
    s'.xrState = s.xrState ∧ s'.sessionReady = s.sessionReady := by
  unfold frameStep at h
  split_ifs at h
  · split at h
    · simp at h
    · split at h
      · simp at h
      · simp only [Step.iterate.injEq] at h
        subst h; exact ⟨rfl, rfl⟩
  · simp only [Step.iterate.injEq] at h
    subst h; exact ⟨rfl, rfl⟩

/-- The session state variable after a pass through the loop body that does not return. -/
theorem loopBody_xrState (genName : Nat → Nat) (cfg : Session) (inp : LoopInput)
    (s s' : LoopState) (h : loopBody genName cfg inp s = .iterate s') :
    s'.xrState = if inp.pollResult = XR_SUCCESS ∧
        inp.eventType = XR_TYPE_EVENT_DATA_SESSION_STATE_CHANGED
      then inp.eventState else s.xrState := by
  unfold loopBody at h
  simp only at h
  split at h
  · simp at h
  · rename_i s1 h1
    rw [(frameStep_locals genName cfg inp s1 s' h).1]
    exact handleEvent_xrState inp
      { s with world := s.world.call (.xrPollEvent inp.pollResult) } s1 h1

/-- C4: in every run of `main` in which no loop iteration receives a session-state-changed
event reporting Ready, the log holds no call of `SyncInput` or `RenderFrame` (no
`xrSyncActions`, frame, swapchain or OpenGL render call); and a pass through the loop body can
only change the session state variable when `xrPollEvent` succeeded with a
session-state-changed event, in which case the new value is the state the event reports. -/
theorem no_frame_call_before_ready (genName : Nat → Nat) (start : StartupInput)
    (inputs : List LoopInput) (h : ∀ inp ∈ inputs, ¬ inp.reportsReady) :
    (∀ c ∈ (main genName start inputs).world.log, c.isFrameCall = false) ∧
    (∀ (cfg : Session) (inp : LoopInput) (s s' : LoopState),
      loopBody genName cfg inp s = .iterate s' → s'.xrState ≠ s.xrState →
        inp.pollResult = XR_SUCCESS ∧
        inp.eventType = XR_TYPE_EVENT_DATA_SESSION_STATE_CHANGED ∧
        s'.xrState = inp.eventState) := by
  constructor
  · obtain ⟨w, hw, ⟨hm, -⟩ | ⟨hm, -⟩ | ⟨hm, -⟩⟩ := main_cases genName start inputs
    · rw [hm]; exact fun c hc => isFrameCall_of_isStartup c (hw c hc)
    · rw [hm]; exact fun c hc => isFrameCall_of_isStartup c (hw c hc)
    · rw [hm]
      exact mainLoop_no_frame_call genName start.session inputs _ rfl h
        (fun c hc => isFrameCall_of_isStartup c (hw c hc))
  · intro cfg inp s s' hb hne
    have hx := loopBody_xrState genName cfg inp s s' hb
    by_cases hc : inp.pollResult = XR_SUCCESS ∧
        inp.eventType = XR_TYPE_EVENT_DATA_SESSION_STATE_CHANGED
    · rw [if_pos hc] at hx
      exact ⟨hc.1, hc.2, hx⟩
    · rw [if_neg hc] at hx
      exact absurd hx hne

/-- Witness for C4: a run with the extension present whose loop receives "no event"
(`XR_EVENT_UNAVAILABLE`, 4), then an Idle event, then a Stopping event. -/
theorem no_frame_call_before_ready_witness :
    (∀ c ∈ (main (fun k => 100 + k) exampleStartup
        [exampleLoopInput 1 4 16 0 0 exampleFrame, exampleLoopInput 1 0 18 1 0 exampleFrame,
         exampleLoopInput 1 0 18 6 0 exampleFrame]).world.log, c.isFrameCall = false) ∧
    (∀ (cfg : Session) (inp : LoopInput) (s s' : LoopState),
      loopBody (fun k => 100 + k) cfg inp s = .iterate s' → s'.xrState ≠ s.xrState →
        inp.pollResult = XR_SUCCESS ∧
        inp.eventType = XR_TYPE_EVENT_DATA_SESSION_STATE_CHANGED ∧
        s'.xrState = inp.eventState) :=
  no_frame_call_before_ready (fun k => 100 + k) exampleStartup _ (by decide)

/-! ### Failures during a frame -/

/-- Function `CheckResult` returns 0 exactly on a failure code (a negative result). -/
theorem CheckResult_eq_zero_iff (r : XrResult) : CheckResult r = 0 ↔ r < 0 := by
  unfold CheckResult XR_SUCCEEDED
  by_cases h : 0 ≤ r
  · simp [h]
  · simp [h, not_le.mp h]

/-- Function `CheckResult` returns 1 on every result code that is not a failure. -/
theorem CheckResult_of_nonneg (r : XrResult) (h : 0 ≤ r) : CheckResult r = 1 := by
  simp [CheckResult, XR_SUCCEEDED, h]

/-- The per-view loop executes `return 0` exactly when one of the swapchain calls of one of
its views fails. -/
theorem renderViews_eq_zero_iff (genName : Nat → Nat) (cfg : Session) (inp : FrameInput) :
    ∀ (n i : Nat) (w : World), (renderViews genName cfg inp n i w).1 = 0 ↔
      ∃ j, i ≤ j ∧ j < i + n ∧ (inp.acquire j < 0 ∨ inp.waitImage j < 0 ∨ inp.release j < 0) := by
  intro n
  induction n with
  | zero =>
    intro i w
    simp only [renderViews, one_ne_zero, false_iff]
    rintro ⟨j, h1, h2, -⟩
    omega
  | succ n ih =>
    intro i w
    unfold renderViews
    simp only [CheckResult_eq_zero_iff]
    by_cases ha : inp.acquire i < 0
    · simp only [ha, if_true]
      exact ⟨fun _ => ⟨i, le_refl _, by omega, Or.inl ha⟩, fun _ => trivial⟩
    by_cases hw : inp.waitImage i < 0
    · simp only [ha, hw, if_true, if_false]
      exact ⟨fun _ => ⟨i, le_refl _, by omega, Or.inr (Or.inl hw)⟩, fun _ => trivial⟩
    by_cases hr : inp.release i < 0
    · simp only [ha, hw, hr, if_true, if_false]
      exact ⟨fun _ => ⟨i, le_refl _, by omega, Or.inr (Or.inr hr)⟩, fun _ => trivial⟩
    simp only [ha, hw, hr, if_false]
    rw [ih]
    constructor
    · rintro ⟨j, h1, h2, h3⟩
      exact ⟨j, by omega, by omega, h3⟩
    · rintro ⟨j, h1, h2, h3⟩
      have hne : j ≠ i := by
        rintro rfl
        rcases h3 with h | h | h
        · exact ha h
        · exact hw h
        · exact hr h
      exact ⟨j, by omega, by omega, h3⟩

/-- Function `RenderLayer` returns 0 exactly when one of its runtime calls fails, and it then leaves
the layer structure untouched. -/
theorem RenderLayer_eq_zero_iff (genName : Nat → Nat) (cfg : Session) (inp : FrameInput)
    (t : Int) (layer : XrCompositionLayerProjection) (w : World) :
    ((RenderLayer genName cfg inp t layer w).1 = 0 ↔ inp.layerCallFails) ∧
    ((RenderLayer genName cfg inp t layer w).1 = 0 →
      (RenderLayer genName cfg inp t layer w).2.1 = layer) := by
  unfold RenderLayer FrameInput.layerCallFails
  simp only [CheckResult_eq_zero_iff, XR_UNQUALIFIED_SUCCESS]
  by_cases hl : inp.locateViews < 0
  · simp [hl]
  by_cases h0 : inp.locateViews = 0
  · simp only [hl, h0, if_false, decide_True, if_true, false_or, true_and]
    have key := renderViews_eq_zero_iff genName cfg inp inp.viewCountOutput 0
      (w.call (.xrLocateViews t cfg.numViewConfigs 0))
    simp only [Nat.zero_le, true_and, Nat.zero_add] at key
    simp only [lt_irrefl, if_false, false_or]
    rw [← key]
    generalize renderViews genName cfg inp inp.viewCountOutput 0
      (w.call (.xrLocateViews t cfg.numViewConfigs 0)) = r
    obtain ⟨r1, r2⟩ := r
    by_cases hr : r1 = 0
    · subst hr; simp
    · constructor
      · constructor
        · intro h
          split at h
          · rename_i heq
            simp only [Prod.mk.injEq] at heq
            exact absurd heq.1 hr
          · simp at h
        · intro h; exact absurd h hr
      · intro h
        split at h
        · rename_i heq
          simp only [Prod.mk.injEq] at heq
          exact absurd heq.1 hr
        · simp at h
  · simp [hl, h0]

/-- Function `RenderFrame` when `xrWaitFrame` and `xrBeginFrame` do not fail and nothing is rendered
into a layer (either `shouldRender` is not `XR_TRUE`, or `RenderLayer` returns 0): the frame
is ended with zero layers and the return value is decided by `xrEndFrame`. -/
theorem RenderFrame_zero_layers (genName : Nat → Nat) (cfg : Session) (frame : FrameInput)
    (w : World) (hw : 0 ≤ frame.waitFrame) (hb : 0 ≤ frame.beginFrame)
    (h : frame.shouldRender ≠ XR_TRUE ∨ frame.layerCallFails) :
    (RenderFrame genName cfg frame w).1 = CheckResult frame.endFrame ∧
    ∃ w', (RenderFrame genName cfg frame w).2.log = w'.log ++
      [.xrEndFrame
        { displayTime := frame.predictedDisplayTime,
          environmentBlendMode := XR_ENVIRONMENT_BLEND_MODE_OPAQUE,
          layerCount := 0,
          layer := { layerFlags := 0, space := cfg.stageSpace, viewCount := none,
                     views := none } }
        frame.endFrame] ∧
      (frame.shouldRender ≠ XR_TRUE →
        w' = (w.call (.xrWaitFrame frame.waitFrame)).call (.xrBeginFrame frame.beginFrame)) := by
  have e1 : ¬ CheckResult frame.waitFrame = 0 := by
    rw [CheckResult_eq_zero_iff]; exact not_lt.mpr hw
  have e2 : ¬ CheckResult frame.beginFrame = 0 := by
    rw [CheckResult_eq_zero_iff]; exact not_lt.mpr hb
  unfold RenderFrame
  simp only [e1, e2, if_false]
  by_cases hs : frame.shouldRender = XR_TRUE
  · have hf : frame.layerCallFails := h.resolve_left (fun hne => hne hs)
    simp only [hs, if_true]
    obtain ⟨k1, k2⟩ := RenderLayer_eq_zero_iff genName cfg frame frame.predictedDisplayTime
      { layerFlags := 0, space := cfg.stageSpace, viewCount := none, views := none }
      ((w.call (.xrWaitFrame frame.waitFrame)).call (.xrBeginFrame frame.beginFrame))
    have k3 := k1.mpr hf
    have k4 := k2 k3
    revert k3 k4
    generalize RenderLayer genName cfg frame frame.predictedDisplayTime
      { layerFlags := 0, space := cfg.stageSpace, viewCount := none, views := none }
      ((w.call (.xrWaitFrame frame.waitFrame)).call (.xrBeginFrame frame.beginFrame)) = r
    obtain ⟨r1, r2, r3⟩ := r
    intro k3 k4
    simp only at k3 k4
    subst k3 k4
    simp only
    refine ⟨?_, r3, ?_, fun hne => absurd rfl hne⟩
    · split_ifs <;> simp_all [CheckResult]
    · split_ifs <;> simp [World.call]
  · simp only [hs, if_false]
    refine ⟨?_, _, ?_, fun _ => rfl⟩
    · split_ifs <;> simp_all [CheckResult]
    · split_ifs <;> simp [World.call]

/-- C5, counterexample to the claim as stated: in a frame where `xrLocateViews` is called and
returns the failure code -1 (all other calls succeeding), `RenderFrame` returns 1, not 0, and
the loop iteration that made the call ends without leaving `main`. -/
theorem RenderFrame_returns_one_after_failed_locateViews :
    Call.xrLocateViews 555 2 (-1) ∈
      (RenderFrame (fun k => 100 + k) exampleSession { exampleFrame with locateViews := -1 }
        World.initial).2.log ∧
    (RenderFrame (fun k => 100 + k) exampleSession { exampleFrame with locateViews := -1 }
        World.initial).1 = 1 ∧
    (mainLoop (fun k => 100 + k) exampleSession
        [exampleLoopInput 1 4 16 0 0 { exampleFrame with locateViews := -1 }]
        { sessionReady := 1, xrState := XR_SESSION_STATE_FOCUSED,
          world := World.initial }).exitCode = none := by
  decide

/-- C5 as amended: (1) if `xrWaitFrame`, `xrBeginFrame` or `xrEndFrame` returns a failure code,
`RenderFrame` returns 0; (2) if those of the three that precede rendering succeed, rendering
is requested and a runtime call of `RenderLayer` fails (`xrLocateViews` or a swapchain
acquire, wait or release), `RenderFrame` still ends the frame, with zero layers, and returns
what `CheckResult` makes of the `xrEndFrame` result; (3) whenever `RenderFrame` returns 0 in a
loop iteration that reached it, `main` exits with code -1, whatever inputs would follow. -/
theorem RenderFrame_failure_semantics (genName : Nat → Nat) (cfg : Session)
    (frame : FrameInput) (w : World) :
    ((frame.waitFrame < 0 ∨ frame.beginFrame < 0 ∨ frame.endFrame < 0) →
      (RenderFrame genName cfg frame w).1 = 0) ∧
    (0 ≤ frame.waitFrame → 0 ≤ frame.beginFrame → frame.shouldRender = XR_TRUE →
      frame.layerCallFails →
      (RenderFrame genName cfg frame w).1 = CheckResult frame.endFrame ∧
      (RenderFrame genName cfg frame w).2.log.getLast? = some
        (.xrEndFrame
          { displayTime := frame.predictedDisplayTime,
            environmentBlendMode := XR_ENVIRONMENT_BLEND_MODE_OPAQUE,
            layerCount := 0,
            layer := { layerFlags := 0, space := cfg.stageSpace, viewCount := none,
                       views := none } }
          frame.endFrame)) ∧
    (∀ (inp : LoopInput) (rest : List LoopInput) (s s1 : LoopState),
      inp.frame = frame → inp.handleInput ≠ 0 →
      handleEvent inp { s with world := s.world.call (.xrPollEvent inp.pollResult) }
        = .iterate s1 →
      s1.sessionReady ≠ 0 → 0 ≤ inp.syncActions →
      (RenderFrame genName cfg frame (s1.world.call (.xrSyncActions inp.syncActions))).1 = 0 →
      (mainLoop genName cfg (inp :: rest) s).exitCode = some (-1)) := by
  refine ⟨?_, ?_, ?_⟩
  · intro h
    by_cases hw : frame.waitFrame < 0
    · simp [RenderFrame, (CheckResult_eq_zero_iff _).mpr hw]
    by_cases hb : frame.beginFrame < 0
    · simp only [RenderFrame, (CheckResult_eq_zero_iff _).mpr hb, if_true]
      split_ifs <;> rfl
    have he : frame.endFrame < 0 := by
      rcases h with h | h | h
      · exact absurd h hw
      · exact absurd h hb
      · exact h
    have e1 : ¬ CheckResult frame.waitFrame = 0 := by
      rw [CheckResult_eq_zero_iff]; exact hw
    have e2 : ¬ CheckResult frame.beginFrame = 0 := by
      rw [CheckResult_eq_zero_iff]; exact hb
    simp only [RenderFrame, e1, e2, if_false, (CheckResult_eq_zero_iff _).mpr he, if_true]
  · intro hw hb hs hf
    obtain ⟨h1, w', h2, -⟩ := RenderFrame_zero_layers genName cfg frame w hw hb (Or.inr hf)
    exact ⟨h1, by rw [h2]; simp⟩
  · intro inp rest s s1 hfr hh he hr hsync hrf
    subst hfr
    have e1 : ¬ CheckResult inp.syncActions = 0 := by
      rw [CheckResult_eq_zero_iff]; exact not_lt.mpr hsync
    simp only [mainLoop, if_neg hh, loopBody, he, frameStep, if_pos hr, SyncInput, if_neg e1]
    revert hrf
    generalize RenderFrame genName cfg inp.frame
      (s1.world.call (.xrSyncActions inp.syncActions)) = r
    obtain ⟨r1, r2⟩ := r
    intro hrf
    simp only at hrf
    subst hrf
    rfl

/-- Witness for C5 as amended: a frame whose `xrEndFrame` fails makes `RenderFrame` return 0;
a frame whose swapchain wait fails for view 0 is ended with zero layers and returns 1; and a
loop iteration with the ready flag set whose `xrEndFrame` fails ends `main` with exit code
-1 although another loop input follows. -/
theorem RenderFrame_failure_semantics_witness :
    (RenderFrame (fun k => 100 + k) exampleSession { exampleFrame with endFrame := -1 }
        World.initial).1 = 0 ∧
    ((RenderFrame (fun k => 100 + k) exampleSession
        { exampleFrame with waitImage := fun _ => -1 } World.initial).1 = CheckResult 0 ∧
      (RenderFrame (fun k => 100 + k) exampleSession
        { exampleFrame with waitImage := fun _ => -1 } World.initial).2.log.getLast? = some
        (.xrEndFrame
          { displayTime := 555,
            environmentBlendMode := XR_ENVIRONMENT_BLEND_MODE_OPAQUE,
            layerCount := 0,
            layer := { layerFlags := 0, space := 9, viewCount := none, views := none } }
          0)) ∧
    (mainLoop (fun k => 100 + k) exampleSession
        [exampleLoopInput 1 4 16 0 0 { exampleFrame with endFrame := -1 },
         exampleLoopInput 1 4 16 0 0 exampleFrame]
        { sessionReady := 1, xrState := XR_SESSION_STATE_FOCUSED,
          world := World.initial }).exitCode = some (-1) :=
  ⟨(RenderFrame_failure_semantics (fun k => 100 + k) exampleSession
      { exampleFrame with endFrame := -1 } World.initial).1 (Or.inr (Or.inr (by decide))),
   (RenderFrame_failure_semantics (fun k => 100 + k) exampleSession
      { exampleFrame with waitImage := fun _ => -1 } World.initial).2.1
      (by decide) (by decide) (by decide)
      (Or.inr ⟨rfl, 0, by decide, Or.inr (Or.inl (by decide))⟩),
   (RenderFrame_failure_semantics (fun k => 100 + k) exampleSession
      { exampleFrame with endFrame := -1 } World.initial).2.2
      (exampleLoopInput 1 4 16 0 0 { exampleFrame with endFrame := -1 })
      [exampleLoopInput 1 4 16 0 0 exampleFrame]
      { sessionReady := 1, xrState := XR_SESSION_STATE_FOCUSED, world := World.initial }
      { sessionReady := 1, xrState := XR_SESSION_STATE_FOCUSED,
        world := World.initial.call (.xrPollEvent 4) }
      rfl (by decide) rfl (by decide) (by decide) (by decide)⟩

/-! ### Acquire and release in `RenderLayer` -/

/-- Calls that are not acquires do not matter to `acquiresReleased`. -/
theorem acquiresReleased_append_of_no_acquire (l rest : List Call)
    (hl : ∀ c ∈ l, c.isAcquire = false) :
    acquiresReleased (l ++ rest) = acquiresReleased rest := by
  induction l with
  | nil => rfl
  | cons c l ih =>
    have hc := hl c (List.mem_cons_self _ _)
    have ih' := ih (fun c' hc' => hl c' (List.mem_cons_of_mem _ hc'))
    cases c <;> first | (simp [Call.isAcquire] at hc; done) | simpa [acquiresReleased] using ih'

/-- Calls that are not acquires do not matter to `acquiresReleasedUnlessWaitFailed`. -/
theorem acquiresReleasedUnlessWaitFailed_append_of_no_acquire (l rest : List Call)
    (hl : ∀ c ∈ l, c.isAcquire = false) :
    acquiresReleasedUnlessWaitFailed (l ++ rest) = acquiresReleasedUnlessWaitFailed rest := by
  induction l with
  | nil => rfl
  | cons c l ih =>
    have hc := hl c (List.mem_cons_self _ _)
    have ih' := ih (fun c' hc' => hl c' (List.mem_cons_of_mem _ hc'))
    cases c <;> first
      | (simp [Call.isAcquire] at hc; done)
      | simpa [acquiresReleasedUnlessWaitFailed] using ih'

/-- An OpenGL command is not an acquire. -/
theorem isAcquire_of_isGL (c : Call) (h : c.isGL = true) : c.isAcquire = false := by
  cases c <;> first | rfl | simp [Call.isGL] at h

/-- A cache lookup appends OpenGL commands only. -/
theorem GetDepthTextureFromColorTexture_log (genName : Nat → Nat) (w : World) (tex : Nat) :
    ∃ seg, (GetDepthTextureFromColorTexture genName w tex).2.log = w.log ++ seg ∧
      ∀ c ∈ seg, c.isGL = true := by
  unfold GetDepthTextureFromColorTexture
  cases cacheSearch w.colorDepthPairs tex w.numColorDepthPairs.toNat 0 with
  | some d => exact ⟨[], by simp, by simp⟩
  | none =>
    refine ⟨[.glBindTexture tex, .glGenTextures (genName w.texturesGenerated),
      .glBindTexture (genName w.texturesGenerated), .glTexImage2D], ?_, ?_⟩
    · simp [CreateDepthTexture, World.call]
    · intro c hc
      simp only [List.mem_cons, List.mem_singleton, List.not_mem_nil, or_false] at hc
      rcases hc with hc | hc | hc | hc <;> subst hc <;> rfl

/-- The render commands of a view are OpenGL commands. -/
theorem renderCommands_isGL (fb : Nat) (sc : SwapchainInfo) (color depth : Nat) :
    ∀ c ∈ renderCommands fb sc color depth, c.isGL = true := by
  intro c hc
  simp only [renderCommands, List.mem_cons, List.mem_singleton, List.not_mem_nil,
    or_false] at hc
  rcases hc with hc | hc | hc | hc | hc | hc | hc | hc | hc | hc | hc <;> subst hc <;> rfl

/-- An acquire followed by a block without acquires that holds a release of the same
swapchain is accounted for, whatever follows. -/
theorem acquiresReleased_block (sc : Nat) (a : XrResult) (l rest : List Call)
    (hl : ∀ c ∈ l, c.isAcquire = false) (hr : l.any (Call.isReleaseOf sc) = true) :
    acquiresReleased (.xrAcquireSwapchainImage sc a :: (l ++ rest)) = acquiresReleased rest ∧
    acquiresReleasedUnlessWaitFailed (.xrAcquireSwapchainImage sc a :: (l ++ rest))
      = acquiresReleasedUnlessWaitFailed rest := by
  constructor
  · simp only [acquiresReleased, List.any_append, hr, Bool.true_or, Bool.or_true, Bool.true_and]
    exact acquiresReleased_append_of_no_acquire l rest hl
  · simp only [acquiresReleasedUnlessWaitFailed, List.any_append, hr, Bool.true_or,
      Bool.or_true, Bool.true_and]
    exact acquiresReleasedUnlessWaitFailed_append_of_no_acquire l rest hl

/-- The calls the per-view loop appends: every successful acquire is released later or is
followed by a failed wait that ends the loop; and if no wait fails, every successful acquire
is released later. -/
theorem renderViews_log (genName : Nat → Nat) (cfg : Session) (inp : FrameInput) :
    ∀ (n i : Nat) (w : World), ∃ seg,
      (renderViews genName cfg inp n i w).2.log = w.log ++ seg ∧
      acquiresReleasedUnlessWaitFailed seg = true ∧
      ((∀ j, i ≤ j → j < i + n → 0 ≤ inp.waitImage j) → acquiresReleased seg = true) := by
  intro n
  induction n with
  | zero => intro i w; exact ⟨[], by simp [renderViews], rfl, fun _ => rfl⟩
  | succ n ih =>
    intro i w
    unfold renderViews
    simp only [CheckResult_eq_zero_iff]
    by_cases ha : inp.acquire i < 0
    · refine ⟨[.xrAcquireSwapchainImage (cfg.swapchains i).handle (inp.acquire i)], ?_, ?_, ?_⟩
      · simp [ha, World.call]
      · simp [acquiresReleasedUnlessWaitFailed, ha]
      · intro _; simp [acquiresReleased, ha]
    by_cases hw : inp.waitImage i < 0
    · refine ⟨[.xrAcquireSwapchainImage (cfg.swapchains i).handle (inp.acquire i),
        .xrWaitSwapchainImage (cfg.swapchains i).handle (inp.waitImage i)], ?_, ?_, ?_⟩
      · simp [ha, hw, World.call]
      · simp [acquiresReleasedUnlessWaitFailed, Call.isFailedWaitOf, hw]
      · intro h
        exact absurd (h i (le_refl _) (by omega)) (not_le.mpr hw)
    simp only [ha, hw, if_false]
    obtain ⟨glseg, hgl, hglP⟩ := GetDepthTextureFromColorTexture_log genName
      ((w.call (.xrAcquireSwapchainImage (cfg.swapchains i).handle (inp.acquire i))).call
        (.xrWaitSwapchainImage (cfg.swapchains i).handle (inp.waitImage i)))
      (cfg.swapchainImages i (inp.swapchainImageIndex i))
    generalize GetDepthTextureFromColorTexture genName
      ((w.call (.xrAcquireSwapchainImage (cfg.swapchains i).handle (inp.acquire i))).call
        (.xrWaitSwapchainImage (cfg.swapchains i).handle (inp.waitImage i)))
      (cfg.swapchainImages i (inp.swapchainImageIndex i)) = g at hgl ⊢
    obtain ⟨depth, w2⟩ := g
    simp only at hgl ⊢
    -- the block of calls of view `i` after its acquire
    have hblock : ∀ c ∈ Call.xrWaitSwapchainImage (cfg.swapchains i).handle (inp.waitImage i) ::
        (glseg ++ renderCommands cfg.frameBuffer (cfg.swapchains i)
          (cfg.swapchainImages i (inp.swapchainImageIndex i)) depth ++
          [.xrReleaseSwapchainImage (cfg.swapchains i).handle (inp.release i)]),
        c.isAcquire = false := by
      intro c hc
      simp only [List.mem_cons, List.mem_append, List.mem_singleton, List.not_mem_nil,
        or_false] at hc
      rcases hc with hc | (hc | hc) | hc
      · subst hc; rfl
      · exact isAcquire_of_isGL c (hglP c hc)
      · exact isAcquire_of_isGL c (renderCommands_isGL _ _ _ _ c hc)
      · subst hc; rfl
    have hrel : (Call.xrWaitSwapchainImage (cfg.swapchains i).handle (inp.waitImage i) ::
        (glseg ++ renderCommands cfg.frameBuffer (cfg.swapchains i)
          (cfg.swapchainImages i (inp.swapchainImageIndex i)) depth ++
          [.xrReleaseSwapchainImage (cfg.swapchains i).handle (inp.release i)])).any
        (Call.isReleaseOf (cfg.swapchains i).handle) = true := by
      simp [Call.isReleaseOf]
    by_cases hr : inp.release i < 0
    · obtain ⟨b1, b2⟩ := acquiresReleased_block (cfg.swapchains i).handle (inp.acquire i) _ []
        hblock hrel
      refine ⟨_, ?_, b2, fun _ => b1⟩
      simp [hr, World.call, hgl]
    · obtain ⟨seg', hs1, hs2, hs3⟩ := ih (i + 1)
        (World.call
          { w2 with log := (w2.log ++ renderCommands cfg.frameBuffer (cfg.swapchains i)
              (cfg.swapchainImages i (inp.swapchainImageIndex i)) depth) }
          (.xrReleaseSwapchainImage (cfg.swapchains i).handle (inp.release i)))
      obtain ⟨b1, b2⟩ := acquiresReleased_block (cfg.swapchains i).handle (inp.acquire i) _ seg'
        hblock hrel
      refine ⟨_, ?_, b2.trans hs2, fun h => b1.trans (hs3 ?_)⟩
      · simp only [hr, if_false]
        rw [hs1]
        simp [World.call, hgl]
      · intro j h1 h2
        exact h j (by omega) (by omega)

/-- The calls `RenderLayer` appends to the log. -/
theorem RenderLayer_log (genName : Nat → Nat) (cfg : Session) (inp : FrameInput) (t : Int)
    (layer : XrCompositionLayerProjection) (w : World) :
    ∃ seg, (RenderLayer genName cfg inp t layer w).2.2.log
        = w.log ++ .xrLocateViews t cfg.numViewConfigs inp.locateViews :: seg ∧
      acquiresReleasedUnlessWaitFailed seg = true ∧
      ((∀ j, j < inp.viewCountOutput → 0 ≤ inp.waitImage j) → acquiresReleased seg = true) := by
  unfold RenderLayer
  simp only
  split_ifs with h1 h2
  · exact ⟨[], by simp [World.call], rfl, fun _ => rfl⟩
  · obtain ⟨seg, hs1, hs2, hs3⟩ := renderViews_log genName cfg inp inp.viewCountOutput 0
      (w.call (.xrLocateViews t cfg.numViewConfigs inp.locateViews))
    refine ⟨seg, ?_, hs2, fun h => hs3 (fun j _ hj => h j (by omega))⟩
    revert hs1
    generalize renderViews genName cfg inp inp.viewCountOutput 0
      (w.call (.xrLocateViews t cfg.numViewConfigs inp.locateViews)) = r
    obtain ⟨r1, r2⟩ := r
    intro hs1
    simp only at hs1
    split
    · rename_i heq
      simp only [Prod.mk.injEq] at heq
      obtain ⟨-, rfl⟩ := heq
      simp [hs1, World.call]
    · rename_i heq
      simp only [Prod.mk.injEq] at heq
      obtain ⟨-, rfl⟩ := heq
      simp [hs1, World.call]
  · exact ⟨[], by simp [World.call], rfl, fun _ => rfl⟩

/-- C6, counterexample to the claim as stated: when `xrAcquireSwapchainImage` succeeds for
view 0 and the following `xrWaitSwapchainImage` fails, `RenderLayer` issues exactly the calls
locate, acquire, wait and returns 0; swapchain 10 is acquired and never released. -/
theorem RenderLayer_failed_wait_not_released :
    (RenderLayer (fun k => 100 + k) exampleSession
        { exampleFrame with waitImage := fun _ => -1 } 555
        { layerFlags := 0, space := 9, viewCount := none, views := none } World.initial).2.2.log
      = [.xrLocateViews 555 2 0, .xrAcquireSwapchainImage 10 0,
         .xrWaitSwapchainImage 10 (-1)] ∧
    (RenderLayer (fun k => 100 + k) exampleSession
        { exampleFrame with waitImage := fun _ => -1 } 555
        { layerFlags := 0, space := 9, viewCount := none, views := none } World.initial).1 = 0 ∧
    acquiresReleased
      ((RenderLayer (fun k => 100 + k) exampleSession
        { exampleFrame with waitImage := fun _ => -1 } 555
        { layerFlags := 0, space := 9, viewCount := none, views := none }
        World.initial).2.2.log.drop World.initial.log.length) = false := by
  decide

/-- One iteration of the per-view loop in which acquire, wait and release do not fail: the
calls acquire, wait, the OpenGL commands of the depth-texture lookup (`glseg`), the render
commands, and release on swapchain `i`, in that order; then the loop goes on with view
`i + 1`. -/
theorem renderViews_succ_of_success (genName : Nat → Nat) (cfg : Session) (inp : FrameInput)
    (n i : Nat) (w : World) (ha : 0 ≤ inp.acquire i) (hw : 0 ≤ inp.waitImage i)
    (hr : 0 ≤ inp.release i) :
    ∃ (glseg : List Call) (depth : Nat) (w' : World), (∀ c ∈ glseg, c.isGL = true) ∧
      renderViews genName cfg inp (n + 1) i w = renderViews genName cfg inp n (i + 1) w' ∧
      w'.log = w.log ++
        [.xrAcquireSwapchainImage (cfg.swapchains i).handle (inp.acquire i),
         .xrWaitSwapchainImage (cfg.swapchains i).handle (inp.waitImage i)] ++ glseg ++
        renderCommands cfg.frameBuffer (cfg.swapchains i)
          (cfg.swapchainImages i (inp.swapchainImageIndex i)) depth ++
        [.xrReleaseSwapchainImage (cfg.swapchains i).handle (inp.release i)] := by
  have e1 : ¬ inp.acquire i < 0 := not_lt.mpr ha
  have e2 : ¬ inp.waitImage i < 0 := not_lt.mpr hw
  have e3 : ¬ inp.release i < 0 := not_lt.mpr hr
  obtain ⟨glseg, hgl, hglP⟩ := GetDepthTextureFromColorTexture_log genName
    ((w.call (.xrAcquireSwapchainImage (cfg.swapchains i).handle (inp.acquire i))).call
      (.xrWaitSwapchainImage (cfg.swapchains i).handle (inp.waitImage i)))
    (cfg.swapchainImages i (inp.swapchainImageIndex i))
  conv => enter [1, r, 1, d, 1, w', 2, 1, 1]; unfold renderViews
  simp only [CheckResult_eq_zero_iff, e1, e2, e3, if_false]
  revert hgl
  generalize GetDepthTextureFromColorTexture genName
    ((w.call (.xrAcquireSwapchainImage (cfg.swapchains i).handle (inp.acquire i))).call
      (.xrWaitSwapchainImage (cfg.swapchains i).handle (inp.waitImage i)))
    (cfg.swapchainImages i (inp.swapchainImageIndex i)) = g
  obtain ⟨depth, w2⟩ := g
  intro hgl
  simp only at hgl ⊢
  refine ⟨glseg, depth, _, hglP, rfl, ?_⟩
  simp [World.call, hgl]

/-- The per-view loop on the path where the wait of view `i` fails after views `i0 .. i - 1`
went through and the acquire of view `i` succeeded: the loop executes `return 0` right after
that wait, so the acquire and the failed wait of view `i` are the last two calls, and every
acquire before them has its release before them. -/
theorem renderViews_failed_wait (genName : Nat → Nat) (cfg : Session) (inp : FrameInput)
    (i : Nat) (ha : 0 ≤ inp.acquire i) (hw : inp.waitImage i < 0) :
    ∀ (n i0 : Nat) (w : World), i0 ≤ i → i < i0 + n →
      (∀ j, i0 ≤ j → j < i → 0 ≤ inp.acquire j ∧ 0 ≤ inp.waitImage j ∧ 0 ≤ inp.release j) →
      (renderViews genName cfg inp n i0 w).1 = 0 ∧
      ∃ pre, (renderViews genName cfg inp n i0 w).2.log = w.log ++ pre ++
          [.xrAcquireSwapchainImage (cfg.swapchains i).handle (inp.acquire i),
           .xrWaitSwapchainImage (cfg.swapchains i).handle (inp.waitImage i)] ∧
        acquiresReleased pre = true := by
  intro n
  induction n with
  | zero => intro i0 w h1 h2 _; omega
  | succ n ih =>
    intro i0 w h1 h2 hall
    by_cases hi : i0 = i
    · subst hi
      unfold renderViews
      have e1 : ¬ CheckResult (inp.acquire i0) = 0 := by
        rw [CheckResult_eq_zero_iff]; exact not_lt.mpr ha
      have e2 : CheckResult (inp.waitImage i0) = 0 := (CheckResult_eq_zero_iff _).mpr hw
      simp only [if_neg e1, if_pos e2]
      exact ⟨trivial, [], by simp [World.call], rfl⟩
    · have hlt : i0 < i := lt_of_le_of_ne h1 hi
      obtain ⟨a0, w0, r0⟩ := hall i0 (le_refl _) hlt
      obtain ⟨glseg, depth, w', hgl, hstep, hlog⟩ :=
        renderViews_succ_of_success genName cfg inp n i0 w a0 w0 r0
      obtain ⟨hz, pre, hpre, hrel⟩ := ih (i0 + 1) w' (by omega) (by omega)
        (fun j hj1 hj2 => hall j (by omega) hj2)
      rw [hstep]
      refine ⟨hz, .xrAcquireSwapchainImage (cfg.swapchains i0).handle (inp.acquire i0) ::
        ((.xrWaitSwapchainImage (cfg.swapchains i0).handle (inp.waitImage i0) ::
          (glseg ++ renderCommands cfg.frameBuffer (cfg.swapchains i0)
            (cfg.swapchainImages i0 (inp.swapchainImageIndex i0)) depth ++
          [.xrReleaseSwapchainImage (cfg.swapchains i0).handle (inp.release i0)])) ++ pre),
        ?_, ?_⟩
      · rw [hpre, hlog]
        simp
      · have hblock : ∀ c ∈ Call.xrWaitSwapchainImage (cfg.swapchains i0).handle
            (inp.waitImage i0) ::
            (glseg ++ renderCommands cfg.frameBuffer (cfg.swapchains i0)
              (cfg.swapchainImages i0 (inp.swapchainImageIndex i0)) depth ++
            [.xrReleaseSwapchainImage (cfg.swapchains i0).handle (inp.release i0)]),
            c.isAcquire = false := by
          intro c hc
          simp only [List.mem_cons, List.mem_append, List.mem_singleton, List.not_mem_nil,
            or_false] at hc
          rcases hc with hc | (hc | hc) | hc
          · subst hc; rfl
          · exact isAcquire_of_isGL c (hgl c hc)
          · exact isAcquire_of_isGL c (renderCommands_isGL _ _ _ _ c hc)
          · subst hc; rfl
        have hr : (Call.xrWaitSwapchainImage (cfg.swapchains i0).handle (inp.waitImage i0) ::
            (glseg ++ renderCommands cfg.frameBuffer (cfg.swapchains i0)
              (cfg.swapchainImages i0 (inp.swapchainImageIndex i0)) depth ++
            [.xrReleaseSwapchainImage (cfg.swapchains i0).handle (inp.release i0)])).any
            (Call.isReleaseOf (cfg.swapchains i0).handle) = true := by
          simp [Call.isReleaseOf]
        rw [(acquiresReleased_block (cfg.swapchains i0).handle (inp.acquire i0) _ pre
          hblock hr).1]
        exact hrel

/-- C6 as amended: among the calls one `RenderLayer` call issues, (1) every successful
`xrAcquireSwapchainImage` is followed by an `xrReleaseSwapchainImage` on the same swapchain,
unless the `xrWaitSwapchainImage` that follows the acquire fails, in which case that failed
wait is the last call before `RenderLayer` returns; (2) when no `xrWaitSwapchainImage` fails,
every successful acquire is released before `RenderLayer` returns (also when a release or a
later acquire fails); (3) on the path where, for some view `i`, the views before it went
through, the acquire of view `i` succeeded and its wait fails, `RenderLayer` returns 0 with
the layer untouched, the acquire and the failed wait of view `i` are the last two calls it
issued, so that no release follows that acquire, and every acquire before them was
released. -/
theorem RenderLayer_acquire_release (genName : Nat → Nat) (cfg : Session) (inp : FrameInput)
    (t : Int) (layer : XrCompositionLayerProjection) (w : World) :
    acquiresReleasedUnlessWaitFailed
      ((RenderLayer genName cfg inp t layer w).2.2.log.drop w.log.length) = true ∧
    ((∀ j, j < inp.viewCountOutput → 0 ≤ inp.waitImage j) →
      acquiresReleased
        ((RenderLayer genName cfg inp t layer w).2.2.log.drop w.log.length) = true) ∧
    (∀ i, i < inp.viewCountOutput → inp.locateViews = XR_SUCCESS →
      (∀ j, j < i → 0 ≤ inp.acquire j ∧ 0 ≤ inp.waitImage j ∧ 0 ≤ inp.release j) →
      0 ≤ inp.acquire i → inp.waitImage i < 0 →
      (RenderLayer genName cfg inp t layer w).1 = 0 ∧
      (RenderLayer genName cfg inp t layer w).2.1 = layer ∧
      ∃ pre, (RenderLayer genName cfg inp t layer w).2.2.log = w.log ++ pre ++
          [.xrAcquireSwapchainImage (cfg.swapchains i).handle (inp.acquire i),
           .xrWaitSwapchainImage (cfg.swapchains i).handle (inp.waitImage i)] ∧
        acquiresReleased pre = true) := by
  obtain ⟨seg, h1, h2, h3⟩ := RenderLayer_log genName cfg inp t layer w
  refine ⟨?_, ?_, ?_⟩
  · rw [h1, List.drop_left]
    simpa [acquiresReleasedUnlessWaitFailed] using h2
  · intro h
    rw [h1, List.drop_left]
    simpa [acquiresReleased] using h3 h
  · intro i hi hloc hall ha hw
    obtain ⟨hz, pre, hpre, hrel⟩ := renderViews_failed_wait genName cfg inp i ha hw
      inp.viewCountOutput 0 (w.call (.xrLocateViews t cfg.numViewConfigs inp.locateViews))
      (Nat.zero_le _) (by omega) (fun j _ hj => hall j hj)
    have hc : ¬ CheckResult inp.locateViews = 0 := by rw [hloc]; decide
    have hu : XR_UNQUALIFIED_SUCCESS inp.locateViews = true := by rw [hloc]; rfl
    unfold RenderLayer
    simp only [if_neg hc, hu, if_true]
    revert hz hpre
    generalize renderViews genName cfg inp inp.viewCountOutput 0
      (w.call (.xrLocateViews t cfg.numViewConfigs inp.locateViews)) = r
    obtain ⟨r1, r2⟩ := r
    intro hz hpre
    simp only at hz hpre
    subst hz
    refine ⟨rfl, rfl, .xrLocateViews t cfg.numViewConfigs inp.locateViews :: pre, ?_, ?_⟩
    · show r2.log = _
      rw [hpre]
      simp [World.call]
    · simpa [acquiresReleased] using hrel

/-- Witness for C6 as amended: a frame with two views in which no wait fails but the release
of view 1 fails; and a frame in which view 0 goes through and the wait of view 1 fails. -/
theorem RenderLayer_acquire_release_witness :
    acquiresReleasedUnlessWaitFailed
      ((RenderLayer (fun k => 100 + k) exampleSession
        { exampleFrame with release := fun i => if i = 1 then -1 else 0 } 555
        { layerFlags := 0, space := 9, viewCount := none, views := none }
        World.initial).2.2.log.drop World.initial.log.length) = true ∧
    acquiresReleased
      ((RenderLayer (fun k => 100 + k) exampleSession
        { exampleFrame with release := fun i => if i = 1 then -1 else 0 } 555
        { layerFlags := 0, space := 9, viewCount := none, views := none }
        World.initial).2.2.log.drop World.initial.log.length) = true ∧
    ((RenderLayer (fun k => 100 + k) exampleSession (exampleFrameWaitFails 1) 555
        { layerFlags := 0, space := 9, viewCount := none, views := none }
        World.initial).1 = 0 ∧
      (RenderLayer (fun k => 100 + k) exampleSession (exampleFrameWaitFails 1) 555
        { layerFlags := 0, space := 9, viewCount := none, views := none }
        World.initial).2.1
        = { layerFlags := 0, space := 9, viewCount := none, views := none } ∧
      ∃ pre, (RenderLayer (fun k => 100 + k) exampleSession (exampleFrameWaitFails 1) 555
          { layerFlags := 0, space := 9, viewCount := none, views := none }
          World.initial).2.2.log = [] ++ pre ++
            [.xrAcquireSwapchainImage 11 0, .xrWaitSwapchainImage 11 (-1)] ∧
        acquiresReleased pre = true) :=
  ⟨(RenderLayer_acquire_release (fun k => 100 + k) exampleSession
      { exampleFrame with release := fun i => if i = 1 then -1 else 0 } 555
      { layerFlags := 0, space := 9, viewCount := none, views := none } World.initial).1,
   (RenderLayer_acquire_release (fun k => 100 + k) exampleSession
      { exampleFrame with release := fun i => if i = 1 then -1 else 0 } 555
      { layerFlags := 0, space := 9, viewCount := none, views := none } World.initial).2.1
      (fun _ _ => le_refl 0),
   (RenderLayer_acquire_release (fun k => 100 + k) exampleSession
      (exampleFrameWaitFails 1) 555
      { layerFlags := 0, space := 9, viewCount := none, views := none } World.initial).2.2
      1 (by decide) rfl
      (fun j hj => by
        have h0 : j = 0 := by omega
        subst h0
        decide)
      (by decide) (by decide)⟩

/-! ### A whole frame -/

/-- The calls of a depth-texture lookup: none when the colour texture is found in the cache,
and otherwise the four calls of `CreateDepthTexture`, which generate the texture name the
lookup returns. -/
theorem GetDepthTextureFromColorTexture_calls (genName : Nat → Nat) (w : World) (tex : Nat) :
    ∃ seg, (GetDepthTextureFromColorTexture genName w tex).2.log = w.log ++ seg ∧
      (seg = [] ∨
       seg = [.glBindTexture tex,
              .glGenTextures (GetDepthTextureFromColorTexture genName w tex).1,
              .glBindTexture (GetDepthTextureFromColorTexture genName w tex).1,
              .glTexImage2D]) := by
  unfold GetDepthTextureFromColorTexture
  cases cacheSearch w.colorDepthPairs tex w.numColorDepthPairs.toNat 0 with
  | some d => exact ⟨[], by simp, Or.inl rfl⟩
  | none =>
    refine ⟨[.glBindTexture tex, .glGenTextures (genName w.texturesGenerated),
      .glBindTexture (genName w.texturesGenerated), .glTexImage2D], ?_, Or.inr ?_⟩
    · simp [CreateDepthTexture, World.call]
    · simp [CreateDepthTexture, World.call]

/-- One iteration of the per-view loop in which acquire, wait and release do not fail, call
by call: acquire, wait, the calls of the depth-texture lookup (none, or the four calls that
create the depth texture), the eleven render commands, and release on swapchain `i`; then
the loop goes on with view `i + 1`. -/
theorem renderViews_succ_calls (genName : Nat → Nat) (cfg : Session) (inp : FrameInput)
    (n i : Nat) (w : World) (ha : 0 ≤ inp.acquire i) (hw : 0 ≤ inp.waitImage i)
    (hr : 0 ≤ inp.release i) :
    ∃ (glseg : List Call) (depth : Nat) (w' : World),
      (glseg = [] ∨
       glseg = [.glBindTexture (cfg.swapchainImages i (inp.swapchainImageIndex i)),
                .glGenTextures depth, .glBindTexture depth, .glTexImage2D]) ∧
      renderViews genName cfg inp (n + 1) i w = renderViews genName cfg inp n (i + 1) w' ∧
      w'.log = w.log ++
        [.xrAcquireSwapchainImage (cfg.swapchains i).handle (inp.acquire i),
         .xrWaitSwapchainImage (cfg.swapchains i).handle (inp.waitImage i)] ++ glseg ++
        [.glBindFramebuffer cfg.frameBuffer,
         .glViewport 0 0 (cfg.swapchains i).width (cfg.swapchains i).height,
         .glFramebufferTexture2D GL_COLOR_ATTACHMENT0 (cfg.swapchainImages i (inp.swapchainImageIndex i)),
         .glFramebufferTexture2D GL_DEPTH_ATTACHMENT depth,
         .glClearColor, .glClearDepth, .glClear,
         .glUseProgram, .glUniformMatrix4fv, .glUniform4fv,
         .glBindFramebuffer 0] ++
        [.xrReleaseSwapchainImage (cfg.swapchains i).handle (inp.release i)] := by
  have e1 : ¬ inp.acquire i < 0 := not_lt.mpr ha
  have e2 : ¬ inp.waitImage i < 0 := not_lt.mpr hw
  have e3 : ¬ inp.release i < 0 := not_lt.mpr hr
  obtain ⟨glseg, hgl, hglP⟩ := GetDepthTextureFromColorTexture_calls genName
    ((w.call (.xrAcquireSwapchainImage (cfg.swapchains i).handle (inp.acquire i))).call
      (.xrWaitSwapchainImage (cfg.swapchains i).handle (inp.waitImage i)))
    (cfg.swapchainImages i (inp.swapchainImageIndex i))
  conv => enter [1, r, 1, d, 1, w', 2, 1, 1]; unfold renderViews
  simp only [CheckResult_eq_zero_iff, e1, e2, e3, if_false]
  revert hgl hglP
  generalize GetDepthTextureFromColorTexture genName
    ((w.call (.xrAcquireSwapchainImage (cfg.swapchains i).handle (inp.acquire i))).call
      (.xrWaitSwapchainImage (cfg.swapchains i).handle (inp.waitImage i)))
    (cfg.swapchainImages i (inp.swapchainImageIndex i)) = g
  obtain ⟨depth, w2⟩ := g
  intro hgl hglP
  simp only at hgl hglP ⊢
  refine ⟨glseg, depth, _, hglP, rfl, ?_⟩
  simp [World.call, hgl, renderCommands]

/-- C7: with two view configurations, `shouldRender = XR_TRUE`, two located views and every
runtime call returning `XR_SUCCESS`, one `RenderFrame` call returns 1 and appends exactly
these calls to the log, in this order: `xrWaitFrame`, `xrBeginFrame`, `xrLocateViews`; then
for view 0 and then for view 1 one acquire and one wait on that view's swapchain, the calls
of the depth-texture lookup (`g0`, `g1`: none on a cache hit, else the four calls creating
the depth texture), the eleven render commands (bind the framebuffer, set the viewport to
the swapchain's size, attach the colour and depth textures, clear, use the program, upload
the matrix and the colour, unbind) and one release on that swapchain; and last a single
`xrEndFrame` with `layerCount = 1` whose projection layer has `viewCount = 2` and an assigned
`views` pointer. -/
theorem RenderFrame_two_views (genName : Nat → Nat) (cfg : Session) (frame : FrameInput)
    (w : World) (hcfg : cfg.numViewConfigs = 2) (hs : frame.shouldRender = XR_TRUE)
    (hwait : frame.waitFrame = XR_SUCCESS) (hbegin : frame.beginFrame = XR_SUCCESS)
    (hlocate : frame.locateViews = XR_SUCCESS) (hv : frame.viewCountOutput = 2)
    (hviews : ∀ i, i < 2 → frame.acquire i = XR_SUCCESS ∧ frame.waitImage i = XR_SUCCESS ∧
      frame.release i = XR_SUCCESS)
    (hend : frame.endFrame = XR_SUCCESS) :
    ∃ (g0 g1 : List Call) (d0 d1 : Nat),
      (g0 = [] ∨
       g0 = [.glBindTexture (cfg.swapchainImages 0 (frame.swapchainImageIndex 0)),
             .glGenTextures d0, .glBindTexture d0, .glTexImage2D]) ∧
      (g1 = [] ∨
       g1 = [.glBindTexture (cfg.swapchainImages 1 (frame.swapchainImageIndex 1)),
             .glGenTextures d1, .glBindTexture d1, .glTexImage2D]) ∧
      (RenderFrame genName cfg frame w).1 = 1 ∧
      (RenderFrame genName cfg frame w).2.log = w.log ++
        ([.xrWaitFrame XR_SUCCESS, .xrBeginFrame XR_SUCCESS,
          .xrLocateViews frame.predictedDisplayTime 2 XR_SUCCESS,
          .xrAcquireSwapchainImage (cfg.swapchains 0).handle XR_SUCCESS,
          .xrWaitSwapchainImage (cfg.swapchains 0).handle XR_SUCCESS] ++ g0 ++
         [.glBindFramebuffer cfg.frameBuffer,
          .glViewport 0 0 (cfg.swapchains 0).width (cfg.swapchains 0).height,
          .glFramebufferTexture2D GL_COLOR_ATTACHMENT0 (cfg.swapchainImages 0 (frame.swapchainImageIndex 0)),
          .glFramebufferTexture2D GL_DEPTH_ATTACHMENT d0,
          .glClearColor, .glClearDepth, .glClear,
          .glUseProgram, .glUniformMatrix4fv, .glUniform4fv,
          .glBindFramebuffer 0] ++
         [.xrReleaseSwapchainImage (cfg.swapchains 0).handle XR_SUCCESS,
          .xrAcquireSwapchainImage (cfg.swapchains 1).handle XR_SUCCESS,
          .xrWaitSwapchainImage (cfg.swapchains 1).handle XR_SUCCESS] ++ g1 ++
         [.glBindFramebuffer cfg.frameBuffer,
          .glViewport 0 0 (cfg.swapchains 1).width (cfg.swapchains 1).height,
          .glFramebufferTexture2D GL_COLOR_ATTACHMENT0 (cfg.swapchainImages 1 (frame.swapchainImageIndex 1)),
          .glFramebufferTexture2D GL_DEPTH_ATTACHMENT d1,
          .glClearColor, .glClearDepth, .glClear,
          .glUseProgram, .glUniformMatrix4fv, .glUniform4fv,
          .glBindFramebuffer 0] ++
         [.xrReleaseSwapchainImage (cfg.swapchains 1).handle XR_SUCCESS,
          .xrEndFrame
            { displayTime := frame.predictedDisplayTime,
              environmentBlendMode := XR_ENVIRONMENT_BLEND_MODE_OPAQUE,
              layerCount := 1,
              layer :=
                { layerFlags := 0, space := cfg.stageSpace, viewCount := some 2,
                  views := some .localOfReturnedRenderLayer } }
            XR_SUCCESS]) := by
  obtain ⟨ha0, hw0, hr0⟩ := hviews 0 (by decide)
  obtain ⟨ha1, hw1, hr1⟩ := hviews 1 (by decide)
  have hc : CheckResult XR_SUCCESS = 1 := rfl
  obtain ⟨g0, d0, w1, hgl0, hstep0, hlog0⟩ := renderViews_succ_calls genName cfg frame 1 0
    (((w.call (.xrWaitFrame XR_SUCCESS)).call (.xrBeginFrame XR_SUCCESS)).call
      (.xrLocateViews frame.predictedDisplayTime 2 XR_SUCCESS))
    (by rw [ha0]; decide) (by rw [hw0]; decide) (by rw [hr0]; decide)
  obtain ⟨g1, d1, w2, hgl1, hstep1, hlog1⟩ := renderViews_succ_calls genName cfg frame 0 1
    w1 (by rw [ha1]; decide) (by rw [hw1]; decide) (by rw [hr1]; decide)
  refine ⟨g0, g1, d0, d1, hgl0, hgl1, ?_⟩
  have hrv : renderViews genName cfg frame 2 0
      (((w.call (.xrWaitFrame XR_SUCCESS)).call (.xrBeginFrame XR_SUCCESS)).call
        (.xrLocateViews frame.predictedDisplayTime 2 XR_SUCCESS)) = (1, w2) := by
    rw [hstep0, hstep1]; rfl
  unfold RenderFrame RenderLayer
  have hu : XR_UNQUALIFIED_SUCCESS XR_SUCCESS = true := rfl
  simp only [hwait, hbegin, hlocate, hend, hs, hv, hcfg, hc, one_ne_zero, if_false, if_true,
    hrv, hu]
  refine ⟨trivial, ?_⟩
  simp only [World.call, hlog1, hlog0, ha0, hw0, hr0, ha1, hw1, hr1]
  simp

/-- Witness for C7: the example session (swapchains 10 and 11, 960 x 1080 each, framebuffer
3) and the example frame (display time 555, image 1 of each swapchain), from the initial
state; and the same log written out in full, 40 calls, with the depth textures 100 and 101
created on the way. -/
theorem RenderFrame_two_views_witness :
    (∃ (g0 g1 : List Call) (d0 d1 : Nat),
      (g0 = [] ∨ g0 = [.glBindTexture 1001, .glGenTextures d0, .glBindTexture d0,
                       .glTexImage2D]) ∧
      (g1 = [] ∨ g1 = [.glBindTexture 1011, .glGenTextures d1, .glBindTexture d1,
                       .glTexImage2D]) ∧
      (RenderFrame (fun k => 100 + k) exampleSession exampleFrame World.initial).1 = 1 ∧
      (RenderFrame (fun k => 100 + k) exampleSession exampleFrame World.initial).2.log = [] ++
        ([.xrWaitFrame 0, .xrBeginFrame 0, .xrLocateViews 555 2 0,
          .xrAcquireSwapchainImage 10 0, .xrWaitSwapchainImage 10 0] ++ g0 ++
         [.glBindFramebuffer 3, .glViewport 0 0 960 1080,
          .glFramebufferTexture2D GL_COLOR_ATTACHMENT0 1001,
          .glFramebufferTexture2D GL_DEPTH_ATTACHMENT d0,
          .glClearColor, .glClearDepth, .glClear,
          .glUseProgram, .glUniformMatrix4fv, .glUniform4fv,
          .glBindFramebuffer 0] ++
         [.xrReleaseSwapchainImage 10 0,
          .xrAcquireSwapchainImage 11 0, .xrWaitSwapchainImage 11 0] ++ g1 ++
         [.glBindFramebuffer 3, .glViewport 0 0 960 1080,
          .glFramebufferTexture2D GL_COLOR_ATTACHMENT0 1011,
          .glFramebufferTexture2D GL_DEPTH_ATTACHMENT d1,
          .glClearColor, .glClearDepth, .glClear,
          .glUseProgram, .glUniformMatrix4fv, .glUniform4fv,
          .glBindFramebuffer 0] ++
         [.xrReleaseSwapchainImage 11 0,
          .xrEndFrame
            { displayTime := 555,
              environmentBlendMode := 1,
              layerCount := 1,
              layer :=
                { layerFlags := 0, space := 9, viewCount := some 2,
                  views := some .localOfReturnedRenderLayer } }
            0])) ∧
    (RenderFrame (fun k => 100 + k) exampleSession exampleFrame World.initial).2.log =
      [.xrWaitFrame 0, .xrBeginFrame 0, .xrLocateViews 555 2 0,
       .xrAcquireSwapchainImage 10 0, .xrWaitSwapchainImage 10 0,
       .glBindTexture 1001, .glGenTextures 100, .glBindTexture 100, .glTexImage2D,
       .glBindFramebuffer 3, .glViewport 0 0 960 1080,
       .glFramebufferTexture2D 0x8CE0 1001, .glFramebufferTexture2D 0x8D00 100,
       .glClearColor, .glClearDepth, .glClear,
       .glUseProgram, .glUniformMatrix4fv, .glUniform4fv,
       .glBindFramebuffer 0,
       .xrReleaseSwapchainImage 10 0,
       .xrAcquireSwapchainImage 11 0, .xrWaitSwapchainImage 11 0,
       .glBindTexture 1011, .glGenTextures 101, .glBindTexture 101, .glTexImage2D,
       .glBindFramebuffer 3, .glViewport 0 0 960 1080,
       .glFramebufferTexture2D 0x8CE0 1011, .glFramebufferTexture2D 0x8D00 101,
       .glClearColor, .glClearDepth, .glClear,
       .glUseProgram, .glUniformMatrix4fv, .glUniform4fv,
       .glBindFramebuffer 0,
       .xrReleaseSwapchainImage 11 0,
       .xrEndFrame
         { displayTime := 555, environmentBlendMode := 1, layerCount := 1,
           layer := { layerFlags := 0, space := 9, viewCount := some 2,
                      views := some .localOfReturnedRenderLayer } } 0] :=
  ⟨RenderFrame_two_views (fun k => 100 + k) exampleSession exampleFrame World.initial
    rfl rfl rfl rfl rfl rfl (fun _ _ => ⟨rfl, rfl, rfl⟩) rfl, by decide⟩

/-- C8: when `xrWaitFrame` reports `shouldRender = XR_FALSE` and `xrWaitFrame`, `xrBeginFrame`
and `xrEndFrame` succeed, `RenderFrame` appends exactly three calls to the log, `xrWaitFrame`,
`xrBeginFrame` and `xrEndFrame` in that order (so no `xrLocateViews` and no swapchain call);
the `xrEndFrame` call carries `layerCount = 0`, the predicted display time `xrWaitFrame`
returned and the opaque blend mode; and `RenderFrame` returns 1. -/
theorem RenderFrame_should_not_render (genName : Nat → Nat) (cfg : Session)
    (frame : FrameInput) (w : World) (hs : frame.shouldRender = XR_FALSE)
    (hwait : XR_SUCCEEDED frame.waitFrame = true) (hbegin : XR_SUCCEEDED frame.beginFrame = true)
    (hend : XR_SUCCEEDED frame.endFrame = true) :
    (RenderFrame genName cfg frame w).1 = 1 ∧
    (RenderFrame genName cfg frame w).2.log = w.log ++
      [.xrWaitFrame frame.waitFrame, .xrBeginFrame frame.beginFrame,
       .xrEndFrame
         { displayTime := frame.predictedDisplayTime,
           environmentBlendMode := XR_ENVIRONMENT_BLEND_MODE_OPAQUE,
           layerCount := 0,
           layer := { layerFlags := 0, space := cfg.stageSpace, viewCount := none,
                      views := none } }
         frame.endFrame] := by
  have hw : 0 ≤ frame.waitFrame := by simpa [XR_SUCCEEDED] using hwait
  have hb : 0 ≤ frame.beginFrame := by simpa [XR_SUCCEEDED] using hbegin
  have he : 0 ≤ frame.endFrame := by simpa [XR_SUCCEEDED] using hend
  have hne : frame.shouldRender ≠ XR_TRUE := by rw [hs]; decide
  obtain ⟨h1, w', h2, h3⟩ := RenderFrame_zero_layers genName cfg frame w hw hb (Or.inl hne)
  refine ⟨by rw [h1]; exact CheckResult_of_nonneg _ he, ?_⟩
  rw [h2, h3 hne]
  simp [World.call]

/-- Witness for C8: the example frame with `shouldRender = XR_FALSE` and qualified successes
(`XR_TIMEOUT_EXPIRED` is 1, `XR_SESSION_LOSS_PENDING` is 3) from two of the calls. -/
theorem RenderFrame_should_not_render_witness :
    (RenderFrame (fun k => 100 + k) exampleSession
      { exampleFrame with shouldRender := XR_FALSE, waitFrame := 1, endFrame := 3 }
      World.initial).1 = 1 ∧
    (RenderFrame (fun k => 100 + k) exampleSession
      { exampleFrame with shouldRender := XR_FALSE, waitFrame := 1, endFrame := 3 }
      World.initial).2.log = [] ++
      [.xrWaitFrame 1, .xrBeginFrame 0,
       .xrEndFrame
         { displayTime := 555,
           environmentBlendMode := XR_ENVIRONMENT_BLEND_MODE_OPAQUE,
           layerCount := 0,
           layer := { layerFlags := 0, space := 9, viewCount := none, views := none } }
         3] :=
  RenderFrame_should_not_render (fun k => 100 + k) exampleSession
    { exampleFrame with shouldRender := XR_FALSE, waitFrame := 1, endFrame := 3 }
    World.initial rfl rfl rfl rfl

/-! ### The extension check -/

/-- The loop of `ExtensionSupported` yields 1 if one of the entries it visits carries the
name, and the incoming value of `supported` otherwise. -/
theorem extensionSupportedLoop_eq (extensions : List String) (name : String) :
    ∀ (n i : Nat) (supported : Int),
      ((∃ j, i ≤ j ∧ j < i + n ∧ name = extensions.getD j "") →
        extensionSupportedLoop extensions name n i supported = 1) ∧
      ((¬ ∃ j, i ≤ j ∧ j < i + n ∧ name = extensions.getD j "") →
        extensionSupportedLoop extensions name n i supported = supported) := by
  intro n
  induction n with
  | zero =>
    intro i supported
    refine ⟨?_, fun _ => rfl⟩
    rintro ⟨j, h1, h2, -⟩
    omega
  | succ n ih =>
    intro i supported
    simp only [extensionSupportedLoop]
    by_cases hrest : ∃ j, i + 1 ≤ j ∧ j < i + 1 + n ∧ name = extensions.getD j ""
    · have h1 := (ih (i + 1) (if name = extensions.getD i "" then 1 else supported)).1 hrest
      obtain ⟨j, hj1, hj2, hj3⟩ := hrest
      exact ⟨fun _ => h1, fun h => absurd ⟨j, by omega, by omega, hj3⟩ h⟩
    · have h1 := (ih (i + 1) (if name = extensions.getD i "" then 1 else supported)).2 hrest
      rw [h1]
      by_cases hi : name = extensions.getD i ""
      · rw [if_pos hi]
        exact ⟨fun _ => rfl, fun h => absurd ⟨i, le_refl _, by omega, hi⟩ h⟩
      · rw [if_neg hi]
        refine ⟨?_, fun _ => rfl⟩
        rintro ⟨j, hj1, hj2, hj3⟩
        by_cases hj : j = i
        · subst hj; exact absurd hj3 hi
        · exact absurd ⟨j, by omega, by omega, hj3⟩ hrest

/-- Called with the whole array, `ExtensionSupported` returns 1 if the name is in the array
and 0 otherwise. -/
theorem ExtensionSupported_length (extensions : List String) (name : String) :
    ExtensionSupported extensions (extensions.length : Int) name
      = if name ∈ extensions then 1 else 0 := by
  unfold ExtensionSupported
  have hn : ((extensions.length : Int)).toNat = extensions.length := Int.toNat_ofNat _
  rw [hn]
  have key : (∃ j, 0 ≤ j ∧ j < 0 + extensions.length ∧ name = extensions.getD j "") ↔
      name ∈ extensions := by
    constructor
    · rintro ⟨j, -, h2, h3⟩
      have hj : j < extensions.length := by omega
      rw [h3, List.getD_eq_getElem _ _ hj]
      exact List.getElem_mem hj
    · intro h
      obtain ⟨j, hj, h3⟩ := List.getElem_of_mem h
      exact ⟨j, Nat.zero_le _, by omega, by rw [List.getD_eq_getElem _ _ hj, h3]⟩
  obtain ⟨h1, h2⟩ := extensionSupportedLoop_eq extensions name extensions.length 0 0
  by_cases hmem : name ∈ extensions
  · rw [if_pos hmem]; exact h1 (key.mpr hmem)
  · rw [if_neg hmem]; exact h2 (fun h => hmem (key.mp h))

/-- A count below `2 ^ 31` is not changed by the conversion to `int`. -/
theorem toInt32_of_lt (n : Nat) (h : n < 2 ^ 31) : toInt32 n = (n : Int) := by
  unfold toInt32
  have h1 : n % 2 ^ 32 = n := Nat.mod_eq_of_lt (by omega)
  rw [h1, if_pos h]

/-! ### The log only grows -/

/-- Function `RenderFrame` only appends to the log. -/
theorem RenderFrame_log_append (genName : Nat → Nat) (cfg : Session) (frame : FrameInput)
    (w : World) : ∃ seg, (RenderFrame genName cfg frame w).2.log = w.log ++ seg := by
  unfold RenderFrame
  simp only
  by_cases h1 : CheckResult frame.waitFrame = 0
  · rw [if_pos h1]; exact ⟨[.xrWaitFrame frame.waitFrame], rfl⟩
  rw [if_neg h1]
  by_cases h2 : CheckResult frame.beginFrame = 0
  · rw [if_pos h2]
    exact ⟨[.xrWaitFrame frame.waitFrame, .xrBeginFrame frame.beginFrame], by
      simp [World.call]⟩
  rw [if_neg h2]
  have key : ∃ seg,
      (if frame.shouldRender = XR_TRUE then
        match RenderLayer genName cfg frame frame.predictedDisplayTime
          { layerFlags := 0, space := cfg.stageSpace, viewCount := none, views := none }
          ((w.call (.xrWaitFrame frame.waitFrame)).call (.xrBeginFrame frame.beginFrame)) with
        | (0, layer, w) => ((0 : Int), layer, w)
        | (_, layer, w) => (0 + 1, layer, w)
      else ((0 : Int), { layerFlags := 0, space := cfg.stageSpace, viewCount := none,
                         views := none },
            (w.call (.xrWaitFrame frame.waitFrame)).call
              (.xrBeginFrame frame.beginFrame))).2.2.log = w.log ++ seg := by
    by_cases hs : frame.shouldRender = XR_TRUE
    · rw [if_pos hs]
      obtain ⟨seg, hseg, -⟩ := RenderLayer_log genName cfg frame frame.predictedDisplayTime
        { layerFlags := 0, space := cfg.stageSpace, viewCount := none, views := none }
        ((w.call (.xrWaitFrame frame.waitFrame)).call (.xrBeginFrame frame.beginFrame))
      revert hseg
      generalize RenderLayer genName cfg frame frame.predictedDisplayTime
        { layerFlags := 0, space := cfg.stageSpace, viewCount := none, views := none }
        ((w.call (.xrWaitFrame frame.waitFrame)).call (.xrBeginFrame frame.beginFrame)) = r
      obtain ⟨r1, r2, r3⟩ := r
      intro hseg
      simp only at hseg
      refine ⟨[.xrWaitFrame frame.waitFrame, .xrBeginFrame frame.beginFrame] ++
        .xrLocateViews frame.predictedDisplayTime cfg.numViewConfigs frame.locateViews ::
          seg, ?_⟩
      split
      · rename_i heq
        simp only [Prod.mk.injEq] at heq
        obtain ⟨-, -, rfl⟩ := heq
        simp [hseg, World.call]
      · rename_i heq
        simp only [Prod.mk.injEq] at heq
        obtain ⟨-, -, rfl⟩ := heq
        simp [hseg, World.call]
    · rw [if_neg hs]
      exact ⟨[.xrWaitFrame frame.waitFrame, .xrBeginFrame frame.beginFrame], by
        simp [World.call]⟩
  revert key
  generalize (if frame.shouldRender = XR_TRUE then
        match RenderLayer genName cfg frame frame.predictedDisplayTime
          { layerFlags := 0, space := cfg.stageSpace, viewCount := none, views := none }
          ((w.call (.xrWaitFrame frame.waitFrame)).call (.xrBeginFrame frame.beginFrame)) with
        | (0, layer, w) => ((0 : Int), layer, w)
        | (_, layer, w) => (0 + 1, layer, w)
      else ((0 : Int), { layerFlags := 0, space := cfg.stageSpace, viewCount := none,
                         views := none },
            (w.call (.xrWaitFrame frame.waitFrame)).call
              (.xrBeginFrame frame.beginFrame))) = X
  obtain ⟨x1, x2, x3⟩ := X
  rintro ⟨seg, hseg⟩
  simp only at hseg ⊢
  split_ifs <;>
    exact ⟨seg ++ [.xrEndFrame
      { displayTime := frame.predictedDisplayTime,
        environmentBlendMode := XR_ENVIRONMENT_BLEND_MODE_OPAQUE,
        layerCount := x1, layer := x2 } frame.endFrame], by simp [World.call, hseg]⟩

/-- The three outcomes of the event handling: a Ready event whose `xrBeginSession` fails
makes `main` return 1; a Ready event whose `xrBeginSession` succeeds sets the ready flag;
anything else leaves the ready flag and the process state alone. -/
theorem handleEvent_cases (inp : LoopInput) (s : LoopState) :
    (inp.reportsReady ∧ inp.beginSession < 0 ∧
      handleEvent inp s = .returned 1 (s.world.call (.xrBeginSession inp.beginSession))) ∨
    (inp.reportsReady ∧ 0 ≤ inp.beginSession ∧
      handleEvent inp s = .iterate
        { sessionReady := 1, xrState := inp.eventState,
          world := s.world.call (.xrBeginSession inp.beginSession) }) ∨
    (¬ inp.reportsReady ∧ ∃ s', handleEvent inp s = .iterate s' ∧
      s'.sessionReady = s.sessionReady ∧ s'.world = s.world) := by
  by_cases hr : inp.reportsReady
  · obtain ⟨h1, h2, h3⟩ := hr
    have e1 : inp.eventType ≠ XR_TYPE_EVENT_DATA_INSTANCE_LOSS_PENDING := by rw [h2]; decide
    have e2 : inp.eventState ≠ XR_SESSION_STATE_IDLE := by rw [h3]; decide
    by_cases hb : inp.beginSession < 0
    · refine Or.inl ⟨⟨h1, h2, h3⟩, hb, ?_⟩
      simp only [handleEvent, if_pos h1, if_neg e1, if_pos h2, if_neg e2, if_pos h3,
        BeginSession, (CheckResult_eq_zero_iff _).mpr hb, if_true]
    · refine Or.inr (Or.inl ⟨⟨h1, h2, h3⟩, not_lt.mp hb, ?_⟩)
      have e3 : ¬ CheckResult inp.beginSession = 0 := by
        rw [CheckResult_eq_zero_iff]; exact hb
      simp only [handleEvent, if_pos h1, if_neg e1, if_pos h2, if_neg e2, if_pos h3,
        BeginSession, if_neg e3]
  · exact Or.inr (Or.inr ⟨hr, handleEvent_of_not_reportsReady inp s hr⟩)

/-- The frame part of the loop body either makes `main` return -1 or runs to the end of the
body; it only appends to the log. -/
theorem frameStep_cases (genName : Nat → Nat) (cfg : Session) (inp : LoopInput)
    (s : LoopState) :
    (∃ seg, (frameStep genName cfg inp s).world.log = s.world.log ++ seg) ∧
    ((∃ w, frameStep genName cfg inp s = .returned (-1) w) ∨
     (∃ s', frameStep genName cfg inp s = .iterate s')) := by
  unfold frameStep
  by_cases hr : s.sessionReady ≠ 0
  · rw [if_pos hr]
    unfold SyncInput
    by_cases hsync : CheckResult inp.syncActions = 0
    · simp only [if_pos hsync]
      exact ⟨⟨[.xrSyncActions inp.syncActions], rfl⟩, Or.inl ⟨_, rfl⟩⟩
    · simp only [if_neg hsync]
      obtain ⟨seg, hseg⟩ := RenderFrame_log_append genName cfg inp.frame
        (s.world.call (.xrSyncActions inp.syncActions))
      revert hseg
      generalize RenderFrame genName cfg inp.frame
        (s.world.call (.xrSyncActions inp.syncActions)) = r
      obtain ⟨r1, r2⟩ := r
      intro hseg
      simp only at hseg
      by_cases h0 : r1 = 0
      · subst h0
        exact ⟨⟨.xrSyncActions inp.syncActions :: seg, by simp [Step.world, hseg, World.call]⟩,
          Or.inl ⟨_, rfl⟩⟩
      · have : (match ((r1, r2) : Int × World) with
            | (0, w) => Step.returned (-1) w
            | (_, w) => Step.iterate { s with world := w })
            = Step.iterate { s with world := r2 } := by
          split
          · rename_i heq
            simp only [Prod.mk.injEq] at heq
            exact absurd heq.1 h0
          · rename_i heq
            simp only [Prod.mk.injEq] at heq
            obtain ⟨-, rfl⟩ := heq
            rfl
        rw [this]
        exact ⟨⟨.xrSyncActions inp.syncActions :: seg, by simp [Step.world, hseg, World.call]⟩,
          Or.inr ⟨_, rfl⟩⟩
  · rw [if_neg hr]
    exact ⟨⟨[.OGUSleep 100000], rfl⟩, Or.inr ⟨_, rfl⟩⟩

/-- A pass through the loop body only appends to the log, and if it makes `main` return, the
exit code is 1 exactly for a Ready event whose `xrBeginSession` failed and -1 otherwise. -/
theorem loopBody_cases (genName : Nat → Nat) (cfg : Session) (inp : LoopInput)
    (s : LoopState) :
    (∃ seg, (loopBody genName cfg inp s).world.log = s.world.log ++ seg) ∧
    ((∃ w, loopBody genName cfg inp s = .returned 1 w ∧ inp.reportsReady ∧
        inp.beginSession < 0) ∨
     (∃ w, loopBody genName cfg inp s = .returned (-1) w) ∨
     (∃ s', loopBody genName cfg inp s = .iterate s')) := by
  unfold loopBody
  simp only
  rcases handleEvent_cases inp
      { s with world := s.world.call (.xrPollEvent inp.pollResult) } with
    ⟨h1, h2, h3⟩ | ⟨h1, h2, h3⟩ | ⟨h1, s1, h3, h4, h5⟩
  · rw [h3]
    exact ⟨⟨[.xrPollEvent inp.pollResult, .xrBeginSession inp.beginSession], by
      simp [Step.world, World.call]⟩, Or.inl ⟨_, rfl, h1, h2⟩⟩
  · rw [h3]
    simp only
    obtain ⟨⟨seg, hseg⟩, hc⟩ := frameStep_cases genName cfg inp
      { sessionReady := 1, xrState := inp.eventState,
        world := (s.world.call (.xrPollEvent inp.pollResult)).call
          (.xrBeginSession inp.beginSession) }
    refine ⟨⟨[.xrPollEvent inp.pollResult, .xrBeginSession inp.beginSession] ++ seg, ?_⟩,
      Or.inr hc⟩
    rw [hseg]; simp [World.call]
  · rw [h3]
    simp only
    obtain ⟨⟨seg, hseg⟩, hc⟩ := frameStep_cases genName cfg inp s1
    refine ⟨⟨.xrPollEvent inp.pollResult :: seg, ?_⟩, Or.inr hc⟩
    rw [hseg, h5]; simp [World.call]

/-- The destroy loop only appends to the log. -/
theorem destroySwapchains_log_append (cfg : Session) (td : TeardownInput) :
    ∀ (n i : Nat) (w : World), ∃ seg, (destroySwapchains cfg td n i w).log = w.log ++ seg := by
  intro n
  induction n with
  | zero => intro i w; exact ⟨[], by simp [destroySwapchains]⟩
  | succ n ih =>
    intro i w
    obtain ⟨seg, hseg⟩ := ih (i + 1)
      (w.call (.xrDestroySwapchain (cfg.swapchains i).handle (td.destroySwapchain i)))
    exact ⟨.xrDestroySwapchain (cfg.swapchains i).handle (td.destroySwapchain i) :: seg, by
      simp only [destroySwapchains, hseg]; simp [World.call]⟩

/-- The code after the loop only appends to the log. -/
theorem teardown_log_append (cfg : Session) (td : TeardownInput) (w : World) :
    ∃ seg, (teardown cfg td w).log = w.log ++ seg := by
  obtain ⟨seg, hseg⟩ := destroySwapchains_log_append cfg td cfg.numViewConfigs.toNat 0 w
  exact ⟨seg ++ [.xrDestroySpace cfg.stageSpace td.destroySpace, .xrEndSession td.endSession,
    .xrDestroySession td.destroySession, .xrDestroyInstance td.destroyInstance], by
    simp [teardown, World.call, hseg]⟩

/-- The loop only appends to the log, and it makes `main` exit with code 1 only in an
iteration that receives a Ready event and whose `xrBeginSession` fails. -/
theorem mainLoop_cases (genName : Nat → Nat) (cfg : Session) :
    ∀ (inputs : List LoopInput) (s : LoopState),
      (∃ seg, (mainLoop genName cfg inputs s).world.log = s.world.log ++ seg) ∧
      ((mainLoop genName cfg inputs s).exitCode = some 1 →
        ∃ inp ∈ inputs, inp.reportsReady ∧ inp.beginSession < 0) := by
  intro inputs
  induction inputs with
  | nil => intro s; exact ⟨⟨[], by simp [mainLoop]⟩, by simp [mainLoop]⟩
  | cons inp rest ih =>
    intro s
    simp only [mainLoop]
    by_cases hh : inp.handleInput = 0
    · rw [if_pos hh]
      exact ⟨teardown_log_append cfg inp.teardown s.world, by simp⟩
    rw [if_neg hh]
    obtain ⟨⟨seg, hseg⟩, hc⟩ := loopBody_cases genName cfg inp s
    rcases hc with ⟨w, h1, h2, h3⟩ | ⟨w, h1⟩ | ⟨s', h1⟩
    · rw [h1] at hseg ⊢
      exact ⟨⟨seg, hseg⟩, fun _ => ⟨inp, List.mem_cons_self _ _, h2, h3⟩⟩
    · rw [h1] at hseg ⊢
      exact ⟨⟨seg, hseg⟩, by simp⟩
    · rw [h1] at hseg ⊢
      simp only [Step.world] at hseg
      obtain ⟨⟨seg', hseg'⟩, hc'⟩ := ih s'
      refine ⟨⟨seg ++ seg', by rw [hseg', hseg, List.append_assoc]⟩, fun h => ?_⟩
      obtain ⟨i, hi, hp⟩ := hc' h
      exact ⟨i, List.mem_cons_of_mem _ hi, hp⟩

/-- Function `EnumerateExtensions` returns a non-zero count only when both enumeration calls
succeeded; the count is then the converted length of the runtime's list, which is what
`extensionProps` holds. -/
theorem EnumerateExtensions_ne_zero (start : StartupInput) (w : World)
    (h : (EnumerateExtensions start w).1 ≠ 0) :
    0 ≤ start.enumerateCount ∧ 0 ≤ start.enumerateFill ∧
    (EnumerateExtensions start w).1 = toInt32 start.extensions.length ∧
    (EnumerateExtensions start w).2.1 = start.extensions := by
  unfold EnumerateExtensions at h ⊢
  simp only [CheckResult_eq_zero_iff] at h ⊢
  by_cases h1 : start.enumerateCount < 0
  · simp [h1] at h
  by_cases h2 : start.enumerateFill < 0
  · simp [h1, h2] at h
  simp only [h1, h2, if_false]
  exact ⟨not_lt.mp h1, not_lt.mp h2, trivial, trivial⟩

/-- When both enumeration calls succeed, `EnumerateExtensions` returns the converted length
of the runtime's list and stores the list. -/
theorem EnumerateExtensions_of_success (start : StartupInput) (w : World)
    (h1 : XR_SUCCEEDED start.enumerateCount = true)
    (h2 : XR_SUCCEEDED start.enumerateFill = true) :
    (EnumerateExtensions start w).1 = toInt32 start.extensions.length ∧
    (EnumerateExtensions start w).2.1 = start.extensions := by
  have e1 : ¬ CheckResult start.enumerateCount = 0 := by simp [CheckResult, h1]
  have e2 : ¬ CheckResult start.enumerateFill = 0 := by simp [CheckResult, h2]
  simp only [EnumerateExtensions, if_neg e1, if_neg e2, and_self]

/-- C10, counterexample to the claim as stated: when the runtime enumerates the empty list
(both enumeration calls succeeding), `main` exits with code -1, not 1. -/
theorem main_empty_extension_list_exit_code :
    (main (fun k => 100 + k) { exampleStartup with extensions := [] }
      [exampleLoopInput 1 4 16 0 0 exampleFrame]).exitCode = some (-1) := by
  decide

/-- C10 as amended: when both enumeration calls succeed and the count fits a C `int`,
(1) for the empty list `main` exits with code -1 before creating an instance; (2) for every
non-empty list that does not contain `XR_KHR_opengl_enable`, `main` exits with code 1 before
creating an instance; (3) for every list that contains it, `main` gets past the check and
calls `CreateInstance`. -/
theorem main_extension_check (genName : Nat → Nat) (start : StartupInput)
    (inputs : List LoopInput) (h1 : XR_SUCCEEDED start.enumerateCount = true)
    (h2 : XR_SUCCEEDED start.enumerateFill = true) (hlen : start.extensions.length < 2 ^ 31) :
    (start.extensions = [] →
      (main genName start inputs).exitCode = some (-1) ∧
      Call.CreateInstance ∉ (main genName start inputs).world.log) ∧
    (start.extensions ≠ [] → XR_KHR_OPENGL_ENABLE_EXTENSION_NAME ∉ start.extensions →
      (main genName start inputs).exitCode = some 1 ∧
      Call.CreateInstance ∉ (main genName start inputs).world.log) ∧
    (XR_KHR_OPENGL_ENABLE_EXTENSION_NAME ∈ start.extensions →
      Call.CreateInstance ∈ (main genName start inputs).world.log) := by
  obtain ⟨e1, e2⟩ := EnumerateExtensions_of_success start World.initial h1 h2
  rw [toInt32_of_lt _ hlen] at e1
  obtain ⟨w, -, hm⟩ := main_cases genName start inputs
  rw [e1, e2, ExtensionSupported_length] at hm
  refine ⟨?_, ?_, ?_⟩
  · intro hnil
    have hz : ((start.extensions.length : Nat) : Int) = 0 := by rw [hnil]; rfl
    rcases hm with ⟨hm, ⟨-, hci⟩ | ⟨hne, -⟩⟩ | ⟨-, hne, -⟩ | ⟨-, hne, -⟩
    · rw [hm]; exact ⟨rfl, hci⟩
    · exact absurd hz hne
    · exact absurd hz hne
    · exact absurd hz hne
  · intro hne hmem
    have hz : ((start.extensions.length : Nat) : Int) ≠ 0 := by
      intro h
      exact hne (List.length_eq_zero.mp (by exact_mod_cast h))
    rcases hm with ⟨-, ⟨h0, -⟩ | ⟨-, hs, -⟩⟩ | ⟨hm, -, -, hci⟩ | ⟨-, -, hs, -⟩
    · exact absurd h0 hz
    · rw [if_neg hmem] at hs; exact absurd rfl hs
    · rw [hm]; exact ⟨rfl, hci⟩
    · rw [if_neg hmem] at hs; exact absurd rfl hs
  · intro hmem
    rcases hm with ⟨hm, ⟨h0, -⟩ | ⟨-, -, hci⟩⟩ | ⟨-, -, hs, -⟩ | ⟨hm, -, -, hci⟩
    · have : start.extensions.length ≠ 0 := by
        intro h
        rw [List.length_eq_zero.mp h] at hmem
        simp at hmem
      exact absurd (by exact_mod_cast h0) this
    · rw [hm]; exact hci
    · rw [if_pos hmem] at hs; exact absurd hs (by decide)
    · rw [hm]
      obtain ⟨⟨seg, hseg⟩, -⟩ := mainLoop_cases genName start.session inputs
        { sessionReady := 0, xrState := XR_SESSION_STATE_UNKNOWN, world := w }
      rw [hseg]
      exact List.mem_append_left _ hci

/-- Witness for C10 as amended: the empty list; the list holding only
`XR_KHR_vulkan_enable`; and the example list, which contains `XR_KHR_opengl_enable`. -/
theorem main_extension_check_witness :
    ((main (fun k => 100 + k) { exampleStartup with extensions := [] }
        [exampleLoopInput 0 4 16 0 0 exampleFrame]).exitCode = some (-1) ∧
      Call.CreateInstance ∉ (main (fun k => 100 + k) { exampleStartup with extensions := [] }
        [exampleLoopInput 0 4 16 0 0 exampleFrame]).world.log) ∧
    ((main (fun k => 100 + k) { exampleStartup with extensions := ["XR_KHR_vulkan_enable"] }
        [exampleLoopInput 0 4 16 0 0 exampleFrame]).exitCode = some 1 ∧
      Call.CreateInstance ∉
        (main (fun k => 100 + k) { exampleStartup with extensions := ["XR_KHR_vulkan_enable"] }
          [exampleLoopInput 0 4 16 0 0 exampleFrame]).world.log) ∧
    Call.CreateInstance ∈ (main (fun k => 100 + k) exampleStartup
        [exampleLoopInput 0 4 16 0 0 exampleFrame]).world.log :=
  ⟨(main_extension_check (fun k => 100 + k) { exampleStartup with extensions := [] }
      [exampleLoopInput 0 4 16 0 0 exampleFrame] rfl rfl (by decide)).1 rfl,
   (main_extension_check (fun k => 100 + k)
      { exampleStartup with extensions := ["XR_KHR_vulkan_enable"] }
      [exampleLoopInput 0 4 16 0 0 exampleFrame] rfl rfl (by decide)).2.1
      (by decide) (by decide),
   (main_extension_check (fun k => 100 + k) exampleStartup
      [exampleLoopInput 0 4 16 0 0 exampleFrame] rfl rfl (by decide)).2.2 (by decide)⟩

/-! ### Exit codes -/

/-- C9 (the code departs from the claim): with the required extension present and start-up
successful, a Ready event whose `xrBeginSession` returns the failure code -1 makes `main`
exit with code 1, not -1. The other failures of `main` exit with -1: a start-up helper
returning 0 (here `CreateSession`), a failed `xrSyncActions`, and a failed frame call (here
`xrWaitFrame`), each after a Ready event whose `xrBeginSession` succeeded; and a missing
extension exits with 1. -/
theorem main_beginSession_failure_exits_one :
    XR_KHR_OPENGL_ENABLE_EXTENSION_NAME ∈ exampleStartup.extensions ∧
    (main (fun k => 100 + k) exampleStartup
      [exampleLoopInput 1 0 XR_TYPE_EVENT_DATA_SESSION_STATE_CHANGED XR_SESSION_STATE_READY (-1)
        exampleFrame]).exitCode = some 1 ∧
    (main (fun k => 100 + k) { exampleStartup with createSession := 0 }
      [exampleLoopInput 1 0 XR_TYPE_EVENT_DATA_SESSION_STATE_CHANGED XR_SESSION_STATE_READY 0
        exampleFrame]).exitCode = some (-1) ∧
    (main (fun k => 100 + k) exampleStartup
      [{ exampleLoopInput 1 0 XR_TYPE_EVENT_DATA_SESSION_STATE_CHANGED XR_SESSION_STATE_READY 0
          exampleFrame with syncActions := -1 }]).exitCode = some (-1) ∧
    (main (fun k => 100 + k) exampleStartup
      [exampleLoopInput 1 0 XR_TYPE_EVENT_DATA_SESSION_STATE_CHANGED XR_SESSION_STATE_READY 0
        { exampleFrame with waitFrame := -1 }]).exitCode = some (-1) ∧
    (main (fun k => 100 + k)
      { exampleStartup with extensions := ["XR_KHR_composition_layer_depth"] }
      [exampleLoopInput 1 0 XR_TYPE_EVENT_DATA_SESSION_STATE_CHANGED XR_SESSION_STATE_READY 0
        exampleFrame]).exitCode = some 1 := by
  decide

/-- The runs of `main` that exit with code 1: (1) if `xrBeginSession` fails while a Ready
session-state event is being handled, `main` exits with code 1, whatever the loop state and
the later inputs; (2) when the extension count fits a C `int`, `main` exits with code 1 only
if the required extension is missing from the enumerated list or `xrBeginSession` failed in
an iteration that received a Ready event. -/
theorem main_exit_code_one (genName : Nat → Nat) (start : StartupInput)
    (inputs : List LoopInput) :
    (∀ (cfg : Session) (inp : LoopInput) (rest : List LoopInput) (s : LoopState),
      inp.handleInput ≠ 0 → inp.reportsReady → inp.beginSession < 0 →
      (mainLoop genName cfg (inp :: rest) s).exitCode = some 1) ∧
    (start.extensions.length < 2 ^ 31 → (main genName start inputs).exitCode = some 1 →
      XR_KHR_OPENGL_ENABLE_EXTENSION_NAME ∉ start.extensions ∨
      ∃ inp ∈ inputs, inp.reportsReady ∧ inp.beginSession < 0) := by
  constructor
  · intro cfg inp rest s hh hr hb
    rcases handleEvent_cases inp
        { s with world := s.world.call (.xrPollEvent inp.pollResult) } with
      ⟨-, -, h3⟩ | ⟨-, h2, -⟩ | ⟨h1, -⟩
    · simp only [mainLoop, if_neg hh, loopBody, h3]
    · exact absurd hb (not_lt.mpr h2)
    · exact absurd hr h1
  · intro hlen hexit
    obtain ⟨w, -, hm⟩ := main_cases genName start inputs
    rcases hm with ⟨hm, -⟩ | ⟨-, hne, hs, -⟩ | ⟨hm, -⟩
    · rw [hm] at hexit
      simp at hexit
    · obtain ⟨-, -, e1, e2⟩ := EnumerateExtensions_ne_zero start World.initial hne
      rw [e1, e2, toInt32_of_lt _ hlen, ExtensionSupported_length] at hs
      left
      intro hmem
      rw [if_pos hmem] at hs
      exact absurd hs (by decide)
    · rw [hm] at hexit
      exact Or.inr ((mainLoop_cases genName start.session inputs _).2 hexit)

/-- An instance of `main_exit_code_one`: a Ready event whose `xrBeginSession` fails, met in
the first loop iteration after a successful start-up with the extension present. -/
theorem main_exit_code_one_witness :
    (mainLoop (fun k => 100 + k) exampleSession
      [exampleLoopInput 1 0 18 2 (-1) exampleFrame, exampleLoopInput 0 4 16 0 0 exampleFrame]
      { sessionReady := 0, xrState := XR_SESSION_STATE_IDLE,
        world := World.initial }).exitCode = some 1 ∧
    (XR_KHR_OPENGL_ENABLE_EXTENSION_NAME ∉ exampleStartup.extensions ∨
      ∃ inp ∈ [exampleLoopInput 1 0 18 2 (-1) exampleFrame], inp.reportsReady ∧
        inp.beginSession < 0) :=
  ⟨(main_exit_code_one (fun k => 100 + k) exampleStartup
      [exampleLoopInput 1 0 18 2 (-1) exampleFrame]).1 exampleSession
      (exampleLoopInput 1 0 18 2 (-1) exampleFrame) [exampleLoopInput 0 4 16 0 0 exampleFrame]
      { sessionReady := 0, xrState := XR_SESSION_STATE_IDLE, world := World.initial }
      (by decide) (by decide) (by decide),
   (main_exit_code_one (fun k => 100 + k) exampleStartup
      [exampleLoopInput 1 0 18 2 (-1) exampleFrame]).2 (by decide) (by decide)⟩

/-! ### What each part of the loop appends to the log -/

/-- An OpenGL command counts as a frame call. -/
theorem isFrameCall_of_isGL (c : Call) (h : c.isGL = true) : c.isFrameCall = true := by
  cases c <;> first | rfl | simp [Call.isGL] at h

/-- The per-view loop appends frame calls only. -/
theorem renderViews_appends (genName : Nat → Nat) (cfg : Session) (inp : FrameInput) :
    ∀ (n i : Nat) (w : World), ∃ seg,
      (renderViews genName cfg inp n i w).2.log = w.log ++ seg ∧
      ∀ c ∈ seg, c.isFrameCall = true := by
  intro n
  induction n with
  | zero => intro i w; exact ⟨[], by simp [renderViews], by simp⟩
  | succ n ih =>
    intro i w
    unfold renderViews
    simp only [CheckResult_eq_zero_iff]
    by_cases ha : inp.acquire i < 0
    · refine ⟨[.xrAcquireSwapchainImage (cfg.swapchains i).handle (inp.acquire i)], ?_, ?_⟩
      · simp [ha, World.call]
      · intro c hc
        rw [List.mem_singleton] at hc
        subst hc; rfl
    by_cases hw : inp.waitImage i < 0
    · refine ⟨[.xrAcquireSwapchainImage (cfg.swapchains i).handle (inp.acquire i),
        .xrWaitSwapchainImage (cfg.swapchains i).handle (inp.waitImage i)], ?_, ?_⟩
      · simp [ha, hw, World.call]
      · intro c hc
        simp only [List.mem_cons, List.mem_singleton, List.not_mem_nil, or_false] at hc
        rcases hc with hc | hc <;> subst hc <;> rfl
    simp only [ha, hw, if_false]
    obtain ⟨glseg, hgl, hglP⟩ := GetDepthTextureFromColorTexture_log genName
      ((w.call (.xrAcquireSwapchainImage (cfg.swapchains i).handle (inp.acquire i))).call
        (.xrWaitSwapchainImage (cfg.swapchains i).handle (inp.waitImage i)))
      (cfg.swapchainImages i (inp.swapchainImageIndex i))
    generalize GetDepthTextureFromColorTexture genName
      ((w.call (.xrAcquireSwapchainImage (cfg.swapchains i).handle (inp.acquire i))).call
        (.xrWaitSwapchainImage (cfg.swapchains i).handle (inp.waitImage i)))
      (cfg.swapchainImages i (inp.swapchainImageIndex i)) = g at hgl ⊢
    obtain ⟨depth, w2⟩ := g
    simp only at hgl ⊢
    obtain ⟨blk, hblk⟩ : ∃ blk : List Call, blk =
        Call.xrAcquireSwapchainImage (cfg.swapchains i).handle (inp.acquire i) ::
        Call.xrWaitSwapchainImage (cfg.swapchains i).handle (inp.waitImage i) ::
        (glseg ++ renderCommands cfg.frameBuffer (cfg.swapchains i)
          (cfg.swapchainImages i (inp.swapchainImageIndex i)) depth ++
          [.xrReleaseSwapchainImage (cfg.swapchains i).handle (inp.release i)]) := ⟨_, rfl⟩
    have hblock : ∀ c ∈ blk, c.isFrameCall = true := by
      intro c hc
      rw [hblk] at hc
      simp only [List.mem_cons, List.mem_append, List.mem_singleton, List.not_mem_nil,
        or_false] at hc
      rcases hc with hc | hc | (hc | hc) | hc
      · subst hc; rfl
      · subst hc; rfl
      · exact isFrameCall_of_isGL c (hglP c hc)
      · exact isFrameCall_of_isGL c (renderCommands_isGL _ _ _ _ c hc)
      · subst hc; rfl
    by_cases hr : inp.release i < 0
    · refine ⟨blk, ?_, hblock⟩
      simp [hr, World.call, hgl, hblk]
    · obtain ⟨seg', hs1, hs2⟩ := ih (i + 1)
        (World.call
          { w2 with log := (w2.log ++ renderCommands cfg.frameBuffer (cfg.swapchains i)
              (cfg.swapchainImages i (inp.swapchainImageIndex i)) depth) }
          (.xrReleaseSwapchainImage (cfg.swapchains i).handle (inp.release i)))
      refine ⟨blk ++ seg', ?_, fun c hc => ?_⟩
      · simp only [hr, if_false]
        rw [hs1]
        simp [World.call, hgl, hblk]
      · rcases List.mem_append.mp hc with h | h
        · exact hblock c h
        · exact hs2 c h

/-- `RenderLayer` appends frame calls only. -/
theorem RenderLayer_appends (genName : Nat → Nat) (cfg : Session) (inp : FrameInput) (t : Int)
    (layer : XrCompositionLayerProjection) (w : World) :
    ∃ seg, (RenderLayer genName cfg inp t layer w).2.2.log = w.log ++ seg ∧
      ∀ c ∈ seg, c.isFrameCall = true := by
  have hloc : ∀ c ∈ [Call.xrLocateViews t cfg.numViewConfigs inp.locateViews],
      c.isFrameCall = true := by
    intro c hc
    rw [List.mem_singleton] at hc
    subst hc; rfl
  unfold RenderLayer
  simp only
  split_ifs with h1 h2
  · exact ⟨[.xrLocateViews t cfg.numViewConfigs inp.locateViews], by simp [World.call], hloc⟩
  · obtain ⟨seg, hs1, hs2⟩ := renderViews_appends genName cfg inp inp.viewCountOutput 0
      (w.call (.xrLocateViews t cfg.numViewConfigs inp.locateViews))
    refine ⟨[.xrLocateViews t cfg.numViewConfigs inp.locateViews] ++ seg, ?_, fun c hc => ?_⟩
    · revert hs1
      generalize renderViews genName cfg inp inp.viewCountOutput 0
        (w.call (.xrLocateViews t cfg.numViewConfigs inp.locateViews)) = r
      obtain ⟨r1, r2⟩ := r
      intro hs1
      simp only at hs1
      split
      · rename_i heq
        simp only [Prod.mk.injEq] at heq
        obtain ⟨-, rfl⟩ := heq
        simp [hs1, World.call]
      · rename_i heq
        simp only [Prod.mk.injEq] at heq
        obtain ⟨-, rfl⟩ := heq
        simp [hs1, World.call]
    · rcases List.mem_append.mp hc with h | h
      · exact hloc c h
      · exact hs2 c h
  · exact ⟨[.xrLocateViews t cfg.numViewConfigs inp.locateViews], by simp [World.call], hloc⟩

/-- `RenderFrame` appends frame calls only. -/
theorem RenderFrame_appends (genName : Nat → Nat) (cfg : Session) (frame : FrameInput)
    (w : World) :
    ∃ seg, (RenderFrame genName cfg frame w).2.log = w.log ++ seg ∧
      ∀ c ∈ seg, c.isFrameCall = true := by
  have two : ∀ c ∈ [Call.xrWaitFrame frame.waitFrame, Call.xrBeginFrame frame.beginFrame],
      c.isFrameCall = true := by
    intro c hc
    simp only [List.mem_cons, List.mem_singleton, List.not_mem_nil, or_false] at hc
    rcases hc with hc | hc <;> subst hc <;> rfl
  unfold RenderFrame
  simp only
  by_cases h1 : CheckResult frame.waitFrame = 0
  · rw [if_pos h1]
    refine ⟨[.xrWaitFrame frame.waitFrame], rfl, fun c hc => ?_⟩
    rw [List.mem_singleton] at hc
    subst hc; rfl
  rw [if_neg h1]
  by_cases h2 : CheckResult frame.beginFrame = 0
  · rw [if_pos h2]
    exact ⟨[.xrWaitFrame frame.waitFrame, .xrBeginFrame frame.beginFrame], by
      simp [World.call], two⟩
  rw [if_neg h2]
  have key : ∃ seg,
      (if frame.shouldRender = XR_TRUE then
        match RenderLayer genName cfg frame frame.predictedDisplayTime
          { layerFlags := 0, space := cfg.stageSpace, viewCount := none, views := none }
          ((w.call (.xrWaitFrame frame.waitFrame)).call (.xrBeginFrame frame.beginFrame)) with
        | (0, layer, w) => ((0 : Int), layer, w)
        | (_, layer, w) => (0 + 1, layer, w)
      else ((0 : Int), { layerFlags := 0, space := cfg.stageSpace, viewCount := none,
                         views := none },
            (w.call (.xrWaitFrame frame.waitFrame)).call
              (.xrBeginFrame frame.beginFrame))).2.2.log = w.log ++ seg ∧
      ∀ c ∈ seg, c.isFrameCall = true := by
    by_cases hs : frame.shouldRender = XR_TRUE
    · rw [if_pos hs]
      obtain ⟨seg, hseg, hP⟩ := RenderLayer_appends genName cfg frame
        frame.predictedDisplayTime
        { layerFlags := 0, space := cfg.stageSpace, viewCount := none, views := none }
        ((w.call (.xrWaitFrame frame.waitFrame)).call (.xrBeginFrame frame.beginFrame))
      revert hseg
      generalize RenderLayer genName cfg frame frame.predictedDisplayTime
        { layerFlags := 0, space := cfg.stageSpace, viewCount := none, views := none }
        ((w.call (.xrWaitFrame frame.waitFrame)).call (.xrBeginFrame frame.beginFrame)) = r
      obtain ⟨r1, r2, r3⟩ := r
      intro hseg
      simp only at hseg
      refine ⟨[.xrWaitFrame frame.waitFrame, .xrBeginFrame frame.beginFrame] ++ seg, ?_,
        fun c hc => ?_⟩
      · split
        · rename_i heq
          simp only [Prod.mk.injEq] at heq
          obtain ⟨-, -, rfl⟩ := heq
          simp [hseg, World.call]
        · rename_i heq
          simp only [Prod.mk.injEq] at heq
          obtain ⟨-, -, rfl⟩ := heq
          simp [hseg, World.call]
      · rcases List.mem_append.mp hc with h | h
        · exact two c h
        · exact hP c h
    · rw [if_neg hs]
      exact ⟨[.xrWaitFrame frame.waitFrame, .xrBeginFrame frame.beginFrame], by
        simp [World.call], two⟩
  revert key
  generalize (if frame.shouldRender = XR_TRUE then
        match RenderLayer genName cfg frame frame.predictedDisplayTime
          { layerFlags := 0, space := cfg.stageSpace, viewCount := none, views := none }
          ((w.call (.xrWaitFrame frame.waitFrame)).call (.xrBeginFrame frame.beginFrame)) with
        | (0, layer, w) => ((0 : Int), layer, w)
        | (_, layer, w) => (0 + 1, layer, w)
      else ((0 : Int), { layerFlags := 0, space := cfg.stageSpace, viewCount := none,
                         views := none },
            (w.call (.xrWaitFrame frame.waitFrame)).call
              (.xrBeginFrame frame.beginFrame))) = X
  obtain ⟨x1, x2, x3⟩ := X
  rintro ⟨seg, hseg, hP⟩
  simp only at hseg ⊢
  have hfin : ∀ c ∈ seg ++ [Call.xrEndFrame
      { displayTime := frame.predictedDisplayTime,
        environmentBlendMode := XR_ENVIRONMENT_BLEND_MODE_OPAQUE,
        layerCount := x1, layer := x2 } frame.endFrame], c.isFrameCall = true := by
    intro c hc
    rcases List.mem_append.mp hc with h | h
    · exact hP c h
    · rw [List.mem_singleton] at h
      subst h; rfl
  split_ifs <;>
    exact ⟨seg ++ [.xrEndFrame
      { displayTime := frame.predictedDisplayTime,
        environmentBlendMode := XR_ENVIRONMENT_BLEND_MODE_OPAQUE,
        layerCount := x1, layer := x2 } frame.endFrame], by simp [World.call, hseg], hfin⟩

/-- The calls a pass through the loop body appends that are neither the poll nor the
session begin: frame calls and the idle sleep. -/
theorem frameStep_appends (genName : Nat → Nat) (cfg : Session) (inp : LoopInput)
    (s : LoopState) :
    ∃ seg, (frameStep genName cfg inp s).world.log = s.world.log ++ seg ∧
      ∀ c ∈ seg, c.isFrameCall = true ∨ c = .OGUSleep 100000 := by
  unfold frameStep
  by_cases hr : s.sessionReady ≠ 0
  · rw [if_pos hr]
    unfold SyncInput
    by_cases hsync : CheckResult inp.syncActions = 0
    · simp only [if_pos hsync]
      refine ⟨[.xrSyncActions inp.syncActions], rfl, fun c hc => ?_⟩
      rw [List.mem_singleton] at hc
      subst hc; exact Or.inl rfl
    · simp only [if_neg hsync]
      obtain ⟨seg, hseg, hP⟩ := RenderFrame_appends genName cfg inp.frame
        (s.world.call (.xrSyncActions inp.syncActions))
      have hall : ∀ c ∈ Call.xrSyncActions inp.syncActions :: seg,
          c.isFrameCall = true ∨ c = .OGUSleep 100000 := by
        intro c hc
        rcases List.mem_cons.mp hc with h | h
        · subst h; exact Or.inl rfl
        · exact Or.inl (hP c h)
      refine ⟨.xrSyncActions inp.syncActions :: seg, ?_, hall⟩
      revert hseg
      generalize RenderFrame genName cfg inp.frame
        (s.world.call (.xrSyncActions inp.syncActions)) = r
      obtain ⟨r1, r2⟩ := r
      intro hseg
      simp only at hseg
      split
      · rename_i heq
        simp only [Prod.mk.injEq] at heq
        obtain ⟨-, rfl⟩ := heq
        simp [Step.world, hseg, World.call]
      · rename_i heq
        simp only [Prod.mk.injEq] at heq
        obtain ⟨-, rfl⟩ := heq
        simp [Step.world, hseg, World.call]
  · rw [if_neg hr]
    refine ⟨[.OGUSleep 100000], rfl, fun c hc => ?_⟩
    rw [List.mem_singleton] at hc
    exact Or.inr hc

/-- The calls one pass through the loop body appends: the poll, then `xrBeginSession` if the
poll delivered a Ready event, then frame calls or the idle sleep. -/
theorem loopBody_log (genName : Nat → Nat) (cfg : Session) (inp : LoopInput) (s : LoopState) :
    ∃ seg, (loopBody genName cfg inp s).world.log = s.world.log ++
        (.xrPollEvent inp.pollResult ::
          ((if inp.reportsReady then [Call.xrBeginSession inp.beginSession] else []) ++ seg)) ∧
      ∀ c ∈ seg, c.isFrameCall = true ∨ c = .OGUSleep 100000 := by
  unfold loopBody
  simp only
  rcases handleEvent_cases inp
      { s with world := s.world.call (.xrPollEvent inp.pollResult) } with
    ⟨h1, -, h3⟩ | ⟨h1, -, h3⟩ | ⟨h1, s1, h3, -, h5⟩
  · rw [h3, if_pos h1]
    exact ⟨[], by simp [Step.world, World.call], by simp⟩
  · rw [h3, if_pos h1]
    simp only
    obtain ⟨seg, hseg, hP⟩ := frameStep_appends genName cfg inp
      { sessionReady := 1, xrState := inp.eventState,
        world := (s.world.call (.xrPollEvent inp.pollResult)).call
          (.xrBeginSession inp.beginSession) }
    refine ⟨seg, ?_, hP⟩
    rw [hseg]; simp [World.call]
  · rw [h3, if_neg h1]
    simp only
    obtain ⟨seg, hseg, hP⟩ := frameStep_appends genName cfg inp s1
    refine ⟨seg, ?_, hP⟩
    rw [hseg, h5]; simp [World.call]

/-- The destroy loop appends one `xrDestroySwapchain` per index, in increasing index order. -/
theorem destroySwapchains_log_eq (cfg : Session) (td : TeardownInput) :
    ∀ (n i : Nat) (w : World), (destroySwapchains cfg td n i w).log = w.log ++
      (List.range' i n).map
        (fun j => Call.xrDestroySwapchain (cfg.swapchains j).handle (td.destroySwapchain j)) := by
  intro n
  induction n with
  | zero => intro i w; simp [destroySwapchains]
  | succ n ih =>
    intro i w
    simp only [destroySwapchains]
    rw [ih]
    simp [World.call, List.range'_succ]

/-- The code after the loop appends exactly `teardownCalls`. -/
theorem teardown_log_eq (cfg : Session) (td : TeardownInput) (w : World) :
    (teardown cfg td w).log = w.log ++ teardownCalls cfg td := by
  simp only [teardown, World.call, destroySwapchains_log_eq, teardownCalls,
    List.range_eq_range']
  simp

/-- The block of calls of one pass through the loop body holds one poll, one
`xrBeginSession` per Ready event, and loop calls only. -/
theorem loopBody_block (inp : LoopInput) (seg : List Call)
    (hseg : ∀ c ∈ seg, c.isFrameCall = true ∨ c = .OGUSleep 100000) :
    (Call.xrPollEvent inp.pollResult ::
      ((if inp.reportsReady then [Call.xrBeginSession inp.beginSession] else []) ++
        seg)).countP Call.isPollEvent = 1 ∧
    (Call.xrPollEvent inp.pollResult ::
      ((if inp.reportsReady then [Call.xrBeginSession inp.beginSession] else []) ++
        seg)).countP Call.isBeginSession = (if inp.reportsReady then 1 else 0) ∧
    (Call.xrPollEvent inp.pollResult ::
      ((if inp.reportsReady then [Call.xrBeginSession inp.beginSession] else []) ++
        seg)).countP Call.isEndSession = 0 ∧
    ∀ c ∈ (Call.xrPollEvent inp.pollResult ::
      ((if inp.reportsReady then [Call.xrBeginSession inp.beginSession] else []) ++ seg)),
      c.isLoopCall = true := by
  have hnot : ∀ c ∈ seg, c.isPollEvent = false ∧ c.isBeginSession = false ∧
      c.isEndSession = false ∧ c.isLoopCall = true := by
    intro c hc
    rcases hseg c hc with h | h
    · cases c <;> first | exact ⟨rfl, rfl, rfl, rfl⟩ | simp [Call.isFrameCall, Call.isGL] at h
    · subst h; exact ⟨rfl, rfl, rfl, rfl⟩
  have c1 : seg.countP Call.isPollEvent = 0 :=
    List.countP_eq_zero.mpr (fun c hc => by simp [(hnot c hc).1])
  have c2 : seg.countP Call.isBeginSession = 0 :=
    List.countP_eq_zero.mpr (fun c hc => by simp [(hnot c hc).2.1])
  have c3 : seg.countP Call.isEndSession = 0 :=
    List.countP_eq_zero.mpr (fun c hc => by simp [(hnot c hc).2.2.1])
  by_cases hr : inp.reportsReady
  · simp only [if_pos hr]
    refine ⟨by simp [List.countP_cons, Call.isPollEvent, c1],
      by simp [List.countP_cons, Call.isBeginSession, c2],
      by simp [List.countP_cons, Call.isEndSession, c3], ?_⟩
    intro c hc
    simp only [List.mem_cons, List.singleton_append] at hc
    rcases hc with hc | hc | hc
    · subst hc; rfl
    · subst hc; rfl
    · exact (hnot c hc).2.2.2
  · simp only [if_neg hr]
    refine ⟨by simp [List.countP_cons, Call.isPollEvent, c1],
      by simp [List.countP_cons, Call.isBeginSession, c2],
      by simp [List.countP_cons, Call.isEndSession, c3], ?_⟩
    intro c hc
    simp only [List.mem_cons, List.nil_append] at hc
    rcases hc with hc | hc
    · subst hc; rfl
    · exact (hnot c hc).2.2.2

/-- The shape of the log of main's loop. With `k` the number of loop bodies executed, the
loop appends a list `mid` of loop calls holding `k` polls, one `xrBeginSession` per Ready
event among the first `k` inputs and no `xrEndSession`; and it ends with exit code 0 exactly
when input `k` is the one whose `CNFGHandleInput` returned 0, in which case `teardownCalls`
follow `mid`. -/
theorem mainLoop_log (genName : Nat → Nat) (cfg : Session) :
    ∀ (inputs : List LoopInput) (s : LoopState), ∃ (k : Nat) (mid : List Call),
      k ≤ inputs.length ∧
      (∀ inp ∈ inputs.take k, inp.handleInput ≠ 0) ∧
      (∀ c ∈ mid, c.isLoopCall = true) ∧
      mid.countP Call.isPollEvent = k ∧
      mid.countP Call.isBeginSession = (inputs.take k).countP (fun i => decide i.reportsReady) ∧
      mid.countP Call.isEndSession = 0 ∧
      (((mainLoop genName cfg inputs s).exitCode = some 0 ∧
          ∃ inp, inputs[k]? = some inp ∧ inp.handleInput = 0 ∧
            (mainLoop genName cfg inputs s).world.log
              = s.world.log ++ mid ++ teardownCalls cfg inp.teardown) ∨
       ((mainLoop genName cfg inputs s).exitCode ≠ some 0 ∧
          (mainLoop genName cfg inputs s).world.log = s.world.log ++ mid)) := by
  intro inputs
  induction inputs with
  | nil =>
    intro s
    exact ⟨0, [], le_refl _, by simp, by simp, rfl, rfl, rfl,
      Or.inr ⟨by simp [mainLoop], by simp [mainLoop]⟩⟩
  | cons inp rest ih =>
    intro s
    simp only [mainLoop]
    by_cases hh : inp.handleInput = 0
    · rw [if_pos hh]
      exact ⟨0, [], Nat.zero_le _, by simp, by simp, rfl, rfl, rfl,
        Or.inl ⟨rfl, inp, by simp, hh, by simp [teardown_log_eq]⟩⟩
    rw [if_neg hh]
    obtain ⟨seg, hlog, hseg⟩ := loopBody_log genName cfg inp s
    obtain ⟨b1, b2, b3, b4⟩ := loopBody_block inp seg hseg
    generalize (Call.xrPollEvent inp.pollResult ::
      ((if inp.reportsReady then [Call.xrBeginSession inp.beginSession] else []) ++ seg))
      = blk at hlog b1 b2 b3 b4
    obtain ⟨-, hc⟩ := loopBody_cases genName cfg inp s
    have hone : ∀ i ∈ (inp :: rest).take 1, i.handleInput ≠ 0 := by
      intro i hi
      simp only [List.take_succ_cons, List.take_zero, List.mem_singleton] at hi
      subst hi; exact hh
    have hcnt : ((inp :: rest).take 1).countP (fun i => decide i.reportsReady)
        = (if inp.reportsReady then 1 else 0) := by
      by_cases hr : inp.reportsReady <;> simp [hr]
    rcases hc with ⟨w, h1, -⟩ | ⟨w, h1⟩ | ⟨s', h1⟩
    · rw [h1] at hlog ⊢
      simp only [Step.world] at hlog
      exact ⟨1, blk, by simp, hone, b4, b1, by rw [b2, hcnt], b3,
        Or.inr ⟨by simp, hlog⟩⟩
    · rw [h1] at hlog ⊢
      simp only [Step.world] at hlog
      exact ⟨1, blk, by simp, hone, b4, b1, by rw [b2, hcnt], b3,
        Or.inr ⟨by simp, hlog⟩⟩
    · rw [h1] at hlog ⊢
      simp only [Step.world] at hlog ⊢
      obtain ⟨k, mid, hk, hhi, hmid, hp, hb, he, hfin⟩ := ih s'
      refine ⟨k + 1, blk ++ mid, by simpa using hk, ?_, ?_, ?_, ?_, ?_, ?_⟩
      · intro i hi
        simp only [List.take_succ_cons, List.mem_cons] at hi
        rcases hi with hi | hi
        · subst hi; exact hh
        · exact hhi i hi
      · intro c hc
        rcases List.mem_append.mp hc with h | h
        · exact b4 c h
        · exact hmid c h
      · rw [List.countP_append, b1, hp, Nat.add_comm]
      · rw [List.countP_append, b2, hb, List.take_succ_cons, List.countP_cons]
        by_cases hr : inp.reportsReady <;> simp [hr, Nat.add_comm]
      · rw [List.countP_append, b3, he]
      · rcases hfin with ⟨e0, i, hi, hi0, hl⟩ | ⟨e0, hl⟩
        · exact Or.inl ⟨e0, i, by simpa using hi, hi0, by
            rw [hl, hlog]; simp only [List.append_assoc]⟩
        · exact Or.inr ⟨e0, by rw [hl, hlog]; simp only [List.append_assoc]⟩

/-- The destroy calls hold no poll, no `xrBeginSession` and exactly one `xrEndSession`. -/
theorem teardownCalls_counts (cfg : Session) (td : TeardownInput) :
    (teardownCalls cfg td).countP Call.isPollEvent = 0 ∧
    (teardownCalls cfg td).countP Call.isBeginSession = 0 ∧
    (teardownCalls cfg td).countP Call.isEndSession = 1 := by
  have h : ∀ (p : Call → Bool), (∀ sc r, p (.xrDestroySwapchain sc r) = false) →
      ((List.range cfg.numViewConfigs.toNat).map
        (fun i => Call.xrDestroySwapchain (cfg.swapchains i).handle
          (td.destroySwapchain i))).countP p = 0 := by
    intro p hp
    rw [List.countP_eq_zero]
    intro c hc
    obtain ⟨i, -, rfl⟩ := List.mem_map.mp hc
    simp [hp]
  simp only [teardownCalls, List.countP_append]
  rw [h _ (fun _ _ => rfl), h _ (fun _ _ => rfl), h _ (fun _ _ => rfl)]
  exact ⟨rfl, rfl, rfl⟩

/-- A log of start-up calls holds no poll, no `xrBeginSession` and no `xrEndSession`. -/
theorem startup_log_counts (l : List Call) (h : ∀ c ∈ l, c.isStartup = true) :
    l.countP Call.isPollEvent = 0 ∧ l.countP Call.isBeginSession = 0 ∧
    l.countP Call.isEndSession = 0 := by
  have hnot : ∀ c ∈ l, c.isPollEvent = false ∧ c.isBeginSession = false ∧
      c.isEndSession = false := by
    intro c hc
    have := h c hc
    cases c <;> first | exact ⟨rfl, rfl, rfl⟩ | simp [Call.isStartup] at this
  exact ⟨List.countP_eq_zero.mpr (fun c hc => by simp [(hnot c hc).1]),
    List.countP_eq_zero.mpr (fun c hc => by simp [(hnot c hc).2.1]),
    List.countP_eq_zero.mpr (fun c hc => by simp [(hnot c hc).2.2])⟩

/-- The counts of polls, `xrBeginSession` calls and `xrEndSession` calls in the log of a run of
`main`: with `k` polls, there is one `xrBeginSession` per Ready event among the first `k`
loop inputs, and one `xrEndSession` if the exit code is 0 and none otherwise. -/
theorem main_log_counts (genName : Nat → Nat) (start : StartupInput)
    (inputs : List LoopInput) :
    (main genName start inputs).world.log.countP Call.isBeginSession =
      (inputs.take ((main genName start inputs).world.log.countP Call.isPollEvent)).countP
        (fun i => decide i.reportsReady) ∧
    (main genName start inputs).world.log.countP Call.isEndSession =
      (if (main genName start inputs).exitCode = some 0 then 1 else 0) := by
  obtain ⟨w, hw, hm⟩ := main_cases genName start inputs
  obtain ⟨s1, s2, s3⟩ := startup_log_counts w.log hw
  rcases hm with ⟨hm, -⟩ | ⟨hm, -⟩ | ⟨hm, -⟩
  · rw [hm]; simp [s1, s2, s3]
  · rw [hm]; simp [s1, s2, s3]
  · rw [hm]
    obtain ⟨k, mid, -, -, -, hp, hb, he, hfin⟩ := mainLoop_log genName start.session inputs
      { sessionReady := 0, xrState := XR_SESSION_STATE_UNKNOWN, world := w }
    rcases hfin with ⟨e0, inp, -, -, hl⟩ | ⟨e0, hl⟩
    · obtain ⟨t1, t2, t3⟩ := teardownCalls_counts start.session inp.teardown
      rw [hl, e0]
      simp only [List.countP_append, s1, s2, s3, hp, hb, he, t1, t2, t3, if_true,
        Nat.zero_add, Nat.add_zero]
      exact ⟨trivial, trivial⟩
    · rw [hl, if_neg e0]
      simp only [List.countP_append, s1, s2, s3, hp, hb, he, Nat.zero_add, Nat.add_zero]
      exact ⟨trivial, trivial⟩

/-! ### Session begin and end -/

/-- C11, counterexample to the claim as stated: in a run whose loop receives two Ready events
(both `xrBeginSession` calls succeeding), `xrBeginSession` is called twice. -/
theorem main_two_ready_events_begin_twice :
    (main (fun k => 100 + k) exampleStartup
      [exampleLoopInput 1 0 XR_TYPE_EVENT_DATA_SESSION_STATE_CHANGED XR_SESSION_STATE_READY 0
         { exampleFrame with shouldRender := XR_FALSE },
       exampleLoopInput 1 0 XR_TYPE_EVENT_DATA_SESSION_STATE_CHANGED XR_SESSION_STATE_READY 0
         { exampleFrame with shouldRender := XR_FALSE }]).world.log.countP
      Call.isBeginSession = 2 := by
  decide

/-- C11 as amended: `xrBeginSession` is never called before a Ready event has been received
(a run on any initial stretch of the loop inputs that holds no Ready event has no
`xrBeginSession` call), and over the whole run it is called once for every Ready event
received: the number of `xrBeginSession` calls equals the number of Ready events among the
loop inputs that were polled. -/
theorem beginSession_once_per_ready_event (genName : Nat → Nat) (start : StartupInput)
    (inputs : List LoopInput) :
    (∀ j, (∀ inp ∈ inputs.take j, ¬ inp.reportsReady) →
      (main genName start (inputs.take j)).world.log.countP Call.isBeginSession = 0) ∧
    (main genName start inputs).world.log.countP Call.isBeginSession =
      (inputs.take ((main genName start inputs).world.log.countP Call.isPollEvent)).countP
        (fun i => decide i.reportsReady) := by
  refine ⟨fun j hj => ?_, (main_log_counts genName start inputs).1⟩
  rw [(main_log_counts genName start (inputs.take j)).1, List.countP_eq_zero]
  intro inp hinp
  have := hj inp (List.mem_of_mem_take hinp)
  simpa using this

/-- Witness for C11 as amended: a run that polls "no event", an Idle event, a Ready event
and a Focused event; its first two inputs hold no Ready event, and the whole run calls
`xrBeginSession` once. -/
theorem beginSession_once_per_ready_event_witness :
    (main (fun k => 100 + k) exampleStartup
      ([exampleLoopInput 1 4 16 0 0 exampleFrame, exampleLoopInput 1 0 18 1 0 exampleFrame,
        exampleLoopInput 1 0 18 2 0 exampleFrame,
        exampleLoopInput 1 0 18 5 0 exampleFrame].take 2)).world.log.countP
      Call.isBeginSession = 0 ∧
    (main (fun k => 100 + k) exampleStartup
      [exampleLoopInput 1 4 16 0 0 exampleFrame, exampleLoopInput 1 0 18 1 0 exampleFrame,
        exampleLoopInput 1 0 18 2 0 exampleFrame,
        exampleLoopInput 1 0 18 5 0 exampleFrame]).world.log.countP Call.isBeginSession =
      ([exampleLoopInput 1 4 16 0 0 exampleFrame, exampleLoopInput 1 0 18 1 0 exampleFrame,
        exampleLoopInput 1 0 18 2 0 exampleFrame, exampleLoopInput 1 0 18 5 0 exampleFrame].take
        ((main (fun k => 100 + k) exampleStartup
          [exampleLoopInput 1 4 16 0 0 exampleFrame, exampleLoopInput 1 0 18 1 0 exampleFrame,
           exampleLoopInput 1 0 18 2 0 exampleFrame,
           exampleLoopInput 1 0 18 5 0 exampleFrame]).world.log.countP
          Call.isPollEvent)).countP (fun i => decide i.reportsReady) :=
  ⟨(beginSession_once_per_ready_event (fun k => 100 + k) exampleStartup
      [exampleLoopInput 1 4 16 0 0 exampleFrame, exampleLoopInput 1 0 18 1 0 exampleFrame,
        exampleLoopInput 1 0 18 2 0 exampleFrame,
        exampleLoopInput 1 0 18 5 0 exampleFrame]).1 2 (by decide),
   (beginSession_once_per_ready_event (fun k => 100 + k) exampleStartup
      [exampleLoopInput 1 4 16 0 0 exampleFrame, exampleLoopInput 1 0 18 1 0 exampleFrame,
        exampleLoopInput 1 0 18 2 0 exampleFrame,
        exampleLoopInput 1 0 18 5 0 exampleFrame]).2⟩

/-- Event handling does nothing at all unless `xrPollEvent` succeeded with a
session-state-changed event. -/
theorem handleEvent_of_other_event (inp : LoopInput) (s : LoopState)
    (h : ¬ (inp.pollResult = XR_SUCCESS ∧
      inp.eventType = XR_TYPE_EVENT_DATA_SESSION_STATE_CHANGED)) :
    handleEvent inp s = .iterate s := by
  unfold handleEvent
  by_cases h1 : inp.pollResult = XR_SUCCESS
  · have h2 : inp.eventType ≠ XR_TYPE_EVENT_DATA_SESSION_STATE_CHANGED := fun h2 => h ⟨h1, h2⟩
    simp only [if_pos h1, if_neg h2, ite_self]
  · rw [if_neg h1]

/-- C13: one pass through the loop body issues exactly one `xrPollEvent`; if it runs to its
end, the session state variable is the state the event reports when the poll succeeded with
a session-state-changed event, and the previous value in every other case; and in every other
case (poll not successful, or an event of any other type, listed in the `switch` or not) the
event handling leaves the whole loop state, the ready flag included, as it was and does not
return from `main`, so that the pass continues with the frame part on the unchanged state. -/
theorem loopBody_event_effect (genName : Nat → Nat) (cfg : Session) (inp : LoopInput)
    (s : LoopState) :
    (∃ seg, (loopBody genName cfg inp s).world.log = s.world.log ++ seg ∧
      seg.countP Call.isPollEvent = 1) ∧
    (∀ s', loopBody genName cfg inp s = .iterate s' →
      s'.xrState = if inp.pollResult = XR_SUCCESS ∧
          inp.eventType = XR_TYPE_EVENT_DATA_SESSION_STATE_CHANGED
        then inp.eventState else s.xrState) ∧
    (¬ (inp.pollResult = XR_SUCCESS ∧
        inp.eventType = XR_TYPE_EVENT_DATA_SESSION_STATE_CHANGED) →
      handleEvent inp s = .iterate s ∧
      loopBody genName cfg inp s = frameStep genName cfg inp
        { s with world := s.world.call (.xrPollEvent inp.pollResult) } ∧
      ∀ s', loopBody genName cfg inp s = .iterate s' →
        s'.sessionReady = s.sessionReady ∧ s'.xrState = s.xrState) := by
  refine ⟨?_, fun s' h => loopBody_xrState genName cfg inp s s' h, fun h => ?_⟩
  · obtain ⟨seg, hlog, hseg⟩ := loopBody_log genName cfg inp s
    exact ⟨_, hlog, (loopBody_block inp seg hseg).1⟩
  · have hb : loopBody genName cfg inp s = frameStep genName cfg inp
        { s with world := s.world.call (.xrPollEvent inp.pollResult) } := by
      simp only [loopBody, handleEvent_of_other_event inp _ h]
    refine ⟨handleEvent_of_other_event inp s h, hb, fun s' hs' => ?_⟩
    rw [hb] at hs'
    obtain ⟨h1, h2⟩ := frameStep_locals genName cfg inp _ s' hs'
    exact ⟨h2, h1⟩

/-- Witness for C13: an interaction-profile-changed event (type 52) polled while the session
is Focused and the ready flag is set. -/
theorem loopBody_event_effect_witness :
    handleEvent (exampleLoopInput 1 0 XR_TYPE_EVENT_DATA_INTERACTION_PROFILE_CHANGED 0 0
        exampleFrame)
      { sessionReady := 1, xrState := XR_SESSION_STATE_FOCUSED, world := World.initial }
      = .iterate
        { sessionReady := 1, xrState := XR_SESSION_STATE_FOCUSED, world := World.initial } ∧
    loopBody (fun k => 100 + k) exampleSession
      (exampleLoopInput 1 0 XR_TYPE_EVENT_DATA_INTERACTION_PROFILE_CHANGED 0 0 exampleFrame)
      { sessionReady := 1, xrState := XR_SESSION_STATE_FOCUSED, world := World.initial }
      = frameStep (fun k => 100 + k) exampleSession
        (exampleLoopInput 1 0 XR_TYPE_EVENT_DATA_INTERACTION_PROFILE_CHANGED 0 0 exampleFrame)
        { sessionReady := 1, xrState := XR_SESSION_STATE_FOCUSED,
          world := World.initial.call (.xrPollEvent 0) } :=
  ⟨((loopBody_event_effect (fun k => 100 + k) exampleSession
      (exampleLoopInput 1 0 XR_TYPE_EVENT_DATA_INTERACTION_PROFILE_CHANGED 0 0 exampleFrame)
      { sessionReady := 1, xrState := XR_SESSION_STATE_FOCUSED, world := World.initial }).2.2
      (by decide)).1,
   ((loopBody_event_effect (fun k => 100 + k) exampleSession
      (exampleLoopInput 1 0 XR_TYPE_EVENT_DATA_INTERACTION_PROFILE_CHANGED 0 0 exampleFrame)
      { sessionReady := 1, xrState := XR_SESSION_STATE_FOCUSED, world := World.initial }).2.2
      (by decide)).2.1⟩

/-! ### The projection matrix -/

/-- C14: for the OpenGL convention and all tangents with `tanRight ≠ tanLeft` and
`tanUp ≠ tanDown`, `InitProjectionMat` sets entry 0 to `2 / (tanRight - tanLeft)` and entry 5
to `2 / (tanUp - tanDown)`, for every `nearZ` and `farZ` (in both branches); these are
genuine quotients: entry 0 times the width and entry 5 times the height give 2. -/
theorem InitProjectionMat_scale_terms {α : Type} [LinearOrderedField α]
    (tanLeft tanRight tanUp tanDown nearZ farZ : α) (hw : tanRight ≠ tanLeft)
    (hh : tanUp ≠ tanDown) :
    InitProjectionMat .GRAPHICS_OPENGL tanLeft tanRight tanUp tanDown nearZ farZ 0
      = 2 / (tanRight - tanLeft) ∧
    InitProjectionMat .GRAPHICS_OPENGL tanLeft tanRight tanUp tanDown nearZ farZ 5
      = 2 / (tanUp - tanDown) ∧
    InitProjectionMat .GRAPHICS_OPENGL tanLeft tanRight tanUp tanDown nearZ farZ 0
      * (tanRight - tanLeft) = 2 ∧
    InitProjectionMat .GRAPHICS_OPENGL tanLeft tanRight tanUp tanDown nearZ farZ 5
      * (tanUp - tanDown) = 2 := by
  have e0 : InitProjectionMat .GRAPHICS_OPENGL tanLeft tanRight tanUp tanDown nearZ farZ 0
      = 2 / (tanRight - tanLeft) := by
    unfold InitProjectionMat
    by_cases h : farZ ≤ nearZ
    · simp only [if_pos h]; rfl
    · simp only [if_neg h]; rfl
  have e5 : InitProjectionMat .GRAPHICS_OPENGL tanLeft tanRight tanUp tanDown nearZ farZ 5
      = 2 / (tanUp - tanDown) := by
    unfold InitProjectionMat
    by_cases h : farZ ≤ nearZ
    · simp only [if_pos h]; rfl
    · simp only [if_neg h]; rfl
  refine ⟨e0, e5, ?_, ?_⟩
  · rw [e0, div_mul_cancel₀ _ (sub_ne_zero.mpr hw)]
  · rw [e5, div_mul_cancel₀ _ (sub_ne_zero.mpr hh)]

/-- Witness for C14: the fixed angles -0.6, 0.6, 0.55, -0.55 with near 0.05 and far 100, over
the reals. -/
theorem InitProjectionMat_scale_terms_witness :
    InitProjectionMat .GRAPHICS_OPENGL (Real.tan (-0.6)) (Real.tan 0.6) (Real.tan 0.55)
        (Real.tan (-0.55)) (0.05 : ℝ) 100 0
      = 2 / (Real.tan 0.6 - Real.tan (-0.6)) ∧
    InitProjectionMat .GRAPHICS_OPENGL (Real.tan (-0.6)) (Real.tan 0.6) (Real.tan 0.55)
        (Real.tan (-0.55)) (0.05 : ℝ) 100 5
      = 2 / (Real.tan 0.55 - Real.tan (-0.55)) ∧
    InitProjectionMat .GRAPHICS_OPENGL (Real.tan (-0.6)) (Real.tan 0.6) (Real.tan 0.55)
        (Real.tan (-0.55)) (0.05 : ℝ) 100 0 * (Real.tan 0.6 - Real.tan (-0.6)) = 2 ∧
    InitProjectionMat .GRAPHICS_OPENGL (Real.tan (-0.6)) (Real.tan 0.6) (Real.tan 0.55)
        (Real.tan (-0.55)) (0.05 : ℝ) 100 5 * (Real.tan 0.55 - Real.tan (-0.55)) = 2 :=
  InitProjectionMat_scale_terms (Real.tan (-0.6)) (Real.tan 0.6) (Real.tan 0.55)
    (Real.tan (-0.55)) 0.05 100
    (by
      have hpi := Real.pi_gt_three
      have hpos : 0 < Real.tan 0.6 :=
        Real.tan_pos_of_pos_of_lt_pi_div_two (by norm_num) (by linarith)
      rw [Real.tan_neg]
      linarith)
    (by
      have hpi := Real.pi_gt_three
      have hpos : 0 < Real.tan 0.55 :=
        Real.tan_pos_of_pos_of_lt_pi_div_two (by norm_num) (by linarith)
      rw [Real.tan_neg]
      linarith)

/-- C15: for the OpenGL convention, when `farZ ≤ nearZ` (the boundary `farZ = nearZ`
included) the depth terms of `InitProjectionMat` are the constants entry 10 = -1 and
entry 14 = `-(2 * nearZ)`, in which `farZ - nearZ` does not occur; when `farZ > nearZ`,
entry 10 = `-(farZ + nearZ) / (farZ - nearZ)` and
entry 14 = `-(2 * farZ * nearZ) / (farZ - nearZ)`. -/
theorem InitProjectionMat_depth_terms {α : Type} [LinearOrderedField α]
    (tanLeft tanRight tanUp tanDown nearZ farZ : α) :
    (farZ ≤ nearZ →
      InitProjectionMat .GRAPHICS_OPENGL tanLeft tanRight tanUp tanDown nearZ farZ 10 = -1 ∧
      InitProjectionMat .GRAPHICS_OPENGL tanLeft tanRight tanUp tanDown nearZ farZ 14
        = -(2 * nearZ)) ∧
    (nearZ < farZ →
      InitProjectionMat .GRAPHICS_OPENGL tanLeft tanRight tanUp tanDown nearZ farZ 10
        = -(farZ + nearZ) / (farZ - nearZ) ∧
      InitProjectionMat .GRAPHICS_OPENGL tanLeft tanRight tanUp tanDown nearZ farZ 14
        = -(2 * farZ * nearZ) / (farZ - nearZ) ∧
      InitProjectionMat .GRAPHICS_OPENGL tanLeft tanRight tanUp tanDown nearZ farZ 10
        * (farZ - nearZ) = -(farZ + nearZ) ∧
      InitProjectionMat .GRAPHICS_OPENGL tanLeft tanRight tanUp tanDown nearZ farZ 14
        * (farZ - nearZ) = -(2 * farZ * nearZ)) ∧
    (InitProjectionMat .GRAPHICS_OPENGL tanLeft tanRight tanUp tanDown nearZ nearZ 10 = -1 ∧
      InitProjectionMat .GRAPHICS_OPENGL tanLeft tanRight tanUp tanDown nearZ nearZ 14
        = -(2 * nearZ)) := by
  have inf : ∀ f : α, f ≤ nearZ →
      InitProjectionMat .GRAPHICS_OPENGL tanLeft tanRight tanUp tanDown nearZ f 10 = -1 ∧
      InitProjectionMat .GRAPHICS_OPENGL tanLeft tanRight tanUp tanDown nearZ f 14
        = -(2 * nearZ) := by
    intro f h
    unfold InitProjectionMat
    simp only [if_pos h]
    refine ⟨rfl, ?_⟩
    show -(nearZ + nearZ) = -(2 * nearZ)
    ring
  refine ⟨inf farZ, fun h => ?_, inf nearZ (le_refl _)⟩
  have hne : farZ - nearZ ≠ 0 := sub_ne_zero.mpr (ne_of_gt h)
  have e10 : InitProjectionMat .GRAPHICS_OPENGL tanLeft tanRight tanUp tanDown nearZ farZ 10
      = -(farZ + nearZ) / (farZ - nearZ) := by
    unfold InitProjectionMat
    simp only [if_neg (not_le.mpr h)]
    rfl
  have e14 : InitProjectionMat .GRAPHICS_OPENGL tanLeft tanRight tanUp tanDown nearZ farZ 14
      = -(2 * farZ * nearZ) / (farZ - nearZ) := by
    unfold InitProjectionMat
    simp only [if_neg (not_le.mpr h)]
    show -(farZ * (nearZ + nearZ)) / (farZ - nearZ) = -(2 * farZ * nearZ) / (farZ - nearZ)
    ring
  exact ⟨e10, e14, by rw [e10, div_mul_cancel₀ _ hne], by rw [e14, div_mul_cancel₀ _ hne]⟩

/-- Witness for C15: near 1/20 with far 1/100 (below near) and with far 100 (above near),
over the rationals. -/
theorem InitProjectionMat_depth_terms_witness :
    (InitProjectionMat .GRAPHICS_OPENGL (-1 : ℚ) 1 (1 / 2) (-1 / 2) (1 / 20) (1 / 100) 10 = -1 ∧
      InitProjectionMat .GRAPHICS_OPENGL (-1 : ℚ) 1 (1 / 2) (-1 / 2) (1 / 20) (1 / 100) 14
        = -(2 * (1 / 20))) ∧
    (InitProjectionMat .GRAPHICS_OPENGL (-1 : ℚ) 1 (1 / 2) (-1 / 2) (1 / 20) 100 10
        = -(100 + 1 / 20) / (100 - 1 / 20) ∧
      InitProjectionMat .GRAPHICS_OPENGL (-1 : ℚ) 1 (1 / 2) (-1 / 2) (1 / 20) 100 14
        = -(2 * 100 * (1 / 20)) / (100 - 1 / 20) ∧
      InitProjectionMat .GRAPHICS_OPENGL (-1 : ℚ) 1 (1 / 2) (-1 / 2) (1 / 20) 100 10
        * (100 - 1 / 20) = -(100 + 1 / 20) ∧
      InitProjectionMat .GRAPHICS_OPENGL (-1 : ℚ) 1 (1 / 2) (-1 / 2) (1 / 20) 100 14
        * (100 - 1 / 20) = -(2 * 100 * (1 / 20))) :=
  ⟨(InitProjectionMat_depth_terms (-1 : ℚ) 1 (1 / 2) (-1 / 2) (1 / 20) (1 / 100)).1
      (by norm_num),
   (InitProjectionMat_depth_terms (-1 : ℚ) 1 (1 / 2) (-1 / 2) (1 / 20) 100).2.1
      (by norm_num)⟩

/-! ### Matrices as linear maps -/

/-- Read column-major, `MultiplyMat(result, a, b)` is the matrix product of `a` and `b`, over
any commutative ring. -/
theorem MultiplyMat_toMatrix_mul {α : Type} [CommRing α] (a b : Mat16 α) :
    (MultiplyMat a b).toMatrix = a.toMatrix * b.toMatrix := by
  ext r c
  fin_cases r <;> fin_cases c <;>
    simp [Mat16.toMatrix, MultiplyMat, mk16, Matrix.mul_apply, Fin.sum_univ_four] <;> rfl

/-- C16: reading a 16-element array `m` as the column-major 4x4 matrix with entry (row `r`,
column `c`) = `m[4 * c + r]`, `MultiplyMat(result, a, b)` is the matrix product `A * B` for
all `a` and `b`; hence applying it to a vector applies `b` first and `a` second, and the
matrix `RenderLayer` uploads, `MultiplyMat(projMat, viewMat)`, transforms a vector by the
view matrix (the inverted pose matrix) first and by the projection matrix second. -/
theorem MultiplyMat_is_matrix_product {α : Type} [LinearOrderedField α] (a b : Mat16 α)
    (tanLeft tanRight tanDown tanUp : α) (pose : XrPosef α) (v : Fin 4 → α) :
    (MultiplyMat a b).toMatrix = a.toMatrix * b.toMatrix ∧
    (MultiplyMat a b).toMatrix.mulVec v = a.toMatrix.mulVec (b.toMatrix.mulVec v) ∧
    (modelViewProjMat tanLeft tanRight tanDown tanUp pose).toMatrix.mulVec v =
      (InitProjectionMat .GRAPHICS_OPENGL tanLeft tanRight tanUp tanDown (5 / 100)
          100).toMatrix.mulVec
        ((InvertOrthogonalMat (InitPoseMat pose)).toMatrix.mulVec v) := by
  refine ⟨MultiplyMat_toMatrix_mul a b, ?_, ?_⟩
  · rw [MultiplyMat_toMatrix_mul, Matrix.mulVec_mulVec]
  · simp only [modelViewProjMat]
    rw [MultiplyMat_toMatrix_mul, Matrix.mulVec_mulVec]

/-- The inverse of a unit quaternion is its conjugate. -/
theorem inv_eq_star_of_unit {α : Type} [LinearOrderedField α] (q : XrQuaternionf α)
    (hunit : q.x ^ 2 + q.y ^ 2 + q.z ^ 2 + q.w ^ 2 = 1) :
    q.toQuaternion⁻¹ = star q.toQuaternion := by
  have h1 : Quaternion.normSq q.toQuaternion = 1 := by
    rw [Quaternion.normSq_def']
    show q.w ^ 2 + q.x ^ 2 + q.y ^ 2 + q.z ^ 2 = 1
    linear_combination hunit
  rw [Quaternion.instInv_inv, h1, inv_one, one_smul]

/-- C17: for every unit quaternion `q`, translation `t` and point `p`, applying the
column-major matrix `InitPoseMat(q,t)` to the homogeneous point `(p,1)` gives
`(q p q⁻¹ + t, 1)`, where `q p q⁻¹` is again a pure quaternion; entries 12..14 hold `t` and
the bottom row (entries 3, 7, 11, 15) is `(0,0,0,1)`. `InitPoseMat` does not normalise: for
every quaternion, unit or not, the diagonal entries are the polynomials
`1 - 2(y² + z²)`, `1 - 2(x² + z²)`, `1 - 2(x² + y²)` of its raw components. -/
theorem InitPoseMat_apply {α : Type} [LinearOrderedField α] (pose : XrPosef α)
    (p : XrVector3f α)
    (hunit : pose.orientation.x ^ 2 + pose.orientation.y ^ 2 + pose.orientation.z ^ 2
      + pose.orientation.w ^ 2 = 1) :
    (InitPoseMat pose).toMatrix.mulVec ![p.x, p.y, p.z, 1] =
      ![(pose.orientation.toQuaternion * p.toQuaternion * pose.orientation.toQuaternion⁻¹).imI
          + pose.position.x,
        (pose.orientation.toQuaternion * p.toQuaternion * pose.orientation.toQuaternion⁻¹).imJ
          + pose.position.y,
        (pose.orientation.toQuaternion * p.toQuaternion * pose.orientation.toQuaternion⁻¹).imK
          + pose.position.z,
        1] ∧
    (pose.orientation.toQuaternion * p.toQuaternion * pose.orientation.toQuaternion⁻¹).re = 0 ∧
    (InitPoseMat pose 12 = pose.position.x ∧ InitPoseMat pose 13 = pose.position.y ∧
      InitPoseMat pose 14 = pose.position.z) ∧
    (InitPoseMat pose 3 = 0 ∧ InitPoseMat pose 7 = 0 ∧ InitPoseMat pose 11 = 0 ∧
      InitPoseMat pose 15 = 1) ∧
    (∀ (q : XrQuaternionf α) (t : XrVector3f α),
      InitPoseMat ⟨q, t⟩ 0 = 1 - 2 * (q.y ^ 2 + q.z ^ 2) ∧
      InitPoseMat ⟨q, t⟩ 5 = 1 - 2 * (q.x ^ 2 + q.z ^ 2) ∧
      InitPoseMat ⟨q, t⟩ 10 = 1 - 2 * (q.x ^ 2 + q.y ^ 2)) := by
  rw [inv_eq_star_of_unit pose.orientation hunit]
  obtain ⟨⟨x, y, z, w⟩, ⟨tx, ty, tz⟩⟩ := pose
  obtain ⟨px, py, pz⟩ := p
  replace hunit : x ^ 2 + y ^ 2 + z ^ 2 + w ^ 2 = 1 := hunit
  refine ⟨?_, ?_, ⟨rfl, rfl, rfl⟩, ⟨rfl, rfl, rfl, rfl⟩, fun q t => ⟨?_, ?_, ?_⟩⟩
  · funext i
    fin_cases i
    · simp [Mat16.toMatrix, InitPoseMat, mk16, Matrix.mulVec, Matrix.dotProduct,
        Fin.sum_univ_four, XrQuaternionf.toQuaternion, XrVector3f.toQuaternion,
        Quaternion.mul_imI, Quaternion.mul_re, Quaternion.mul_imJ, Quaternion.mul_imK]
      linear_combination (-px) * hunit
    · simp [Mat16.toMatrix, InitPoseMat, mk16, Matrix.mulVec, Matrix.dotProduct,
        Fin.sum_univ_four, XrQuaternionf.toQuaternion, XrVector3f.toQuaternion,
        Quaternion.mul_imI, Quaternion.mul_re, Quaternion.mul_imJ, Quaternion.mul_imK]
      linear_combination (-py) * hunit
    · simp [Mat16.toMatrix, InitPoseMat, mk16, Matrix.mulVec, Matrix.dotProduct,
        Fin.sum_univ_four, XrQuaternionf.toQuaternion, XrVector3f.toQuaternion,
        Quaternion.mul_imI, Quaternion.mul_re, Quaternion.mul_imJ, Quaternion.mul_imK]
      linear_combination (-pz) * hunit
    · simp [Mat16.toMatrix, InitPoseMat, mk16, Matrix.mulVec, Matrix.dotProduct,
        Fin.sum_univ_four]
  · simp [XrQuaternionf.toQuaternion, XrVector3f.toQuaternion,
        Quaternion.mul_imI, Quaternion.mul_re, Quaternion.mul_imJ, Quaternion.mul_imK]
    ring
  · show 1 - q.y * (q.y + q.y) - q.z * (q.z + q.z) = _
    ring
  · show 1 - q.x * (q.x + q.x) - q.z * (q.z + q.z) = _
    ring
  · show 1 - q.x * (q.x + q.x) - q.y * (q.y + q.y) = _
    ring

/-- Witness for C17 over the rationals: the unit quaternion `(1/2, 1/2, 1/2, 1/2)` (a third
of a turn about the diagonal), translation `(3, -2, 5)` and point `(1, 2, 3)`. -/
theorem InitPoseMat_apply_witness :
    (InitPoseMat (⟨⟨1 / 2, 1 / 2, 1 / 2, 1 / 2⟩, ⟨3, -2, 5⟩⟩ : XrPosef ℚ)).toMatrix.mulVec
        ![1, 2, 3, 1] =
      ![((⟨1 / 2, 1 / 2, 1 / 2, 1 / 2⟩ : XrQuaternionf ℚ).toQuaternion *
            (⟨1, 2, 3⟩ : XrVector3f ℚ).toQuaternion *
            (⟨1 / 2, 1 / 2, 1 / 2, 1 / 2⟩ : XrQuaternionf ℚ).toQuaternion⁻¹).imI + 3,
        ((⟨1 / 2, 1 / 2, 1 / 2, 1 / 2⟩ : XrQuaternionf ℚ).toQuaternion *
            (⟨1, 2, 3⟩ : XrVector3f ℚ).toQuaternion *
            (⟨1 / 2, 1 / 2, 1 / 2, 1 / 2⟩ : XrQuaternionf ℚ).toQuaternion⁻¹).imJ + -2,
        ((⟨1 / 2, 1 / 2, 1 / 2, 1 / 2⟩ : XrQuaternionf ℚ).toQuaternion *
            (⟨1, 2, 3⟩ : XrVector3f ℚ).toQuaternion *
            (⟨1 / 2, 1 / 2, 1 / 2, 1 / 2⟩ : XrQuaternionf ℚ).toQuaternion⁻¹).imK + 5,
        1] ∧
    ((⟨1 / 2, 1 / 2, 1 / 2, 1 / 2⟩ : XrQuaternionf ℚ).toQuaternion *
        (⟨1, 2, 3⟩ : XrVector3f ℚ).toQuaternion *
        (⟨1 / 2, 1 / 2, 1 / 2, 1 / 2⟩ : XrQuaternionf ℚ).toQuaternion⁻¹).re = 0 :=
  ⟨(InitPoseMat_apply (⟨⟨1 / 2, 1 / 2, 1 / 2, 1 / 2⟩, ⟨3, -2, 5⟩⟩ : XrPosef ℚ) ⟨1, 2, 3⟩
      (by norm_num)).1,
   (InitPoseMat_apply (⟨⟨1 / 2, 1 / 2, 1 / 2, 1 / 2⟩, ⟨3, -2, 5⟩⟩ : XrPosef ℚ) ⟨1, 2, 3⟩
      (by norm_num)).2.1⟩

/-! ### Teardown -/

/-- A run of `main` that ends with exit code 0 has passed every start-up step: it is the loop
entered with the ready flag 0, state Unknown and the log `startupCalls`. -/
theorem main_of_exit_zero (genName : Nat → Nat) (start : StartupInput)
    (inputs : List LoopInput) (h0 : (main genName start inputs).exitCode = some 0) :
    main genName start inputs = mainLoop genName start.session inputs
      { sessionReady := 0, xrState := XR_SESSION_STATE_UNKNOWN,
        world := { World.initial with log := startupCalls start } } := by
  unfold main at h0 ⊢
  unfold EnumerateExtensions at h0 ⊢
  by_cases c1 : CheckResult start.enumerateCount = 0
  · simp [c1] at h0
  by_cases c2 : CheckResult start.enumerateFill = 0
  · simp [c1, c2] at h0
  simp only [if_neg c1, if_neg c2] at h0 ⊢
  by_cases c3 : toInt32 start.extensions.length = 0
  · simp [c3] at h0
  simp only [if_neg c3] at h0 ⊢
  by_cases c4 : ExtensionSupported start.extensions (toInt32 start.extensions.length)
      XR_KHR_OPENGL_ENABLE_EXTENSION_NAME = 0
  · simp [c4] at h0
  simp only [if_neg c4] at h0 ⊢
  by_cases c5 : start.createInstance = 0
  · simp [c5] at h0
  simp only [if_neg c5] at h0 ⊢
  by_cases c6 : start.getSystemId = 0
  · simp [c6] at h0
  simp only [if_neg c6] at h0 ⊢
  by_cases c7 : start.enumerateViewConfigs = 0
  · simp [c7] at h0
  simp only [if_neg c7] at h0 ⊢
  by_cases c8 : start.createSession = 0
  · simp [c8] at h0
  simp only [if_neg c8] at h0 ⊢
  by_cases c9 : start.createActions = 0
  · simp [c9] at h0
  simp only [if_neg c9] at h0 ⊢
  by_cases c10 : start.createStageSpace = 0
  · simp [c10] at h0
  simp only [if_neg c10] at h0 ⊢
  by_cases c11 : start.createSwapchains = 0
  · simp [c11] at h0
  simp only [if_neg c11] at h0 ⊢
  rfl

/-- Loop calls create and destroy nothing. -/
theorem filterMap_loopCalls (mid : List Call) (h : ∀ c ∈ mid, c.isLoopCall = true) :
    mid.filterMap Call.creates = [] ∧ mid.filterMap Call.destroys = [] := by
  have hnone : ∀ c ∈ mid, c.creates = none ∧ c.destroys = none := by
    intro c hc
    have := h c hc
    cases c <;> first
      | exact ⟨rfl, rfl⟩
      | simp [Call.isLoopCall, Call.isFrameCall, Call.isGL] at this
  constructor
  · rw [List.filterMap_eq_nil_iff]
    exact fun c hc => (hnone c hc).1
  · rw [List.filterMap_eq_nil_iff]
    exact fun c hc => (hnone c hc).2

/-- The destroy calls create nothing and destroy, in this order, the swapchains (one call
per view), the stage space, the session and the instance. -/
theorem filterMap_teardownCalls (cfg : Session) (td : TeardownInput) :
    (teardownCalls cfg td).filterMap Call.creates = [] ∧
    (teardownCalls cfg td).filterMap Call.destroys =
      List.replicate cfg.numViewConfigs.toNat Resource.swapchain ++
        [.stageSpace, .xrSession, .xrInstance] := by
  have h1 : ∀ n : Nat, ((List.range n).map (fun i =>
      Call.xrDestroySwapchain (cfg.swapchains i).handle (td.destroySwapchain i))).filterMap
      Call.creates = [] := by
    intro n
    rw [List.filterMap_eq_nil_iff]
    intro c hc
    obtain ⟨i, -, rfl⟩ := List.mem_map.mp hc
    rfl
  have h3 : ∀ l : List Nat, (l.map (fun i =>
      Call.xrDestroySwapchain (cfg.swapchains i).handle (td.destroySwapchain i))).filterMap
      Call.destroys = List.replicate l.length Resource.swapchain := by
    intro l
    induction l with
    | nil => rfl
    | cons i l ih =>
      rw [List.map_cons, List.length_cons, List.replicate_succ, ← ih]
      rfl
  have h2 : ∀ n : Nat, ((List.range n).map (fun i =>
      Call.xrDestroySwapchain (cfg.swapchains i).handle (td.destroySwapchain i))).filterMap
      Call.destroys = List.replicate n Resource.swapchain := by
    intro n
    rw [h3, List.length_range]
  simp only [teardownCalls, List.filterMap_append, h1, h2]
  exact ⟨rfl, rfl⟩

/-- C18: (1) when an evaluation of the loop condition finds `CNFGHandleInput` returning 0,
`main` issues exactly the destroy calls `teardownCalls` (each view's swapchain, then the
stage space, then, after `xrEndSession`, the session, then the instance), whatever result
codes those calls return, and exits with code 0; (2) in a run that ends with exit code 0 the
log is the start-up calls, then loop calls, then those destroy calls, so the four kinds of
resource are created in the order instance, session, stage space, swapchains and destroyed
in the reverse order. -/
theorem main_teardown_order (genName : Nat → Nat) (start : StartupInput)
    (inputs : List LoopInput) :
    (∀ (cfg : Session) (inp : LoopInput) (rest : List LoopInput) (s : LoopState),
      inp.handleInput = 0 →
      (mainLoop genName cfg (inp :: rest) s).exitCode = some 0 ∧
      (mainLoop genName cfg (inp :: rest) s).world.log
        = s.world.log ++ teardownCalls cfg inp.teardown) ∧
    ((main genName start inputs).exitCode = some 0 →
      ∃ (inp : LoopInput) (mid : List Call), inp ∈ inputs ∧ inp.handleInput = 0 ∧
        (∀ c ∈ mid, c.isLoopCall = true) ∧
        (main genName start inputs).world.log
          = startupCalls start ++ mid ++ teardownCalls start.session inp.teardown ∧
        (main genName start inputs).world.log.filterMap Call.creates
          = [.xrInstance, .xrSession, .stageSpace, .swapchain] ∧
        (main genName start inputs).world.log.filterMap Call.destroys
          = List.replicate start.enumerateViewConfigs.toNat Resource.swapchain ++
              [.stageSpace, .xrSession, .xrInstance]) := by
  constructor
  · intro cfg inp rest s hh
    simp only [mainLoop, if_pos hh, teardown_log_eq]
    exact ⟨trivial, trivial⟩
  · intro h0
    have hm := main_of_exit_zero genName start inputs h0
    obtain ⟨k, mid, -, -, hmid, -, -, -, hfin⟩ := mainLoop_log genName start.session inputs
      { sessionReady := 0, xrState := XR_SESSION_STATE_UNKNOWN,
        world := { World.initial with log := startupCalls start } }
    rw [← hm] at hfin
    rcases hfin with ⟨-, inp, hk, hh, hl⟩ | ⟨hne, -⟩
    · obtain ⟨m1, m2⟩ := filterMap_loopCalls mid hmid
      obtain ⟨t1, t2⟩ := filterMap_teardownCalls start.session inp.teardown
      have hl' : (main genName start inputs).world.log
          = startupCalls start ++ mid ++ teardownCalls start.session inp.teardown := hl
      refine ⟨inp, mid, List.getElem?_mem hk, hh, hmid, hl', ?_, ?_⟩
      · rw [hl', List.filterMap_append, List.filterMap_append, m1, t1]
        rfl
      · rw [hl', List.filterMap_append, List.filterMap_append, m2, t2]
        rfl
    · exact absurd h0 hne

/-- Witness for C18: a run that receives a Ready event, renders one frame, and then finds
`CNFGHandleInput` returning 0, with `xrDestroySpace` and `xrEndSession` failing: all the
destroy calls are still issued and the exit code is 0. -/
theorem main_teardown_order_witness :
    ((mainLoop (fun k => 100 + k) exampleSession
        [{ exampleLoopInput 0 4 16 0 0 exampleFrame with
            teardown := { exampleTeardown with destroySpace := -1, endSession := -1 } }]
        { sessionReady := 1, xrState := XR_SESSION_STATE_FOCUSED,
          world := World.initial }).exitCode = some 0 ∧
      (mainLoop (fun k => 100 + k) exampleSession
        [{ exampleLoopInput 0 4 16 0 0 exampleFrame with
            teardown := { exampleTeardown with destroySpace := -1, endSession := -1 } }]
        { sessionReady := 1, xrState := XR_SESSION_STATE_FOCUSED,
          world := World.initial }).world.log
        = [] ++ [.xrDestroySwapchain 10 0, .xrDestroySwapchain 11 0, .xrDestroySpace 9 (-1),
            .xrEndSession (-1), .xrDestroySession 0, .xrDestroyInstance 0]) ∧
    ∃ (inp : LoopInput) (mid : List Call),
      inp ∈ [exampleLoopInput 1 0 18 2 0 exampleFrame,
        exampleLoopInput 0 4 16 0 0 exampleFrame] ∧ inp.handleInput = 0 ∧
      (∀ c ∈ mid, c.isLoopCall = true) ∧
      (main (fun k => 100 + k) exampleStartup
        [exampleLoopInput 1 0 18 2 0 exampleFrame,
         exampleLoopInput 0 4 16 0 0 exampleFrame]).world.log
        = startupCalls exampleStartup ++ mid ++
            teardownCalls exampleStartup.session inp.teardown ∧
      (main (fun k => 100 + k) exampleStartup
        [exampleLoopInput 1 0 18 2 0 exampleFrame,
         exampleLoopInput 0 4 16 0 0 exampleFrame]).world.log.filterMap Call.creates
        = [.xrInstance, .xrSession, .stageSpace, .swapchain] ∧
      (main (fun k => 100 + k) exampleStartup
        [exampleLoopInput 1 0 18 2 0 exampleFrame,
         exampleLoopInput 0 4 16 0 0 exampleFrame]).world.log.filterMap Call.destroys
        = List.replicate 2 Resource.swapchain ++ [.stageSpace, .xrSession, .xrInstance] :=
  ⟨(main_teardown_order (fun k => 100 + k) exampleStartup
      [exampleLoopInput 1 0 18 2 0 exampleFrame, exampleLoopInput 0 4 16 0 0 exampleFrame]).1
      exampleSession
      { exampleLoopInput 0 4 16 0 0 exampleFrame with
          teardown := { exampleTeardown with destroySpace := -1, endSession := -1 } }
      [] { sessionReady := 1, xrState := XR_SESSION_STATE_FOCUSED, world := World.initial }
      rfl,
   (main_teardown_order (fun k => 100 + k) exampleStartup
      [exampleLoopInput 1 0 18 2 0 exampleFrame, exampleLoopInput 0 4 16 0 0 exampleFrame]).2
      (by decide)⟩

/-! ### `ExtensionSupported` -/

/-- C19: for every extension array, every count `n` not exceeding its length and every name
`s`, `ExtensionSupported` returns 1 if some entry among the first `n` has `extensionName`
equal to `s` and returns 0 otherwise (in particular 0 for `n = 0`); the result is never
anything other than 0 or 1. -/
theorem ExtensionSupported_spec (extensions : List String) (n : Nat) (s : String)
    (hn : n ≤ extensions.length) :
    ((∃ j, j < n ∧ extensions[j]? = some s) → ExtensionSupported extensions (n : Int) s = 1) ∧
    ((¬ ∃ j, j < n ∧ extensions[j]? = some s) →
      ExtensionSupported extensions (n : Int) s = 0) ∧
    ExtensionSupported extensions ((0 : Nat) : Int) s = 0 ∧
    (ExtensionSupported extensions (n : Int) s = 0 ∨
      ExtensionSupported extensions (n : Int) s = 1) := by
  have key : (∃ j, 0 ≤ j ∧ j < 0 + n ∧ s = extensions.getD j "") ↔
      ∃ j, j < n ∧ extensions[j]? = some s := by
    constructor
    · rintro ⟨j, -, h2, h3⟩
      have hj : j < extensions.length := by omega
      refine ⟨j, by omega, ?_⟩
      rw [List.getD_eq_getElem _ _ hj] at h3
      rw [List.getElem?_eq_getElem hj, h3]
    · rintro ⟨j, h1, h2⟩
      have hj : j < extensions.length := by omega
      refine ⟨j, Nat.zero_le _, by omega, ?_⟩
      rw [List.getElem?_eq_getElem hj] at h2
      rw [List.getD_eq_getElem _ _ hj]
      exact (Option.some.inj h2).symm
  have hn' : ((n : Int)).toNat = n := Int.toNat_ofNat _
  obtain ⟨h1, h2⟩ := extensionSupportedLoop_eq extensions s n 0 0
  have e1 : (∃ j, j < n ∧ extensions[j]? = some s) →
      ExtensionSupported extensions (n : Int) s = 1 := by
    intro h
    unfold ExtensionSupported
    rw [hn']
    exact h1 (key.mpr h)
  have e2 : (¬ ∃ j, j < n ∧ extensions[j]? = some s) →
      ExtensionSupported extensions (n : Int) s = 0 := by
    intro h
    unfold ExtensionSupported
    rw [hn']
    exact h2 (fun h' => h (key.mp h'))
  refine ⟨e1, e2, rfl, ?_⟩
  by_cases h : ∃ j, j < n ∧ extensions[j]? = some s
  · exact Or.inr (e1 h)
  · exact Or.inl (e2 h)

/-- Witness for C19: three extensions of which the second is `XR_KHR_opengl_enable`; with
count 2 the name is found, with count 1 it is not. -/
theorem ExtensionSupported_spec_witness :
    ExtensionSupported ["XR_EXT_debug_utils", "XR_KHR_opengl_enable", "XR_KHR_vulkan_enable"]
      ((2 : Nat) : Int) "XR_KHR_opengl_enable" = 1 ∧
    ExtensionSupported ["XR_EXT_debug_utils", "XR_KHR_opengl_enable", "XR_KHR_vulkan_enable"]
      ((1 : Nat) : Int) "XR_KHR_opengl_enable" = 0 :=
  ⟨(ExtensionSupported_spec
      ["XR_EXT_debug_utils", "XR_KHR_opengl_enable", "XR_KHR_vulkan_enable"] 2
      "XR_KHR_opengl_enable" (by decide)).1 ⟨1, by decide, rfl⟩,
   (ExtensionSupported_spec
      ["XR_EXT_debug_utils", "XR_KHR_opengl_enable", "XR_KHR_vulkan_enable"] 1
      "XR_KHR_opengl_enable" (by decide)).2.1 (by decide)⟩

/-- The return value of `CreateActions` in terms of the runtime answers: it is 0 exactly
when `xrCreateActionSet`, one of the four `xrCreateAction` calls,
`xrSuggestInteractionProfileBindings`, one of the two `xrCreateActionSpace` calls or
`xrAttachSessionActionSets` returns a failure code, and 1 otherwise; the answers to
`xrStringToPath` do not occur. -/
theorem CreateActions_return (inp : ActionsInput) :
    (CreateActions inp).1 =
      if inp.createActionSet < 0 ∨ inp.createAction 0 < 0 ∨ inp.createAction 1 < 0 ∨
          inp.createAction 2 < 0 ∨ inp.createAction 3 < 0 ∨
          inp.suggestInteractionProfileBindings < 0 ∨ inp.createActionSpace 0 < 0 ∨
          inp.createActionSpace 1 < 0 ∨ inp.attachSessionActionSets < 0
      then 0 else 1 := by
  have hc : ∀ r : XrResult, (CheckResult r = 0) ↔ r < 0 := by
    intro r
    unfold CheckResult XR_SUCCEEDED
    by_cases h : 0 ≤ r
    · simp [h, not_lt.mpr h]
    · simp [h, not_le.mp h]
  unfold CreateActions
  simp only [hc]
  by_cases h0 : inp.createActionSet < 0
  · simp [h0]
  by_cases h1 : inp.createAction 0 < 0
  · simp [h0, h1]
  by_cases h2 : inp.createAction 1 < 0
  · simp [h0, h1, h2]
  by_cases h3 : inp.createAction 2 < 0
  · simp [h0, h1, h2, h3]
  by_cases h4 : inp.createAction 3 < 0
  · simp [h0, h1, h2, h3, h4]
  by_cases h5 : inp.suggestInteractionProfileBindings < 0
  · simp [h0, h1, h2, h3, h4, h5]
  by_cases h6 : inp.createActionSpace 0 < 0
  · simp [h0, h1, h2, h3, h4, h5, h6]
  by_cases h7 : inp.createActionSpace 1 < 0
  · simp [h0, h1, h2, h3, h4, h5, h6, h7]
  by_cases h8 : inp.attachSessionActionSets < 0
  · simp [h0, h1, h2, h3, h4, h5, h6, h7, h8]
  simp [h0, h1, h2, h3, h4, h5, h6, h7, h8]

/-- C20 (the code departs from the claim): whatever the fifteen `xrStringToPath` calls return,
`CreateActions` returns 1 when the other runtime calls succeed. With every `xrStringToPath`
returning the failure code -1, the call `xrStringToPath("/user/hand/left")` is made and fails,
`CreateActions` still returns 1 after issuing all 24 runtime calls, and `main`, handed that
return value, does not abort start-up: it enters the loop and exits with code 0. A failing
`xrCreateAction`, by contrast, makes `CreateActions` return 0. -/
theorem CreateActions_ignores_stringToPath_failure :
    (∀ stp : Nat → XrResult, (CreateActions (exampleActions stp)).1 = 1) ∧
    XR_SUCCEEDED (-1) = false ∧
    ActionCall.xrStringToPath "/user/hand/left" (-1)
      ∈ (CreateActions (exampleActions (fun _ => -1))).2 ∧
    (CreateActions (exampleActions (fun _ => -1))).1 = 1 ∧
    (CreateActions (exampleActions (fun _ => -1))).2.length = 24 ∧
    (main (fun k => 100 + k)
        { exampleStartup with
            createActions := (CreateActions (exampleActions (fun _ => -1))).1 }
        [exampleLoopInput 0 4 16 0 0 exampleFrame]).exitCode = some 0 ∧
    (CreateActions { exampleActions (fun _ => 0) with
        createAction := (fun k => if k = 2 then -1 else 0) }).1 = 0 := by
  refine ⟨?_, by decide, by decide, by decide, by decide, by decide, by decide⟩
  intro stp
  rw [CreateActions_return]
  simp [exampleActions]

/-! ### Depth range of the projection -/

/-- C22: for the OpenGL convention and `0 < nearZ < farZ`, the matrix of `InitProjectionMat`
sends an eye-space point `(x, y, -nearZ, 1)` to clip coordinates with `w = nearZ` and
`z = -nearZ`, hence normalised device depth -1, and a point `(x, y, -farZ, 1)` to clip
coordinates with `w = farZ` and `z = farZ`, hence normalised device depth +1; entries 2, 6, 3
and 7 are zero, so `x` and `y` do not contribute and clip `z` and `w` are
`m[10] * z + m[14]` and `m[11] * z + m[15]`. -/
theorem InitProjectionMat_depth_range {α : Type} [LinearOrderedField α]
    (tanLeft tanRight tanUp tanDown nearZ farZ x y : α) (hn : 0 < nearZ) (hf : nearZ < farZ) :
    (InitProjectionMat .GRAPHICS_OPENGL tanLeft tanRight tanUp tanDown nearZ farZ 10 * -nearZ
        + InitProjectionMat .GRAPHICS_OPENGL tanLeft tanRight tanUp tanDown nearZ farZ 14)
      / (InitProjectionMat .GRAPHICS_OPENGL tanLeft tanRight tanUp tanDown nearZ farZ 11 * -nearZ
        + InitProjectionMat .GRAPHICS_OPENGL tanLeft tanRight tanUp tanDown nearZ farZ 15)
      = -1 ∧
    (InitProjectionMat .GRAPHICS_OPENGL tanLeft tanRight tanUp tanDown nearZ farZ 10 * -farZ
        + InitProjectionMat .GRAPHICS_OPENGL tanLeft tanRight tanUp tanDown nearZ farZ 14)
      / (InitProjectionMat .GRAPHICS_OPENGL tanLeft tanRight tanUp tanDown nearZ farZ 11 * -farZ
        + InitProjectionMat .GRAPHICS_OPENGL tanLeft tanRight tanUp tanDown nearZ farZ 15)
      = 1 ∧
    (InitProjectionMat .GRAPHICS_OPENGL tanLeft tanRight tanUp tanDown nearZ
        farZ).toMatrix.mulVec ![x, y, -nearZ, 1] 2 = -nearZ ∧
    (InitProjectionMat .GRAPHICS_OPENGL tanLeft tanRight tanUp tanDown nearZ
        farZ).toMatrix.mulVec ![x, y, -nearZ, 1] 3 = nearZ ∧
    (InitProjectionMat .GRAPHICS_OPENGL tanLeft tanRight tanUp tanDown nearZ
        farZ).toMatrix.mulVec ![x, y, -farZ, 1] 2 = farZ ∧
    (InitProjectionMat .GRAPHICS_OPENGL tanLeft tanRight tanUp tanDown nearZ
        farZ).toMatrix.mulVec ![x, y, -farZ, 1] 3 = farZ := by
  have hne : farZ - nearZ ≠ 0 := sub_ne_zero.mpr (ne_of_gt hf)
  have hn0 : nearZ ≠ 0 := ne_of_gt hn
  have hf0 : farZ ≠ 0 := ne_of_gt (lt_trans hn hf)
  have e10 : InitProjectionMat .GRAPHICS_OPENGL tanLeft tanRight tanUp tanDown nearZ farZ 10
      = -(farZ + nearZ) / (farZ - nearZ) := by
    unfold InitProjectionMat
    simp only [if_neg (not_le.mpr hf)]
    rfl
  have e14 : InitProjectionMat .GRAPHICS_OPENGL tanLeft tanRight tanUp tanDown nearZ farZ 14
      = -(farZ * (nearZ + nearZ)) / (farZ - nearZ) := by
    unfold InitProjectionMat
    simp only [if_neg (not_le.mpr hf)]
    rfl
  have e11 : InitProjectionMat .GRAPHICS_OPENGL tanLeft tanRight tanUp tanDown nearZ farZ 11
      = -1 := by
    unfold InitProjectionMat
    simp only [if_neg (not_le.mpr hf)]
    rfl
  have e15 : InitProjectionMat .GRAPHICS_OPENGL tanLeft tanRight tanUp tanDown nearZ farZ 15
      = 0 := by
    unfold InitProjectionMat
    simp only [if_neg (not_le.mpr hf)]
    rfl
  have zn : -(farZ + nearZ) / (farZ - nearZ) * -nearZ
      + -(farZ * (nearZ + nearZ)) / (farZ - nearZ) = -nearZ := by
    field_simp
    ring
  have zf : -(farZ + nearZ) / (farZ - nearZ) * -farZ
      + -(farZ * (nearZ + nearZ)) / (farZ - nearZ) = farZ := by
    field_simp
    ring
  have row2 : ∀ z : α, (InitProjectionMat .GRAPHICS_OPENGL tanLeft tanRight tanUp tanDown nearZ
      farZ).toMatrix.mulVec ![x, y, z, 1] 2 =
      InitProjectionMat .GRAPHICS_OPENGL tanLeft tanRight tanUp tanDown nearZ farZ 10 * z
        + InitProjectionMat .GRAPHICS_OPENGL tanLeft tanRight tanUp tanDown nearZ farZ 14 := by
    intro z
    unfold InitProjectionMat
    simp only [if_neg (not_le.mpr hf)]
    simp [Mat16.toMatrix, mk16, Matrix.mulVec, Matrix.dotProduct, Fin.sum_univ_four]
  have row3 : ∀ z : α, (InitProjectionMat .GRAPHICS_OPENGL tanLeft tanRight tanUp tanDown nearZ
      farZ).toMatrix.mulVec ![x, y, z, 1] 3 =
      InitProjectionMat .GRAPHICS_OPENGL tanLeft tanRight tanUp tanDown nearZ farZ 11 * z
        + InitProjectionMat .GRAPHICS_OPENGL tanLeft tanRight tanUp tanDown nearZ farZ 15 := by
    intro z
    unfold InitProjectionMat
    simp only [if_neg (not_le.mpr hf)]
    simp [Mat16.toMatrix, mk16, Matrix.mulVec, Matrix.dotProduct, Fin.sum_univ_four]
  refine ⟨?_, ?_, ?_, ?_, ?_, ?_⟩
  · rw [e10, e14, e11, e15, zn]
    field_simp
  · rw [e10, e14, e11, e15, zf]
    field_simp
  · rw [row2, e10, e14, zn]
  · rw [row3, e11, e15]
    ring
  · rw [row2, e10, e14, zf]
  · rw [row3, e11, e15]
    ring

/-- Witness for C22: the planes `RenderLayer` uses, near 1/20 and far 100, over the
rationals. -/
theorem InitProjectionMat_depth_range_witness :
    (InitProjectionMat .GRAPHICS_OPENGL (-1 : ℚ) 1 (1 / 2) (-1 / 2) (1 / 20) 100 10 * -(1 / 20)
        + InitProjectionMat .GRAPHICS_OPENGL (-1 : ℚ) 1 (1 / 2) (-1 / 2) (1 / 20) 100 14)
      / (InitProjectionMat .GRAPHICS_OPENGL (-1 : ℚ) 1 (1 / 2) (-1 / 2) (1 / 20) 100 11
          * -(1 / 20)
        + InitProjectionMat .GRAPHICS_OPENGL (-1 : ℚ) 1 (1 / 2) (-1 / 2) (1 / 20) 100 15)
      = -1 ∧
    (InitProjectionMat .GRAPHICS_OPENGL (-1 : ℚ) 1 (1 / 2) (-1 / 2) (1 / 20) 100 10 * -100
        + InitProjectionMat .GRAPHICS_OPENGL (-1 : ℚ) 1 (1 / 2) (-1 / 2) (1 / 20) 100 14)
      / (InitProjectionMat .GRAPHICS_OPENGL (-1 : ℚ) 1 (1 / 2) (-1 / 2) (1 / 20) 100 11 * -100
        + InitProjectionMat .GRAPHICS_OPENGL (-1 : ℚ) 1 (1 / 2) (-1 / 2) (1 / 20) 100 15)
      = 1 :=
  ⟨(InitProjectionMat_depth_range (-1 : ℚ) 1 (1 / 2) (-1 / 2) (1 / 20) 100 0 0
      (by norm_num) (by norm_num)).1,
   (InitProjectionMat_depth_range (-1 : ℚ) 1 (1 / 2) (-1 / 2) (1 / 20) 100 0 0
      (by norm_num) (by norm_num)).2.1⟩

/-! ### The layer handed to the runtime -/

/-- C21 (the code departs from the claim): for every result code `k + 1` of `xrLocateViews`
(a success other than `XR_SUCCESS`, for instance `XR_SESSION_LOSS_PENDING = 3`), in a frame
whose other calls succeed and which asks for rendering, `RenderLayer` returns 1 without
entering the per-view loop, and `RenderFrame` calls `xrEndFrame` with `layerCount = 1` and a
layer whose `viewCount` and `views` were never assigned; with `XR_SUCCESS` both fields are
assigned. -/
theorem RenderFrame_submits_unassigned_layer (genName : Nat → Nat) (cfg : Session) (w : World)
    (k : Nat) :
    XR_SUCCEEDED ((k : Int) + 1) = true ∧
    RenderLayer genName cfg (exampleFrameLocate ((k : Int) + 1)) 555
        { layerFlags := 0, space := cfg.stageSpace, viewCount := none, views := none } w
      = (1, { layerFlags := 0, space := cfg.stageSpace, viewCount := none, views := none },
          w.call (.xrLocateViews 555 cfg.numViewConfigs ((k : Int) + 1))) ∧
    RenderFrame genName cfg (exampleFrameLocate ((k : Int) + 1)) w
      = (1, { w with log := w.log ++
          [.xrWaitFrame 0, .xrBeginFrame 0,
           .xrLocateViews 555 cfg.numViewConfigs ((k : Int) + 1),
           .xrEndFrame
             { displayTime := 555, environmentBlendMode := XR_ENVIRONMENT_BLEND_MODE_OPAQUE,
               layerCount := 1,
               layer := { layerFlags := 0, space := cfg.stageSpace,
                          viewCount := none, views := none } } 0] }) ∧
    (∃ (info : XrFrameEndInfo),
      Call.xrEndFrame info 0 ∈ (RenderFrame (fun n => 100 + n) exampleSession
        (exampleFrameLocate 0) World.initial).2.log ∧
      info.layerCount = 1 ∧ info.layer.viewCount = some 2 ∧
      info.layer.views = some .localOfReturnedRenderLayer) := by
  have hk : (0 : Int) ≤ (k : Int) + 1 := by omega
  have hk0 : ¬ ((k : Int) + 1 = 0) := by omega
  have hs : XR_SUCCEEDED ((k : Int) + 1) = true := by
    unfold XR_SUCCEEDED
    exact decide_eq_true hk
  have hc : CheckResult ((k : Int) + 1) = 1 := by
    unfold CheckResult
    rw [if_pos hs]
  have hu : XR_UNQUALIFIED_SUCCESS ((k : Int) + 1) = false := by
    unfold XR_UNQUALIFIED_SUCCESS
    exact decide_eq_false hk0
  have hl : ∀ w1 : World, RenderLayer genName cfg (exampleFrameLocate ((k : Int) + 1)) 555
        { layerFlags := 0, space := cfg.stageSpace, viewCount := none, views := none } w1
      = (1, { layerFlags := 0, space := cfg.stageSpace, viewCount := none, views := none },
          w1.call (.xrLocateViews 555 cfg.numViewConfigs ((k : Int) + 1))) := by
    intro w1
    unfold RenderLayer
    simp [exampleFrameLocate, hc, hu]
  have c0 : CheckResult 0 = 1 := rfl
  refine ⟨hs, hl w, ?_, ?_⟩
  · unfold RenderFrame
    simp only [exampleFrameLocate, c0, XR_TRUE, if_true] at hl ⊢
    simp [hl, World.call]
  · exact ⟨{ displayTime := 555, environmentBlendMode := XR_ENVIRONMENT_BLEND_MODE_OPAQUE,
             layerCount := 1,
             layer := { layerFlags := 0, space := 9, viewCount := some 2,
                        views := some .localOfReturnedRenderLayer } },
      by decide, rfl, rfl, rfl⟩

/-! ### The ready flag -/

/-- The first call of `RenderFrame` is `xrWaitFrame`. -/
theorem RenderFrame_log_head (genName : Nat → Nat) (cfg : Session) (frame : FrameInput)
    (w : World) :
    ∃ rest, (RenderFrame genName cfg frame w).2.log
      = w.log ++ .xrWaitFrame frame.waitFrame :: rest := by
  unfold RenderFrame
  simp only
  by_cases h1 : CheckResult frame.waitFrame = 0
  · rw [if_pos h1]
    exact ⟨[], rfl⟩
  rw [if_neg h1]
  by_cases h2 : CheckResult frame.beginFrame = 0
  · rw [if_pos h2]
    exact ⟨[.xrBeginFrame frame.beginFrame], by simp [World.call]⟩
  rw [if_neg h2]
  have key : ∃ seg,
      (if frame.shouldRender = XR_TRUE then
        match RenderLayer genName cfg frame frame.predictedDisplayTime
          { layerFlags := 0, space := cfg.stageSpace, viewCount := none, views := none }
          ((w.call (.xrWaitFrame frame.waitFrame)).call (.xrBeginFrame frame.beginFrame)) with
        | (0, layer, w) => ((0 : Int), layer, w)
        | (_, layer, w) => (0 + 1, layer, w)
      else ((0 : Int), { layerFlags := 0, space := cfg.stageSpace, viewCount := none,
                         views := none },
            (w.call (.xrWaitFrame frame.waitFrame)).call
              (.xrBeginFrame frame.beginFrame))).2.2.log
        = w.log ++ .xrWaitFrame frame.waitFrame :: seg := by
    by_cases hs : frame.shouldRender = XR_TRUE
    · rw [if_pos hs]
      obtain ⟨seg, hseg, -⟩ := RenderLayer_appends genName cfg frame
        frame.predictedDisplayTime
        { layerFlags := 0, space := cfg.stageSpace, viewCount := none, views := none }
        ((w.call (.xrWaitFrame frame.waitFrame)).call (.xrBeginFrame frame.beginFrame))
      revert hseg
      generalize RenderLayer genName cfg frame frame.predictedDisplayTime
        { layerFlags := 0, space := cfg.stageSpace, viewCount := none, views := none }
        ((w.call (.xrWaitFrame frame.waitFrame)).call (.xrBeginFrame frame.beginFrame)) = r
      obtain ⟨r1, r2, r3⟩ := r
      intro hseg
      simp only at hseg
      refine ⟨.xrBeginFrame frame.beginFrame :: seg, ?_⟩
      split
      · rename_i heq
        simp only [Prod.mk.injEq] at heq
        obtain ⟨-, -, rfl⟩ := heq
        simp [hseg, World.call]
      · rename_i heq
        simp only [Prod.mk.injEq] at heq
        obtain ⟨-, -, rfl⟩ := heq
        simp [hseg, World.call]
    · rw [if_neg hs]
      exact ⟨[.xrBeginFrame frame.beginFrame], by simp [World.call]⟩
  revert key
  generalize (if frame.shouldRender = XR_TRUE then
        match RenderLayer genName cfg frame frame.predictedDisplayTime
          { layerFlags := 0, space := cfg.stageSpace, viewCount := none, views := none }
          ((w.call (.xrWaitFrame frame.waitFrame)).call (.xrBeginFrame frame.beginFrame)) with
        | (0, layer, w) => ((0 : Int), layer, w)
        | (_, layer, w) => (0 + 1, layer, w)
      else ((0 : Int), { layerFlags := 0, space := cfg.stageSpace, viewCount := none,
                         views := none },
            (w.call (.xrWaitFrame frame.waitFrame)).call
              (.xrBeginFrame frame.beginFrame))) = X
  obtain ⟨x1, x2, x3⟩ := X
  rintro ⟨seg, hseg⟩
  simp only at hseg ⊢
  split_ifs <;>
    exact ⟨seg ++ [.xrEndFrame
      { displayTime := frame.predictedDisplayTime,
        environmentBlendMode := XR_ENVIRONMENT_BLEND_MODE_OPAQUE,
        layerCount := x1, layer := x2 } frame.endFrame], by simp [World.call, hseg]⟩

/-- With the ready flag set, the frame part of the loop body calls `SyncInput` and, unless
that fails, `RenderFrame`; it makes `main` return -1 when one of the two returns 0 and
otherwise runs to the end of the body with the flag unchanged. -/
theorem frameStep_of_sessionReady (genName : Nat → Nat) (cfg : Session) (inp : LoopInput)
    (s : LoopState) (h : s.sessionReady ≠ 0) :
    (inp.syncActions < 0 ∧
      frameStep genName cfg inp s
        = .returned (-1) (s.world.call (.xrSyncActions inp.syncActions))) ∨
    (0 ≤ inp.syncActions ∧ ∃ rest,
      ((RenderFrame genName cfg inp.frame (s.world.call (.xrSyncActions inp.syncActions))).1 = 0
        ∧ ∃ w, frameStep genName cfg inp s = .returned (-1) w ∧
          w.log = s.world.log ++
            .xrSyncActions inp.syncActions :: .xrWaitFrame inp.frame.waitFrame :: rest) ∨
      ((RenderFrame genName cfg inp.frame (s.world.call (.xrSyncActions inp.syncActions))).1 ≠ 0
        ∧ ∃ s', frameStep genName cfg inp s = .iterate s' ∧
          s'.sessionReady = s.sessionReady ∧
          s'.world.log = s.world.log ++
            .xrSyncActions inp.syncActions :: .xrWaitFrame inp.frame.waitFrame :: rest)) := by
  unfold frameStep
  rw [if_pos h]
  unfold SyncInput
  by_cases hsync : inp.syncActions < 0
  · left
    refine ⟨hsync, ?_⟩
    simp only [(CheckResult_eq_zero_iff _).mpr hsync, if_true]
  · right
    have hc : ¬ CheckResult inp.syncActions = 0 := by
      rw [CheckResult_eq_zero_iff]; exact hsync
    simp only [if_neg hc]
    obtain ⟨rest, hrest⟩ := RenderFrame_log_head genName cfg inp.frame
      (s.world.call (.xrSyncActions inp.syncActions))
    refine ⟨not_lt.mp hsync, rest, ?_⟩
    revert hrest
    generalize RenderFrame genName cfg inp.frame
      (s.world.call (.xrSyncActions inp.syncActions)) = r
    obtain ⟨r1, r2⟩ := r
    intro hrest
    simp only at hrest ⊢
    by_cases h0 : r1 = 0
    · subst h0
      exact Or.inl ⟨rfl, r2, rfl, by simp [hrest, World.call]⟩
    · have : (match ((r1, r2) : Int × World) with
          | (0, w) => Step.returned (-1) w
          | (_, w) => Step.iterate { s with world := w })
          = Step.iterate { s with world := r2 } := by
        split
        · rename_i heq
          simp only [Prod.mk.injEq] at heq
          exact absurd heq.1 h0
        · rename_i heq
          simp only [Prod.mk.injEq] at heq
          obtain ⟨-, rfl⟩ := heq
          rfl
      rw [this]
      exact Or.inr ⟨h0, _, rfl, rfl, by simp [hrest, World.call]⟩

/-- With the ready flag set, a pass through the loop body ends in one of four ways: exit 1
at a Ready event whose `xrBeginSession` fails, before `SyncInput`; exit -1 after a failed
`SyncInput`; exit -1 after `RenderFrame` returned 0; or the end of the body, after both
`SyncInput` and `RenderFrame` were called, with the flag still set. -/
theorem loopBody_of_sessionReady (genName : Nat → Nat) (cfg : Session) (inp : LoopInput)
    (s : LoopState) (h : s.sessionReady ≠ 0) :
    (inp.reportsReady ∧ inp.beginSession < 0 ∧
      loopBody genName cfg inp s = .returned 1
        ((s.world.call (.xrPollEvent inp.pollResult)).call
          (.xrBeginSession inp.beginSession))) ∨
    (¬ (inp.reportsReady ∧ inp.beginSession < 0) ∧ inp.syncActions < 0 ∧
      ∃ w, loopBody genName cfg inp s = .returned (-1) w ∧
        w.log = s.world.log ++ .xrPollEvent inp.pollResult ::
          ((if inp.reportsReady then [Call.xrBeginSession inp.beginSession] else []) ++
            [.xrSyncActions inp.syncActions])) ∨
    (¬ (inp.reportsReady ∧ inp.beginSession < 0) ∧ 0 ≤ inp.syncActions ∧
      ∃ w0 w rest, (RenderFrame genName cfg inp.frame w0).1 = 0 ∧
        loopBody genName cfg inp s = .returned (-1) w ∧
        w.log = s.world.log ++ iterationCalls inp rest) ∨
    (¬ (inp.reportsReady ∧ inp.beginSession < 0) ∧ 0 ≤ inp.syncActions ∧
      ∃ s' rest, loopBody genName cfg inp s = .iterate s' ∧ s'.sessionReady ≠ 0 ∧
        s'.world.log = s.world.log ++ iterationCalls inp rest) := by
  -- the state the frame part starts from, and the calls made before it
  have frame : ∀ s1 : LoopState, s1.sessionReady ≠ 0 →
      handleEvent inp { s with world := s.world.call (.xrPollEvent inp.pollResult) }
        = .iterate s1 →
      s1.world.log = s.world.log ++ .xrPollEvent inp.pollResult ::
        (if inp.reportsReady then [Call.xrBeginSession inp.beginSession] else []) →
      ¬ (inp.reportsReady ∧ inp.beginSession < 0) →
      (inp.syncActions < 0 ∧
        ∃ w, loopBody genName cfg inp s = .returned (-1) w ∧
          w.log = s.world.log ++ .xrPollEvent inp.pollResult ::
            ((if inp.reportsReady then [Call.xrBeginSession inp.beginSession] else []) ++
              [.xrSyncActions inp.syncActions])) ∨
      (0 ≤ inp.syncActions ∧
        ∃ w0 w rest, (RenderFrame genName cfg inp.frame w0).1 = 0 ∧
          loopBody genName cfg inp s = .returned (-1) w ∧
          w.log = s.world.log ++ iterationCalls inp rest) ∨
      (0 ≤ inp.syncActions ∧
        ∃ s' rest, loopBody genName cfg inp s = .iterate s' ∧ s'.sessionReady ≠ 0 ∧
          s'.world.log = s.world.log ++ iterationCalls inp rest) := by
    intro s1 hr1 he hlog _
    have hb : loopBody genName cfg inp s = frameStep genName cfg inp s1 := by
      simp only [loopBody, he]
    rw [hb]
    rcases frameStep_of_sessionReady genName cfg inp s1 hr1 with
      ⟨hs, hf⟩ | ⟨hs, rest, ⟨h0, w, hf, hw⟩ | ⟨-, s', hf, hr, hw⟩⟩
    · refine Or.inl ⟨hs, _, hf, ?_⟩
      simp [World.call, hlog]
    · refine Or.inr (Or.inl ⟨hs, _, w, rest, h0, hf, ?_⟩)
      rw [hw, hlog]
      simp [iterationCalls]
    · refine Or.inr (Or.inr ⟨hs, s', rest, hf, ?_, ?_⟩)
      · rw [hr]; exact hr1
      · rw [hw, hlog]
        simp [iterationCalls]
  rcases handleEvent_cases inp { s with world := s.world.call (.xrPollEvent inp.pollResult) }
    with ⟨hr, hb, he⟩ | ⟨hr, hb, he⟩ | ⟨hr, s1, he, hs1, hw1⟩
  · left
    refine ⟨hr, hb, ?_⟩
    simp only [loopBody, he]
  · right
    have hno : ¬ (inp.reportsReady ∧ inp.beginSession < 0) := fun hx =>
      absurd hb (not_le.mpr hx.2)
    rcases frame _ (by simp) he (by simp [World.call, if_pos hr]) hno with c | c | c
    · exact Or.inl ⟨hno, c⟩
    · exact Or.inr (Or.inl ⟨hno, c⟩)
    · exact Or.inr (Or.inr ⟨hno, c⟩)
  · right
    have hno : ¬ (inp.reportsReady ∧ inp.beginSession < 0) := fun hx => hr hx.1
    rcases frame s1 (by rw [hs1]; exact h) he (by rw [hw1]; simp [World.call, if_neg hr]) hno
      with c | c | c
    · exact Or.inl ⟨hno, c⟩
    · exact Or.inr (Or.inl ⟨hno, c⟩)
    · exact Or.inr (Or.inr ⟨hno, c⟩)

/-- With the ready flag set, a run of the loop that is still going after its inputs (none of
them asking for shutdown) has called `SyncInput` and `RenderFrame` in every iteration. -/
theorem mainLoop_of_sessionReady (genName : Nat → Nat) (cfg : Session) :
    ∀ (inputs : List LoopInput) (s : LoopState), s.sessionReady ≠ 0 →
      (∀ inp ∈ inputs, inp.handleInput ≠ 0) →
      (mainLoop genName cfg inputs s).exitCode = none →
      ∃ segs : List (List Call),
        (mainLoop genName cfg inputs s).world.log = s.world.log ++ segs.flatten ∧
        List.Forall₂ (fun inp seg => ∃ rest, seg = iterationCalls inp rest) inputs segs := by
  intro inputs
  induction inputs with
  | nil =>
    intro s _ _ _
    exact ⟨[], by simp [mainLoop], List.Forall₂.nil⟩
  | cons inp rest ih =>
    intro s hs hin hex
    have hh : inp.handleInput ≠ 0 := hin inp (List.mem_cons_self _ _)
    simp only [mainLoop, if_neg hh] at hex ⊢
    rcases loopBody_of_sessionReady genName cfg inp s hs with
      ⟨-, -, hb⟩ | ⟨-, -, w, hb, -⟩ | ⟨-, -, w0, w, r, -, hb, -⟩ | ⟨-, -, s', r, hb, hs', hw⟩
    · rw [hb] at hex
      exact absurd hex (by simp)
    · rw [hb] at hex
      exact absurd hex (by simp)
    · rw [hb] at hex
      exact absurd hex (by simp)
    · rw [hb] at hex ⊢
      simp only at hex ⊢
      obtain ⟨segs, hl, hf⟩ := ih s' hs' (fun i hi => hin i (List.mem_cons_of_mem _ hi)) hex
      refine ⟨iterationCalls inp r :: segs, ?_, List.Forall₂.cons ⟨r, rfl⟩ hf⟩
      rw [hl, hw]
      simp

/-- C23, counterexample to the claim as stated: the first iteration receives a Ready event
and sets the ready flag (it calls `SyncInput`); the second iteration, in which the
input-handling call does not signal shutdown and no frame call fails, receives another Ready
event whose `xrBeginSession` fails, and `main` returns 1 from the event handling: two polls,
one `xrSyncActions`, and the last call of the run is the failed `xrBeginSession`. -/
theorem main_ready_iteration_without_SyncInput :
    (main (fun k => 100 + k) exampleStartup
      [exampleLoopInput 1 0 XR_TYPE_EVENT_DATA_SESSION_STATE_CHANGED XR_SESSION_STATE_READY 0
         exampleFrame,
       exampleLoopInput 1 0 XR_TYPE_EVENT_DATA_SESSION_STATE_CHANGED XR_SESSION_STATE_READY
         (-1) exampleFrame]).exitCode = some 1 ∧
    (main (fun k => 100 + k) exampleStartup
      [exampleLoopInput 1 0 XR_TYPE_EVENT_DATA_SESSION_STATE_CHANGED XR_SESSION_STATE_READY 0
         exampleFrame,
       exampleLoopInput 1 0 XR_TYPE_EVENT_DATA_SESSION_STATE_CHANGED XR_SESSION_STATE_READY
         (-1) exampleFrame]).world.log.countP Call.isPollEvent = 2 ∧
    (main (fun k => 100 + k) exampleStartup
      [exampleLoopInput 1 0 XR_TYPE_EVENT_DATA_SESSION_STATE_CHANGED XR_SESSION_STATE_READY 0
         exampleFrame,
       exampleLoopInput 1 0 XR_TYPE_EVENT_DATA_SESSION_STATE_CHANGED XR_SESSION_STATE_READY
         (-1) exampleFrame]).world.log.countP Call.isSyncActions = 1 ∧
    (main (fun k => 100 + k) exampleStartup
      [exampleLoopInput 1 0 XR_TYPE_EVENT_DATA_SESSION_STATE_CHANGED XR_SESSION_STATE_READY 0
         exampleFrame,
       exampleLoopInput 1 0 XR_TYPE_EVENT_DATA_SESSION_STATE_CHANGED XR_SESSION_STATE_READY
         (-1) exampleFrame]).world.log.getLast? = some (.xrBeginSession (-1)) := by
  decide

/-- C23 as amended: the ready flag is monotone. From a state with the flag set, (1) a pass
through the loop body that runs to its end leaves the flag set, whatever event it polled,
(2) a pass ends in exactly one of four ways: exit 1 at a Ready event whose `xrBeginSession`
fails, before `SyncInput` is called; exit -1 after `SyncInput` failed; exit -1 after
`RenderFrame` returned 0; or the end of the body after `SyncInput` and `RenderFrame` were both
called; and (3) a run that is still going after inputs none of which signals shutdown has
called `SyncInput` and `RenderFrame` in every one of its iterations. -/
theorem sessionReady_monotone (genName : Nat → Nat) (cfg : Session) (inputs : List LoopInput)
    (s : LoopState) (h : s.sessionReady ≠ 0) :
    (∀ inp s', loopBody genName cfg inp s = .iterate s' → s'.sessionReady ≠ 0) ∧
    (∀ inp,
      (inp.reportsReady ∧ inp.beginSession < 0 ∧
        loopBody genName cfg inp s = .returned 1
          ((s.world.call (.xrPollEvent inp.pollResult)).call
            (.xrBeginSession inp.beginSession))) ∨
      (¬ (inp.reportsReady ∧ inp.beginSession < 0) ∧ inp.syncActions < 0 ∧
        ∃ w, loopBody genName cfg inp s = .returned (-1) w ∧
          w.log = s.world.log ++ .xrPollEvent inp.pollResult ::
            ((if inp.reportsReady then [Call.xrBeginSession inp.beginSession] else []) ++
              [.xrSyncActions inp.syncActions])) ∨
      (¬ (inp.reportsReady ∧ inp.beginSession < 0) ∧ 0 ≤ inp.syncActions ∧
        ∃ w0 w rest, (RenderFrame genName cfg inp.frame w0).1 = 0 ∧
          loopBody genName cfg inp s = .returned (-1) w ∧
          w.log = s.world.log ++ iterationCalls inp rest) ∨
      (¬ (inp.reportsReady ∧ inp.beginSession < 0) ∧ 0 ≤ inp.syncActions ∧
        ∃ s' rest, loopBody genName cfg inp s = .iterate s' ∧ s'.sessionReady ≠ 0 ∧
          s'.world.log = s.world.log ++ iterationCalls inp rest)) ∧
    ((∀ inp ∈ inputs, inp.handleInput ≠ 0) →
      (mainLoop genName cfg inputs s).exitCode = none →
      ∃ segs : List (List Call),
        (mainLoop genName cfg inputs s).world.log = s.world.log ++ segs.flatten ∧
        List.Forall₂ (fun inp seg => ∃ rest, seg = iterationCalls inp rest) inputs segs) := by
  refine ⟨fun inp s' hb => ?_, fun inp => loopBody_of_sessionReady genName cfg inp s h,
    mainLoop_of_sessionReady genName cfg inputs s h⟩
  rcases loopBody_of_sessionReady genName cfg inp s h with
    ⟨-, -, e⟩ | ⟨-, -, w, e, -⟩ | ⟨-, -, w0, w, r, -, e, -⟩ | ⟨-, -, s1, r, e, hs1, -⟩
  · rw [e] at hb; exact absurd hb (by simp)
  · rw [e] at hb; exact absurd hb (by simp)
  · rw [e] at hb; exact absurd hb (by simp)
  · rw [e] at hb
    cases hb
    exact hs1

/-- Witness for C23: from a focused session with the ready flag set, an iteration that polls
a Stopping event and one that polls an Exiting event both call `SyncInput` and
`RenderFrame`. -/
theorem sessionReady_monotone_witness :
    ∃ segs : List (List Call),
      (mainLoop (fun k => 100 + k) exampleSession
        [exampleLoopInput 1 0 XR_TYPE_EVENT_DATA_SESSION_STATE_CHANGED XR_SESSION_STATE_STOPPING
           0 exampleFrame,
         exampleLoopInput 1 0 XR_TYPE_EVENT_DATA_SESSION_STATE_CHANGED XR_SESSION_STATE_EXITING
           0 exampleFrame]
        { sessionReady := 1, xrState := XR_SESSION_STATE_FOCUSED,
          world := World.initial }).world.log = [] ++ segs.flatten ∧
      List.Forall₂ (fun inp seg => ∃ rest, seg = iterationCalls inp rest)
        [exampleLoopInput 1 0 XR_TYPE_EVENT_DATA_SESSION_STATE_CHANGED XR_SESSION_STATE_STOPPING
           0 exampleFrame,
         exampleLoopInput 1 0 XR_TYPE_EVENT_DATA_SESSION_STATE_CHANGED XR_SESSION_STATE_EXITING
           0 exampleFrame] segs :=
  (sessionReady_monotone (fun k => 100 + k) exampleSession
    [exampleLoopInput 1 0 XR_TYPE_EVENT_DATA_SESSION_STATE_CHANGED XR_SESSION_STATE_STOPPING
       0 exampleFrame,
     exampleLoopInput 1 0 XR_TYPE_EVENT_DATA_SESSION_STATE_CHANGED XR_SESSION_STATE_EXITING
       0 exampleFrame]
    { sessionReady := 1, xrState := XR_SESSION_STATE_FOCUSED, world := World.initial }
    (by decide)).2.2 (by decide) (by decide)

/-! ### Swapchain creation -/

/-- Every `xrCreateSwapchain` call of the first loop of `CreateSwapchains` carries the format
the loop was given and the recommended width and height of the view it is made for. -/
theorem createSwapchainsLoop_log (viewConfigs : Nat → XrViewConfigurationView)
    (inp : SwapchainsInput) (fmt : Int) :
    ∀ (remaining i : Nat) (swapchains : List SwapchainInfo) (log : List SwapchainCall),
      ∃ seg, (createSwapchainsLoop viewConfigs inp fmt remaining i swapchains log).2.2
          = log ++ seg ∧
        ∀ info r, SwapchainCall.xrCreateSwapchain info r ∈ seg →
          info.format = fmt ∧ ∃ j, i ≤ j ∧ j < i + remaining ∧
            info.width = (viewConfigs j).recommendedImageRectWidth ∧
            info.height = (viewConfigs j).recommendedImageRectHeight := by
  intro remaining
  induction remaining with
  | zero =>
    intro i swapchains log
    exact ⟨[], by simp [createSwapchainsLoop], by simp⟩
  | succ n ih =>
    intro i swapchains log
    unfold createSwapchainsLoop
    simp only
    by_cases hc : CheckResult (inp.createSwapchain i) = 0
    · rw [if_pos hc]
      refine ⟨[(SwapchainCall.xrCreateSwapchain
          { createFlags := 0,
            usageFlags :=
              XR_SWAPCHAIN_USAGE_SAMPLED_BIT ||| XR_SWAPCHAIN_USAGE_COLOR_ATTACHMENT_BIT,
            format := fmt, sampleCount := 1,
            width := (viewConfigs i).recommendedImageRectWidth,
            height := (viewConfigs i).recommendedImageRectHeight,
            faceCount := 1, arraySize := 1, mipCount := 1 } (inp.createSwapchain i))], rfl, ?_⟩
      intro info r hm
      rw [List.mem_singleton] at hm
      injection hm with h1 h2
      subst h1
      exact ⟨rfl, i, le_refl _, by omega, rfl, rfl⟩
    rw [if_neg hc]
    by_cases he : CheckResult (inp.enumerateImagesCount i) = 0
    · rw [if_pos he]
      refine ⟨[(SwapchainCall.xrCreateSwapchain
          { createFlags := 0,
            usageFlags :=
              XR_SWAPCHAIN_USAGE_SAMPLED_BIT ||| XR_SWAPCHAIN_USAGE_COLOR_ATTACHMENT_BIT,
            format := fmt, sampleCount := 1,
            width := (viewConfigs i).recommendedImageRectWidth,
            height := (viewConfigs i).recommendedImageRectHeight,
            faceCount := 1, arraySize := 1, mipCount := 1 } (inp.createSwapchain i)),
        (SwapchainCall.xrEnumerateSwapchainImages (inp.swapchainHandle i) 0
          (inp.enumerateImagesCount i))], by simp, ?_⟩
      intro info r hm
      simp only [List.mem_cons, List.mem_singleton, List.not_mem_nil, or_false] at hm
      rcases hm with hm | hm
      · injection hm with h1 h2
        subst h1
        exact ⟨rfl, i, le_refl _, by omega, rfl, rfl⟩
      · exact absurd hm (by simp)
    rw [if_neg he]
    obtain ⟨seg, hseg, hP⟩ := ih (i + 1)
      (swapchains ++
        [{ handle := inp.swapchainHandle i,
           width := toInt32 (viewConfigs i).recommendedImageRectWidth,
           height := toInt32 (viewConfigs i).recommendedImageRectHeight }])
      (log ++ [.xrCreateSwapchain
          { createFlags := 0,
            usageFlags :=
              XR_SWAPCHAIN_USAGE_SAMPLED_BIT ||| XR_SWAPCHAIN_USAGE_COLOR_ATTACHMENT_BIT,
            format := fmt, sampleCount := 1,
            width := (viewConfigs i).recommendedImageRectWidth,
            height := (viewConfigs i).recommendedImageRectHeight,
            faceCount := 1, arraySize := 1, mipCount := 1 } (inp.createSwapchain i)] ++
        [.xrEnumerateSwapchainImages (inp.swapchainHandle i) 0 (inp.enumerateImagesCount i)])
    rw [hseg]
    refine ⟨(SwapchainCall.xrCreateSwapchain
          { createFlags := 0,
            usageFlags :=
              XR_SWAPCHAIN_USAGE_SAMPLED_BIT ||| XR_SWAPCHAIN_USAGE_COLOR_ATTACHMENT_BIT,
            format := fmt, sampleCount := 1,
            width := (viewConfigs i).recommendedImageRectWidth,
            height := (viewConfigs i).recommendedImageRectHeight,
            faceCount := 1, arraySize := 1, mipCount := 1 } (inp.createSwapchain i)) ::
      (SwapchainCall.xrEnumerateSwapchainImages (inp.swapchainHandle i) 0
          (inp.enumerateImagesCount i)) :: seg, by simp, ?_⟩
    intro info r hm
    simp only [List.mem_cons] at hm
    rcases hm with hm | hm | hm
    · injection hm with h1 h2
      subst h1
      exact ⟨rfl, i, le_refl _, by omega, rfl, rfl⟩
    · exact absurd hm (by simp)
    · obtain ⟨hf, j, hj1, hj2, hw, hh⟩ := hP info r hm
      exact ⟨hf, j, by omega, by omega, hw, hh⟩

/-- The second loop of `CreateSwapchains` issues `xrEnumerateSwapchainImages` calls only. -/
theorem enumerateImagesLoop_log (inp : SwapchainsInput) :
    ∀ (remaining i : Nat) (log : List SwapchainCall),
      ∃ seg, (enumerateImagesLoop inp remaining i log).2 = log ++ seg ∧
        ∀ info r, SwapchainCall.xrCreateSwapchain info r ∉ seg := by
  intro remaining
  induction remaining with
  | zero =>
    intro i log
    exact ⟨[], by simp [enumerateImagesLoop], by simp⟩
  | succ n ih =>
    intro i log
    unfold enumerateImagesLoop
    simp only
    by_cases hc : CheckResult (inp.enumerateImagesFill i) = 0
    · rw [if_pos hc]
      exact ⟨[(SwapchainCall.xrEnumerateSwapchainImages (inp.swapchainHandle i)
        (inp.swapchainLength i) (inp.enumerateImagesFill i))], rfl, by simp⟩
    rw [if_neg hc]
    obtain ⟨seg, hseg, hP⟩ := ih (i + 1)
      (log ++ [.xrEnumerateSwapchainImages (inp.swapchainHandle i) (inp.swapchainLength i)
        (inp.enumerateImagesFill i)])
    rw [hseg]
    refine ⟨(SwapchainCall.xrEnumerateSwapchainImages (inp.swapchainHandle i)
        (inp.swapchainLength i) (inp.enumerateImagesFill i)) :: seg, by simp, ?_⟩
    intro info r hm
    simp only [List.mem_cons] at hm
    rcases hm with hm | hm
    · exact absurd hm (by simp)
    · exact hP info r hm

/-- C24 (the code departs from the claim): when both `xrEnumerateSwapchainFormats` calls
succeed, (1) with a format count of 0 the read `swapchainFormats[0]` falls outside the
array, which has no element; (2) with a positive count the read is inside the array,
`CreateSwapchains` returns, and every `xrCreateSwapchain` call it issued carries the format at
index 0 and the recommended image rect width and height of one of the views
`0 .. viewConfigsCount - 1`. -/
theorem CreateSwapchains_format_read (viewConfigs : Nat → XrViewConfigurationView)
    (viewConfigsCount : Nat) (inp : SwapchainsInput)
    (h1 : 0 ≤ inp.enumerateFormatsCount) (h2 : 0 ≤ inp.enumerateFormatsFill) :
    (inp.swapchainFormatCount = 0 →
      CreateSwapchains viewConfigs viewConfigsCount inp = none) ∧
    (0 < inp.swapchainFormatCount →
      ∃ code swapchains log,
        CreateSwapchains viewConfigs viewConfigsCount inp = some (code, swapchains, log) ∧
        ∀ info r, SwapchainCall.xrCreateSwapchain info r ∈ log →
          info.format = inp.swapchainFormats 0 ∧ ∃ j, j < viewConfigsCount ∧
            info.width = (viewConfigs j).recommendedImageRectWidth ∧
            info.height = (viewConfigs j).recommendedImageRectHeight) := by
  have c1 : ¬ CheckResult inp.enumerateFormatsCount = 0 := by
    rw [CheckResult_eq_zero_iff]; exact not_lt.mpr h1
  have c2 : ¬ CheckResult inp.enumerateFormatsFill = 0 := by
    rw [CheckResult_eq_zero_iff]; exact not_lt.mpr h2
  constructor
  · intro h0
    unfold CreateSwapchains
    simp only [if_neg c1, if_neg c2, h0]
    rfl
  · intro hpos
    have hread : ((List.range inp.swapchainFormatCount).map inp.swapchainFormats)[0]?
        = some (inp.swapchainFormats 0) := by
      rw [List.getElem?_map, List.getElem?_range hpos]
      rfl
    unfold CreateSwapchains
    simp only [if_neg c1, if_neg c2, hread]
    obtain ⟨seg, hseg, hP⟩ := createSwapchainsLoop_log viewConfigs inp (inp.swapchainFormats 0)
      viewConfigsCount 0 []
      ([SwapchainCall.xrEnumerateSwapchainFormats 0 inp.enumerateFormatsCount] ++
        [.xrEnumerateSwapchainFormats inp.swapchainFormatCount inp.enumerateFormatsFill])
    revert hseg
    generalize createSwapchainsLoop viewConfigs inp (inp.swapchainFormats 0)
      viewConfigsCount 0 []
      ([SwapchainCall.xrEnumerateSwapchainFormats 0 inp.enumerateFormatsCount] ++
        [.xrEnumerateSwapchainFormats inp.swapchainFormatCount inp.enumerateFormatsFill]) = r
    obtain ⟨r1, r2, r3⟩ := r
    intro hseg
    simp only at hseg
    have hlog : ∀ info r, SwapchainCall.xrCreateSwapchain info r ∈ r3 →
        info.format = inp.swapchainFormats 0 ∧ ∃ j, j < viewConfigsCount ∧
          info.width = (viewConfigs j).recommendedImageRectWidth ∧
          info.height = (viewConfigs j).recommendedImageRectHeight := by
      intro info r hm
      rw [hseg] at hm
      rcases List.mem_append.mp hm with hm | hm
      · simp at hm
      · obtain ⟨hf, j, -, hj, hw, hh⟩ := hP info r hm
        exact ⟨hf, j, by omega, hw, hh⟩
    split
    · rename_i heq
      simp only [Prod.mk.injEq] at heq
      obtain ⟨-, rfl, rfl⟩ := heq
      exact ⟨0, _, _, rfl, hlog⟩
    · rename_i heq
      simp only [Prod.mk.injEq] at heq
      obtain ⟨-, rfl, rfl⟩ := heq
      obtain ⟨seg2, hseg2, hP2⟩ := enumerateImagesLoop_log inp viewConfigsCount 0 r3
      revert hseg2
      generalize enumerateImagesLoop inp viewConfigsCount 0 r3 = q
      obtain ⟨q1, q2⟩ := q
      intro hseg2
      simp only at hseg2
      have hlog2 : ∀ info r, SwapchainCall.xrCreateSwapchain info r ∈ q2 →
          info.format = inp.swapchainFormats 0 ∧ ∃ j, j < viewConfigsCount ∧
            info.width = (viewConfigs j).recommendedImageRectWidth ∧
            info.height = (viewConfigs j).recommendedImageRectHeight := by
        intro info r hm
        rw [hseg2] at hm
        rcases List.mem_append.mp hm with hm | hm
        · exact hlog info r hm
        · exact absurd hm (hP2 info r)
      split
      · rename_i heq
        simp only [Prod.mk.injEq] at heq
        obtain ⟨-, rfl⟩ := heq
        exact ⟨0, _, _, rfl, hlog2⟩
      · rename_i heq
        simp only [Prod.mk.injEq] at heq
        obtain ⟨-, rfl⟩ := heq
        exact ⟨1, _, _, rfl, hlog2⟩

/-- Witness for C24: the runtime reports success and a format count of 0; the read of
`swapchainFormats[0]` is outside the array. -/
theorem CreateSwapchains_format_read_witness :
    XR_SUCCEEDED (exampleSwapchains 0).enumerateFormatsCount = true ∧
    XR_SUCCEEDED (exampleSwapchains 0).enumerateFormatsFill = true ∧
    (exampleSwapchains 0).swapchainFormatCount = 0 ∧
    CreateSwapchains exampleViewConfigs 2 (exampleSwapchains 0) = none :=
  ⟨by decide, by decide, rfl,
   (CreateSwapchains_format_read exampleViewConfigs 2 (exampleSwapchains 0)
      (by decide) (by decide)).1 rfl⟩

end OpenXRMinimal
